import Mathlib

/-!
# Verification of the HTWP heat pump topology generator

Shallow embedding of `src/models/heatpump.py` (class `Heatpump`): the
component generator (`generate_components`), the topology builder
(`generate_topology` with its primitive `set_conn`) and the deletion
operation (`delete_component`).

Python strings are modelled as Lean `String`, Python `str(n)` for a
non-negative int as `natRepr` (decimal digits, most significant first),
Python dicts as association lists with first-key lookup, in-place value
replacement on key collision and append on fresh keys (insertion order
preserved, as in Python 3.7+).  Errors (`KeyError`) are modelled with
`Except`, the error value carrying the message and the state at the
point of failure (Python mutates `self` in place, so state changes made
before an exception survive in the object).
-/

namespace HTWP

/-! ## Decimal representation of naturals (Python `str(n)` for `n ≥ 0`) -/

/-- Digit character for `n < 10`. -/
def digitChar (n : Nat) : Char :=
  Nat.digitChar n

/-- Fuelled decimal digits, most significant first. -/
def digitsAux (n : Nat) : Nat → List Char
  | 0 => []
  | fuel + 1 =>
    if n < 10 then [digitChar n]
    else digitsAux (n / 10) fuel ++ [digitChar (n % 10)]

/-- Decimal digits of `n`, most significant first. -/
def natDigits (n : Nat) : List Char :=
  digitsAux n (n + 1)

/-- Python `str(n)` for a natural number. -/
def natRepr (n : Nat) : String :=
  ⟨natDigits n⟩

/-- Python `str(i)` for an integer. -/
def intRepr (i : Int) : String :=
  if i < 0 then "-" ++ natRepr i.natAbs else natRepr i.toNat

theorem digitsAux_fuel_irrel (n : Nat) :
    ∀ f f', n < f → n < f' → digitsAux n f = digitsAux n f' := by
  induction n using Nat.strong_induction_on with
  | _ n ih =>
    intro f f' hf hf'
    match f, f' with
    | f + 1, f' + 1 =>
      by_cases h : n < 10
      · simp [digitsAux, h]
      · simp only [digitsAux, h, if_false]
        have hn : 0 < n := by omega
        have hlt : n / 10 < n := Nat.div_lt_self hn (by omega)
        rw [ih (n / 10) hlt f f' (by omega) (by omega)]

/-- Unfolding equation for `natDigits`. -/
theorem natDigits_eq (n : Nat) :
    natDigits n =
      if n < 10 then [digitChar n]
      else natDigits (n / 10) ++ [digitChar (n % 10)] := by
  by_cases h : n < 10
  · simp [natDigits, digitsAux, h]
  · have hn : 0 < n := by omega
    rw [if_neg h]
    have h1 : natDigits n = digitsAux (n / 10) n ++ [digitChar (n % 10)] := by
      simp [natDigits, digitsAux, h]
    rw [h1, digitsAux_fuel_irrel (n / 10) n (n / 10 + 1)
      (by omega) (by omega)]
    rfl

theorem natDigits_ne_nil (n : Nat) : natDigits n ≠ [] := by
  rw [natDigits_eq]
  by_cases h : n < 10 <;> simp [h]

theorem digitChar_isDigit {n : Nat} (h : n < 10) : (digitChar n).isDigit = true := by
  interval_cases n <;> decide

theorem mem_natDigits_isDigit (n : Nat) :
    ∀ c ∈ natDigits n, c.isDigit = true := by
  induction n using Nat.strong_induction_on with
  | _ n ih =>
    intro c hc
    rw [natDigits_eq] at hc
    by_cases h : n < 10
    · simp only [h, if_true, List.mem_singleton] at hc
      subst hc; exact digitChar_isDigit h
    · simp only [h, if_false, List.mem_append, List.mem_singleton] at hc
      rcases hc with hc | hc
      · exact ih (n / 10) (Nat.div_lt_self (by omega) (by omega)) c hc
      · subst hc; exact digitChar_isDigit (Nat.mod_lt n (by omega))

theorem digitChar_inj {a b : Nat} (ha : a < 10) (hb : b < 10)
    (h : digitChar a = digitChar b) : a = b := by
  interval_cases a <;> interval_cases b <;> simp_all <;> exact absurd h (by decide)

theorem natDigits_inj : ∀ m n : Nat, natDigits m = natDigits n → m = n := by
  intro m
  induction m using Nat.strong_induction_on with
  | _ m ih =>
    intro n h
    rw [natDigits_eq m] at h
    rw [natDigits_eq n] at h
    by_cases hm : m < 10 <;> by_cases hn : n < 10
    · rw [if_pos hm, if_pos hn] at h
      simp only [List.cons.injEq, and_true] at h
      exact digitChar_inj hm hn h
    · exfalso
      rw [if_pos hm, if_neg hn] at h
      have hlen := congrArg List.length h
      simp only [List.length_append, List.length_singleton] at hlen
      have h0 : (natDigits (n / 10)).length = 0 := by omega
      exact natDigits_ne_nil (n / 10) (List.length_eq_zero.mp h0)
    · exfalso
      rw [if_neg hm, if_pos hn] at h
      have hlen := congrArg List.length h
      simp only [List.length_append, List.length_singleton] at hlen
      have h0 : (natDigits (m / 10)).length = 0 := by omega
      exact natDigits_ne_nil (m / 10) (List.length_eq_zero.mp h0)
    · rw [if_neg hm, if_neg hn] at h
      have h2 := List.append_inj' h (by simp)
      have hdiv : m / 10 = n / 10 :=
        ih (m / 10) (Nat.div_lt_self (by omega) (by omega)) (n / 10) h2.1
      have hmod : m % 10 = n % 10 := by
        have h3 := h2.2
        simp only [List.cons.injEq, and_true] at h3
        exact digitChar_inj (Nat.mod_lt m (by omega)) (Nat.mod_lt n (by omega)) h3
      omega

/-- Splitting lemma: decimal digit blocks followed by non-digit material
split uniquely. -/
theorem natDigits_append_inj {a b : Nat} {r s : List Char}
    (h : natDigits a ++ r = natDigits b ++ s)
    (hr : ∀ c, r.head? = some c → c.isDigit = false)
    (hs : ∀ c, s.head? = some c → c.isDigit = false) :
    a = b ∧ r = s := by
  rcases List.append_eq_append_iff.mp h with ⟨e, he1, he2⟩ | ⟨e, he1, he2⟩
  · cases e with
    | nil =>
      simp at he1 he2
      exact ⟨natDigits_inj a b he1.symm ▸ rfl, he2⟩
    | cons c e' =>
      exfalso
      have hc : c.isDigit = true := by
        apply mem_natDigits_isDigit b
        rw [he1]; simp
      have hc' : c.isDigit = false := hr c (by rw [he2]; rfl)
      rw [hc] at hc'; cases hc'
  · cases e with
    | nil =>
      simp at he1 he2
      exact ⟨natDigits_inj a b he1, he2.symm⟩
    | cons c e' =>
      exfalso
      have hc : c.isDigit = true := by
        apply mem_natDigits_isDigit a
        rw [he1]; simp
      have hc' : c.isDigit = false := hs c (by rw [he2]; rfl)
      rw [hc] at hc'; cases hc'

/-! ## Generic list-of-chars utilities: prefix, substring, ordering -/

/-- Boolean prefix test on char lists. -/
def isPrefixB : List Char → List Char → Bool
  | [], _ => true
  | _ :: _, [] => false
  | a :: as, b :: bs => a = b && isPrefixB as bs

/-- Boolean substring test: does `pat` occur contiguously in `hay`?
Mirrors Python's `pat in hay`. -/
def containsB (hay pat : List Char) : Bool :=
  isPrefixB pat hay ||
    match hay with
    | [] => false
    | _ :: t => containsB t pat

/-- Python `pat in hay` on strings. -/
def strContains (hay pat : String) : Bool :=
  containsB hay.data pat.data

/-- Lexicographic `≤` on char lists by code point, as Python compares
strings. -/
def charsLe : List Char → List Char → Bool
  | [], _ => true
  | _ :: _, [] => false
  | a :: as, b :: bs => if a = b then charsLe as bs else decide (a < b)

/-- `a ≥ b` comparator on strings; `mergeSort` with this comparator is
Python's `sort(reverse=True)` for lists of distinct strings. -/
def strGeB (a b : String) : Bool :=
  charsLe b.data a.data

theorem isPrefixB_refl_append (p r : List Char) : isPrefixB p (p ++ r) = true := by
  induction p with
  | nil => rfl
  | cons a as ih => simp [isPrefixB, ih]

theorem containsB_of_prefix {hay pat : List Char} (h : isPrefixB pat hay = true) :
    containsB hay pat = true := by
  cases hay <;> simp [containsB, h]

theorem not_mem_of_isPrefixB {pat hay : List Char} {c : Char}
    (hpat : pat.head? = some c) (hmem : c ∉ hay) : isPrefixB pat hay = false := by
  cases pat with
  | nil => cases hpat
  | cons a as =>
    cases hay with
    | nil => rfl
    | cons b bs =>
      simp only [List.head?] at hpat
      injection hpat with hpat
      subst hpat
      simp only [List.mem_cons, not_or] at hmem
      simp [isPrefixB, hmem.1]

theorem containsB_eq_false_of_head_not_mem {hay pat : List Char} {c : Char}
    (hpat : pat.head? = some c) (hmem : c ∉ hay) : containsB hay pat = false := by
  induction hay with
  | nil =>
    simp only [containsB, Bool.or_false]
    exact not_mem_of_isPrefixB hpat hmem
  | cons b bs ih =>
    simp only [List.mem_cons, not_or] at hmem
    simp only [containsB]
    rw [not_mem_of_isPrefixB hpat (by simp [hmem.1, hmem.2]), ih hmem.2]
    rfl

/-- If the head char of the pattern occurs in the haystack only at the very
front, an occurrence must be a prefix occurrence. -/
theorem containsB_cons_eq_isPrefixB {c : Char} {rest pat : List Char}
    (hpat : pat.head? = some c) (hmem : c ∉ rest) :
    containsB (c :: rest) pat = isPrefixB pat (c :: rest) := by
  simp only [containsB]
  rw [containsB_eq_false_of_head_not_mem hpat hmem]
  simp

/-- A mismatch inside the common concrete region of two prefixes. -/
def clash : List Char → List Char → Bool
  | a :: as, b :: bs => a ≠ b || clash as bs
  | _, _ => false

theorem ne_of_clash : ∀ {p q : List Char}, clash p q = true →
    ∀ (r s : List Char), p ++ r ≠ q ++ s := by
  intro p
  induction p with
  | nil => intro q h; cases q <;> cases h
  | cons a as ih =>
    intro q h r s
    cases q with
    | nil => cases h
    | cons b bs =>
      simp only [clash, Bool.or_eq_true, bne_iff_ne, ne_eq, decide_eq_true_eq] at h
      intro heq
      simp only [List.cons_append, List.cons.injEq] at heq
      rcases h with h | h
      · exact h heq.1
      · exact ih h r s heq.2

theorem string_ne_of_data_ne {a b : String} (h : a.data ≠ b.data) : a ≠ b := by
  intro hab; exact h (by rw [hab])

theorem string_eq_iff_data_eq {a b : String} : a = b ↔ a.data = b.data := by
  constructor
  · intro h; rw [h]
  · intro h
    exact String.ext h

/-! ## Ordering lemmas for the descending string sort -/

theorem charsLe_total : ∀ a b : List Char, charsLe a b || charsLe b a = true := by
  intro a
  induction a with
  | nil => intro b; simp [charsLe]
  | cons x xs ih =>
    intro b
    cases b with
    | nil => simp [charsLe]
    | cons y ys =>
      by_cases h : x = y
      · subst h; simp only [charsLe, if_pos rfl]; exact ih ys
      · have h' : y ≠ x := fun hyx => h hyx.symm
        simp only [charsLe, if_neg h, if_neg h']
        rcases lt_trichotomy x y with hlt | heq | hgt
        · simp [hlt]
        · exact absurd heq h
        · simp [hgt, not_lt_of_lt hgt]

theorem charsLe_trans : ∀ a b c : List Char,
    charsLe a b = true → charsLe b c = true → charsLe a c = true := by
  intro a
  induction a with
  | nil => intro b c _ _; rfl
  | cons x xs ih =>
    intro b c hab hbc
    cases b with
    | nil => cases hab
    | cons y ys =>
      cases c with
      | nil => cases hbc
      | cons z zs =>
        by_cases hxy : x = y <;> by_cases hyz : y = z
        · subst hxy; subst hyz
          simp only [charsLe, if_pos rfl] at *
          exact ih ys zs hab hbc
        · subst hxy
          simp only [charsLe, if_pos rfl, if_neg hyz] at *
          simp [hyz] at hbc ⊢
          exact hbc
        · subst hyz
          simp only [charsLe, if_neg hxy, if_pos rfl] at *
          simp [hxy] at hab ⊢
          exact hab
        · simp only [charsLe, if_neg hxy, if_neg hyz] at hab hbc
          simp only [decide_eq_true_eq] at hab hbc
          have hxz : x < z := lt_trans hab hbc
          have : x ≠ z := ne_of_lt hxz
          simp [charsLe, this, hxz]

theorem charsLe_antisymm : ∀ a b : List Char,
    charsLe a b = true → charsLe b a = true → a = b := by
  intro a
  induction a with
  | nil => intro b _ hba; cases b with | nil => rfl | cons y ys => cases hba
  | cons x xs ih =>
    intro b hab hba
    cases b with
    | nil => cases hab
    | cons y ys =>
      by_cases hxy : x = y
      · subst hxy
        simp only [charsLe, if_pos rfl] at hab hba
        rw [ih ys hab hba]
      · have hyx : y ≠ x := fun h => hxy h.symm
        simp only [charsLe, if_neg hxy, if_neg hyx, decide_eq_true_eq] at hab hba
        exact absurd hba (not_lt_of_lt hab)

theorem charsLe_append_common (p : List Char) :
    ∀ a b, charsLe (p ++ a) (p ++ b) = charsLe a b := by
  induction p with
  | nil => intro a b; rfl
  | cons x xs ih => intro a b; simp [charsLe, ih]

theorem strGeB_total (a b : String) : strGeB a b || strGeB b a = true := by
  simpa [strGeB, Bool.or_comm] using charsLe_total a.data b.data

theorem strGeB_trans (a b c : String)
    (hab : strGeB a b = true) (hbc : strGeB b c = true) : strGeB a c = true :=
  charsLe_trans c.data b.data a.data hbc hab

theorem strGeB_antisymm (a b : String)
    (hab : strGeB a b = true) (hba : strGeB b a = true) : a = b :=
  string_eq_iff_data_eq.mpr (charsLe_antisymm a.data b.data hba hab)

/-! ## Python dict operations on association lists

Python 3.7+ dicts preserve insertion order; assignment to an existing key
replaces the value in place, assignment to a fresh key appends. -/

/-- First-match lookup (`d[k]` / `k in d`). -/
def dget {α : Type} : List (String × α) → String → Option α
  | [], _ => none
  | (k', v) :: t, k => if k' = k then some v else dget t k

/-- `d[k] = v`: replace in place if the key exists, else append. -/
def dinsert {α : Type} : List (String × α) → String → α → List (String × α)
  | [], k, v => [(k, v)]
  | (k', v') :: t, k, v =>
    if k' = k then (k', v) :: t else (k', v') :: dinsert t k v

/-- `del d[k]`: remove the (unique) entry with the given key. -/
def derase {α : Type} : List (String × α) → String → List (String × α)
  | [], _ => []
  | (k', v') :: t, k => if k' = k then t else (k', v') :: derase t k

/-- Key list of a dict. -/
def dkeys {α : Type} (m : List (String × α)) : List String :=
  m.map Prod.fst

/-- First-match lookup in an int-keyed dict (`int_heatex`, `intercooler`). -/
def alGet {α : Type} : List (Nat × α) → Nat → Option α
  | [], _ => none
  | (k', v) :: t, k => if k' = k then some v else alGet t k

/-! ## Data model -/

/-- TESPy component kinds used by the generator. -/
inductive Kind where
  | src
  | sink
  | pump
  | heatExchanger
  | heatExchangerSimple
  | condenser
  | compressor
  | valve
  | cycleCloser
deriving DecidableEq

/-- A TESPy component: display label plus kind. -/
structure Component where
  label : String
  kind : Kind
deriving DecidableEq

/-- A TESPy connection: label, source component and outlet, target
component and inlet (the `Connection` object stores the component
objects themselves). -/
structure Conn where
  label : String
  source : Component
  outlet : String
  target : Component
  inlet : String
deriving DecidableEq

/-- Value of an `int_heatex` entry: a single cold-cycle index or a list of
cold-cycle indices. -/
inductive IHVal where
  | single (t : Nat)
  | list (ts : List Nat)
deriving DecidableEq

/-- Value of an `intercooler` entry: `{'amount': ..., 'type': ...}`.
`amount` is a Python int. -/
structure ICSpec where
  amount : Int
  ictype : String
deriving DecidableEq

/-- Constructor arguments of `Heatpump`. -/
structure Config where
  fluids : List String
  nr_cycles : Nat
  int_heatex : List (Nat × IHVal)
  intercooler : List (Nat × ICSpec)
deriving DecidableEq

/-- Mutable state of a `Heatpump` object: the component store, the
connection store, and the list of connections registered with the `Network`
collaborator via `add_conns`. -/
structure St where
  components : List (String × Component)
  connections : List (String × Conn)
  nw_conns : List Conn
deriving DecidableEq

/-! ## Component and connection names (f-strings of the source) -/

def ccKey (c : Nat) : String := "Cycle Closer " ++ natRepr c

def valveKey (c : Nat) : String := "Valve " ++ natRepr c

def hxKey (a b : Nat) : String :=
  "Heat Exchanger " ++ natRepr a ++ "_" ++ natRepr b

def condKey (c : Nat) : String := "Condenser " ++ natRepr c

def compKey (c : Nat) : String := "Compressor " ++ natRepr c

/-- Store key of a stage compressor: `f'Compressor {cycle}-{i}'`. -/
def icCompKey (c i : Nat) : String :=
  "Compressor " ++ natRepr c ++ "-" ++ natRepr i

/-- Label of a stage compressor object: `f'Compressor {cycle}_{i}'`
(underscore, unlike its store key). -/
def icCompLabel (c i : Nat) : String :=
  "Compressor " ++ natRepr c ++ "_" ++ natRepr i

def interKey (c i : Nat) : String :=
  "Intercooler " ++ natRepr c ++ "-" ++ natRepr i

def ihxName (h t : Nat) : String :=
  "Internal Heat Exchanger " ++ natRepr h ++ "_" ++ natRepr t

/-! ## `generate_components` (heatpump.py lines 97-188) -/

/-- The seven fixed components created before the cycle loop. -/
def fixedComponents : List (String × Component) :=
  [("Heat Source Feed Flow", ⟨"Heat Source Feed Flow", .src⟩),
   ("Heat Source Back Flow", ⟨"Heat Source Back Flow", .sink⟩),
   ("Heat Source Recirculation Pump", ⟨"Heat Source Recirculation Pump", .pump⟩),
   ("Evaporator 1", ⟨"Evaporator 1", .heatExchanger⟩),
   ("Consumer Cycle Closer", ⟨"Consumer Cycle Closer", .cycleCloser⟩),
   ("Consumer Recirculation Pump", ⟨"Consumer Recirculation Pump", .pump⟩),
   ("Consumer", ⟨"Consumer", .heatExchangerSimple⟩)]

/-- The intercooler/stage-compressor creation loop
(`for i in range(1, nr_intercooler+2)`, lines 155-169). -/
def genIntercoolerStages (spec : ICSpec) (cycle : Nat)
    (m : List (String × Component)) : List (String × Component) :=
  (List.range' 1 (spec.amount + 1).toNat).foldl
    (fun (m : List (String × Component)) (i : Nat) =>
      let m :=
        if (i : Int) < spec.amount + 1 then
          if spec.ictype = "HeatExchanger" then
            dinsert m (interKey cycle i) ⟨interKey cycle i, .heatExchanger⟩
          else if spec.ictype = "HeatExchangerSimple" then
            dinsert m (interKey cycle i) ⟨interKey cycle i, .heatExchangerSimple⟩
          else m
        else m
      dinsert m (icCompKey cycle i) ⟨icCompLabel cycle i, .compressor⟩)
    m

/-- Cycle closer and valve creation (lines 131-137). -/
def genCycleBase (cycle : Nat) (m : List (String × Component)) :
    List (String × Component) :=
  dinsert (dinsert m (ccKey cycle) ⟨ccKey cycle, .cycleCloser⟩)
    (valveKey cycle) ⟨valveKey cycle, .valve⟩

/-- Inter-cycle heat exchanger creation (lines 139-143). -/
def genCycleHx (cycle : Nat) (m : List (String × Component)) :
    List (String × Component) :=
  if cycle ≠ 1 then
    dinsert m (hxKey (cycle - 1) cycle) ⟨hxKey (cycle - 1) cycle, .heatExchanger⟩
  else m

/-- Condenser creation in the topmost cycle (lines 145-149). -/
def genCycleCond (cfg : Config) (cycle : Nat) (m : List (String × Component)) :
    List (String × Component) :=
  if cycle = cfg.nr_cycles then
    dinsert m (condKey cycle) ⟨condKey cycle, .condenser⟩
  else m

/-- Compression-stage creation (lines 151-174): intercooled stages when an
intercooler spec exists, a single compressor otherwise. -/
def genCycleCompression (cfg : Config) (cycle : Nat)
    (m : List (String × Component)) : List (String × Component) :=
  match alGet cfg.intercooler cycle with
  | some spec => genIntercoolerStages spec cycle m
  | none => dinsert m (compKey cycle) ⟨compKey cycle, .compressor⟩

/-- Internal heat exchanger creation (lines 176-188). -/
def genCycleIhx (cfg : Config) (cycle : Nat) (m : List (String × Component)) :
    List (String × Component) :=
  match alGet cfg.int_heatex cycle with
  | some (.list ts) =>
    ts.foldl
      (fun m t => dinsert m (ihxName cycle t) ⟨ihxName cycle t, .heatExchanger⟩) m
  | some (.single t) => dinsert m (ihxName cycle t) ⟨ihxName cycle t, .heatExchanger⟩
  | none => m

/-- Per-cycle component creation (lines 130-188). -/
def genCycleComponents (cfg : Config) (m : List (String × Component))
    (cycle : Nat) : List (String × Component) :=
  genCycleIhx cfg cycle
    (genCycleCompression cfg cycle
      (genCycleCond cfg cycle (genCycleHx cycle (genCycleBase cycle m))))

/-- `generate_components` builds the component dict. -/
def generate_components (cfg : Config) : List (String × Component) :=
  (List.range' 1 cfg.nr_cycles).foldl (genCycleComponents cfg) fixedComponents

/-! ## `set_conn` (lines 427-454) -/

/-- The connection-creating primitive.  Python evaluates
`self.components[comp_out]` and `self.components[comp_in]` (raising
`KeyError` when absent, before any state change), then assigns
`self.connections[label]` (silently replacing an existing entry) and
registers the connection with the network.  Errors carry the state at the
point of failure. -/
def set_conn (st : St) (label comp_out outlet comp_in inlet : String) :
    Except (String × St) St :=
  match dget st.components comp_out with
  | none => .error ("KeyError: " ++ comp_out, st)
  | some csrc =>
    match dget st.components comp_in with
    | none => .error ("KeyError: " ++ comp_in, st)
    | some ctgt =>
      let c : Conn := ⟨label, csrc, outlet, ctgt, inlet⟩
      .ok { st with
            connections := dinsert st.connections label c,
            nw_conns := st.nw_conns ++ [c] }

/-! ## `generate_topology` (lines 190-425) -/

/-- The cold-side internal-heat-exchanger collection for a cycle
(lines 249-257): iterate `i` over `1..nr_cycles` and collect those whose
`int_heatex` entry points (directly or in a list) at `cycle`. -/
def cycle_int_heatex (cfg : Config) (cycle : Nat) : List Nat :=
  (List.range' 1 cfg.nr_cycles).foldl
    (fun acc i =>
      match alGet cfg.int_heatex i with
      | some (.single t) => if t = cycle then acc ++ [i] else acc
      | some (.list ts) => if cycle ∈ ts then acc ++ [i] else acc
      | none => acc)
    []

/-- The hot-side internal-heat-exchanger collection for a cycle
(lines 374-378): filter the component keys by the substring
`f'Internal Heat Exchanger {cycle}'`, then `sort(reverse=True)`
(lexicographically descending by code point).  Python's sort is stable,
but the filtered keys come from a dict and are pairwise distinct, so any
comparison sort computes the same list; insertion sort is used because it
is structurally recursive. -/
def int_heatexs_of (comps : List (String × Component)) (cycle : Nat) :
    List String :=
  List.insertionSort (fun a b => strGeB a b = true)
    ((dkeys comps).filter
      (fun k => strContains k ("Internal Heat Exchanger " ++ natRepr cycle)))

/-- `int_heatex.split(' ')[-1]`: the last space-separated token. -/
def lastToken (s : String) : String :=
  ⟨(s.data.reverse.takeWhile (fun c => c ≠ ' ')).reverse⟩

/-- Wiring of one cycle (the body of the loop at lines 235-425). -/
def wireCycle (cfg : Config) (st : St) (cycle : Nat) :
    Except (String × St) St := do
  let st ← set_conn st
    ("cc" ++ natRepr cycle ++ "_to_valve" ++ natRepr cycle)
    (ccKey cycle) "out1" (valveKey cycle) "in1"
  let st ←
    if cycle ≠ 1 then
      set_conn st
        ("valve" ++ natRepr cycle ++ "_to_heat_ex" ++ natRepr (cycle - 1)
          ++ "_" ++ natRepr cycle)
        (valveKey cycle) "out1" (hxKey (cycle - 1) cycle) "in2"
    else pure st
  let cold := cycle_int_heatex cfg cycle
  let r ← cold.foldlM
    (fun (p : St × Option Nat) c_int_heatex => do
      let st := p.1
      let st ←
        match p.2 with
        | none =>
          if cycle = 1 then
            set_conn st
              ("evaporator" ++ natRepr cycle ++ "_to_int_heatex"
                ++ natRepr c_int_heatex ++ "_" ++ natRepr cycle)
              "Evaporator 1" "out2" (ihxName c_int_heatex cycle) "in2"
          else
            set_conn st
              ("heatex" ++ natRepr (cycle - 1) ++ "_" ++ natRepr cycle
                ++ "_to_int_heatex" ++ natRepr c_int_heatex ++ "_" ++ natRepr cycle)
              (hxKey (cycle - 1) cycle) "out2" (ihxName c_int_heatex cycle) "in2"
        | some last =>
          set_conn st
            ("int_heatex" ++ natRepr last ++ "_" ++ natRepr cycle
              ++ "_to_int_heatex" ++ natRepr c_int_heatex ++ "_" ++ natRepr cycle)
            (ihxName last cycle) "out2" (ihxName c_int_heatex cycle) "in2"
      pure (st, some c_int_heatex))
    (st, (none : Option Nat))
  let st := r.1
  let last_int_heatex := r.2
  let st ←
    match alGet cfg.intercooler cycle with
    | some spec => do
      let st ←
        match last_int_heatex with
        | none =>
          if cycle = 1 then
            set_conn st
              ("evaporator1_to_comp" ++ natRepr cycle ++ "-1")
              "Evaporator 1" "out2" (icCompKey cycle 1) "in1"
          else
            set_conn st
              ("heatex" ++ natRepr (cycle - 1) ++ "_" ++ natRepr cycle
                ++ "_to_comp" ++ natRepr cycle)
              (hxKey (cycle - 1) cycle) "out2" (icCompKey cycle 1) "in1"
        | some last =>
          set_conn st
            ("int_heatex" ++ natRepr last ++ "_" ++ natRepr cycle
              ++ "_to_comp" ++ natRepr cycle)
            (ihxName last cycle) "out2" (icCompKey cycle 1) "in1"
      let st ← (List.range' 1 spec.amount.toNat).foldlM
        (fun st i => do
          let st ← set_conn st
            ("comp" ++ natRepr cycle ++ "-" ++ natRepr i
              ++ "_to_intercooler" ++ natRepr cycle ++ "-" ++ natRepr i)
            (icCompKey cycle i) "out1" (interKey cycle i) "in1"
          set_conn st
            ("intercooler" ++ natRepr cycle ++ "-" ++ natRepr i
              ++ "_to_comp" ++ natRepr cycle ++ "-" ++ natRepr (i + 1))
            (interKey cycle i) "out1" (icCompKey cycle (i + 1)) "in1")
        st
      if cycle = cfg.nr_cycles then
        set_conn st
          ("comp" ++ natRepr cycle ++ "-" ++ intRepr (spec.amount + 1)
            ++ "_to_cond" ++ natRepr cycle)
          ("Compressor " ++ natRepr cycle ++ "-" ++ intRepr (spec.amount + 1))
          "out1" (condKey cycle) "in1"
      else
        set_conn st
          ("comp" ++ natRepr cycle ++ "-" ++ intRepr (spec.amount + 1)
            ++ "_to_heatex" ++ natRepr cycle ++ "_" ++ natRepr (cycle + 1))
          ("Compressor " ++ natRepr cycle ++ "-" ++ intRepr (spec.amount + 1))
          "out1" (hxKey cycle (cycle + 1)) "in1"
    | none => do
      let st ←
        match last_int_heatex with
        | none =>
          if cycle = 1 then
            set_conn st
              ("evaporator1_to_comp" ++ natRepr cycle)
              "Evaporator 1" "out2" (compKey cycle) "in1"
          else
            set_conn st
              ("heatex" ++ natRepr (cycle - 1) ++ "_" ++ natRepr cycle
                ++ "_to_comp" ++ natRepr cycle)
              (hxKey (cycle - 1) cycle) "out2" (compKey cycle) "in1"
        | some last =>
          set_conn st
            ("int_heatex" ++ natRepr last ++ "_" ++ natRepr cycle
              ++ "_to_comp" ++ natRepr cycle)
            (ihxName last cycle) "out2" (compKey cycle) "in1"
      if cycle = cfg.nr_cycles then
        set_conn st
          ("comp" ++ natRepr cycle ++ "_to_cond" ++ natRepr cycle)
          (compKey cycle) "out1" (condKey cycle) "in1"
      else
        set_conn st
          ("comp" ++ natRepr cycle ++ "_to_heatex" ++ natRepr cycle
            ++ "_" ++ natRepr (cycle + 1))
          (compKey cycle) "out1" (hxKey cycle (cycle + 1)) "in1"
  let hot := int_heatexs_of st.components cycle
  let r2 ← hot.foldlM
    (fun (p : St × Option String) int_heatex => do
      let st := p.1
      let idx := lastToken int_heatex
      let st ←
        match p.2 with
        | none =>
          if cycle = cfg.nr_cycles then
            set_conn st
              ("cond" ++ natRepr cycle ++ "_to_int_heatex" ++ idx)
              (condKey cycle) "out1" int_heatex "in1"
          else
            set_conn st
              ("heatex" ++ natRepr cycle ++ "_" ++ natRepr (cycle + 1)
                ++ "_to_int_heatex" ++ idx)
              (hxKey cycle (cycle + 1)) "out1" int_heatex "in1"
        | some last =>
          set_conn st
            ("int_heatex" ++ lastToken last ++ "_to_int_heatex" ++ idx)
            last "out1" int_heatex "in1"
      pure (st, some int_heatex))
    (st, (none : Option String))
  let st := r2.1
  match r2.2 with
  | none =>
    if cycle = cfg.nr_cycles then
      set_conn st
        ("cond" ++ natRepr cycle ++ "_to_cc" ++ natRepr cycle)
        (condKey cycle) "out1" (ccKey cycle) "in1"
    else
      set_conn st
        ("heatex" ++ natRepr cycle ++ "_" ++ natRepr (cycle + 1)
          ++ "_to_cc" ++ natRepr cycle)
        (hxKey cycle (cycle + 1)) "out1" (ccKey cycle) "in1"
  | some last =>
    set_conn st
      ("int_heatex" ++ lastToken last ++ "_to_cc" ++ natRepr cycle)
      last "out1" (ccKey cycle) "in1"

/-- The fixed heat-source and consumer loops (lines 192-233). -/
def wireFixed (cfg : Config) (st : St) : Except (String × St) St := do
  let st ← set_conn st "valve1_to_evaporator1" "Valve 1" "out1" "Evaporator 1" "in2"
  let st ← set_conn st "heatsource_ff_to_heatsource_pump"
    "Heat Source Feed Flow" "out1" "Heat Source Recirculation Pump" "in1"
  let st ← set_conn st "heatsource_pump_to_evaporator1"
    "Heat Source Recirculation Pump" "out1" "Evaporator 1" "in1"
  let st ← set_conn st "evaporator1_to_heatsource_bf"
    "Evaporator 1" "out1" "Heat Source Back Flow" "in1"
  let st ← set_conn st "heatsink_cc_to_heatsink_pump"
    "Consumer Cycle Closer" "out1" "Consumer Recirculation Pump" "in1"
  let st ← set_conn st ("heatsink_pump_to_cond" ++ natRepr cfg.nr_cycles)
    "Consumer Recirculation Pump" "out1" (condKey cfg.nr_cycles) "in2"
  let st ← set_conn st ("cond" ++ natRepr cfg.nr_cycles ++ "_to_consumer")
    (condKey cfg.nr_cycles) "out2" "Consumer" "in1"
  set_conn st "consumer_to_heatsink_cc" "Consumer" "out1" "Consumer Cycle Closer" "in1"

/-- `generate_topology`: fixed loops, then the per-cycle wiring in
ascending cycle order. -/
def generate_topology (cfg : Config) (st : St) : Except (String × St) St := do
  let st ← wireFixed cfg st
  (List.range' 1 cfg.nr_cycles).foldlM (wireCycle cfg) st

/-- `Heatpump.__init__`: generate the components into a fresh store, then
the topology into a fresh connection store. -/
def buildAll (cfg : Config) : Except (String × St) St :=
  generate_topology cfg ⟨generate_components cfg, [], []⟩

/-! ## `delete_component` (lines 456-482) -/

/-- Does the connection touch (by display label) the component name? -/
def matchesComp (component : String) (c : Conn) : Bool :=
  component = c.source.label || component = c.target.label

/-- Result of `delete_component`: whether the component was found, the
labels of the deleted connections (in report order), and the new state. -/
structure DelResult where
  found : Bool
  removed : List String
  st : St
deriving DecidableEq

/-- `delete_component(component)`: report not-found and change nothing if
the key is absent; otherwise delete the store entry and every connection
whose source or target *label* equals the given name, detaching those
connections from the network. -/
def delete_component (st : St) (component : String) : DelResult :=
  match dget st.components component with
  | none => ⟨false, [], st⟩
  | some _ =>
    let removedConns := st.connections.filter (fun kv => matchesComp component kv.2)
    ⟨true, removedConns.map Prod.fst,
      ⟨derase st.components component,
        st.connections.filter (fun kv => !matchesComp component kv.2),
        removedConns.foldl (fun nw kv => nw.erase kv.2) st.nw_conns⟩⟩

/-! ## Observation helpers and spec-side definitions -/

/-- Did construction succeed? -/
def resultOk (r : Except (String × St) St) : Bool :=
  match r with
  | .ok _ => true
  | .error _ => false

/-- The state carried by the result (final state on success, the state at
the point of failure on error). -/
def resultState (r : Except (String × St) St) : St :=
  match r with
  | .ok st => st
  | .error (_, st) => st

/-- The error message, if any. -/
def resultMsg (r : Except (String × St) St) : Option String :=
  match r with
  | .ok _ => none
  | .error (m, _) => some m

/-- Boolean starts-with test. -/
def strStarts (s p : String) : Bool :=
  isPrefixB p.data s.data

/-- The cold-cycle indices attached to hot cycle `h` by the `int_heatex`
map (a single index or a list). -/
def intHeatexTargets (cfg : Config) (h : Nat) : List Nat :=
  match alGet cfg.int_heatex h with
  | some (.single t) => [t]
  | some (.list ts) => ts
  | none => []

/-- The hot-side internal-heat-exchanger chain at cycle `c` as the spec
describes it: the internal heat exchangers whose hot cycle is `c`
(one component per distinct cold index), in descending order of the
numeric cold-cycle index. -/
def specHotChain (cfg : Config) (c : Nat) : List String :=
  (List.insertionSort (fun a b : Nat => b ≤ a) ((intHeatexTargets cfg c).dedup)).map
    (fun t => ihxName c t)

/-! ## Concrete configurations used by the claims -/

/-- `Heatpump(['water', 'NH3'], nr_cycles=2, int_heatex={2: [1]})`. -/
def cfg_twoCycleIHX : Config :=
  ⟨["water", "NH3"], 2, [(2, .list [1])], []⟩

/-- `Heatpump(['water', 'NH3'], nr_cycles=2,
intercooler={2: {'amount': 2, 'type': 'HeatExchanger'}})`. -/
def cfg_twoCycleIC : Config :=
  ⟨["water", "NH3"], 2, [], [(2, ⟨2, "HeatExchanger"⟩)]⟩

/-- `Heatpump(['water', 'NH3'], nr_cycles=2,
intercooler={2: {'amount': 0, 'type': 'HeatExchanger'}})`: a non-positive
intercooler amount. -/
def cfg_icAmountZero : Config :=
  ⟨["water", "NH3"], 2, [], [(2, ⟨0, "HeatExchanger"⟩)]⟩

/-- `Heatpump(['water', 'NH3'], nr_cycles=1,
intercooler={1: {'amount': 1, 'type': 'Foo'}})`: an unsupported
intercooler type. -/
def cfg_icBadType : Config :=
  ⟨["water", "NH3"], 1, [], [(1, ⟨1, "Foo"⟩)]⟩

/-- `Heatpump(['water', 'NH3'], nr_cycles=2, int_heatex={2: [2, 15]})`:
two internal heat exchangers on hot cycle 2 with a multi-digit cold
index. -/
def cfg_multiDigitCold : Config :=
  ⟨["water", "NH3"], 2, [(2, .list [2, 15])], []⟩

/-! ## Claim C2 -/

/-- Claim C2: for `nr_cycles = 2` and `int_heatex = {2: [1]}`, exactly one
internal heat exchanger component is created; its cold side is wired
between the evaporator's cold outlet (`Evaporator 1` `out2` feeds its
`in2`) and cycle 1's compressor input (its `out2` feeds `Compressor 1`
`in1`), and its hot side is wired between cycle 2's condenser output
(`Condenser 2` `out1` feeds its `in1`) and cycle 2's cycle closer input
(its `out1` feeds `Cycle Closer 2` `in1`). -/
theorem claim_C2_single_int_heatex_wiring :
    resultOk (buildAll cfg_twoCycleIHX) = true ∧
    (resultState (buildAll cfg_twoCycleIHX)).components.countP
        (fun kv => strContains kv.1 "Internal Heat Exchanger") = 1 ∧
    dget (resultState (buildAll cfg_twoCycleIHX)).components
        "Internal Heat Exchanger 2_1"
      = some ⟨"Internal Heat Exchanger 2_1", .heatExchanger⟩ ∧
    dget (resultState (buildAll cfg_twoCycleIHX)).connections
        "evaporator1_to_int_heatex2_1"
      = some ⟨"evaporator1_to_int_heatex2_1", ⟨"Evaporator 1", .heatExchanger⟩,
          "out2", ⟨"Internal Heat Exchanger 2_1", .heatExchanger⟩, "in2"⟩ ∧
    dget (resultState (buildAll cfg_twoCycleIHX)).connections
        "int_heatex2_1_to_comp1"
      = some ⟨"int_heatex2_1_to_comp1",
          ⟨"Internal Heat Exchanger 2_1", .heatExchanger⟩, "out2",
          ⟨"Compressor 1", .compressor⟩, "in1"⟩ ∧
    dget (resultState (buildAll cfg_twoCycleIHX)).connections
        "cond2_to_int_heatex2_1"
      = some ⟨"cond2_to_int_heatex2_1", ⟨"Condenser 2", .condenser⟩, "out1",
          ⟨"Internal Heat Exchanger 2_1", .heatExchanger⟩, "in1"⟩ ∧
    dget (resultState (buildAll cfg_twoCycleIHX)).connections
        "int_heatex2_1_to_cc2"
      = some ⟨"int_heatex2_1_to_cc2",
          ⟨"Internal Heat Exchanger 2_1", .heatExchanger⟩, "out1",
          ⟨"Cycle Closer 2", .cycleCloser⟩, "in1"⟩ := by
  decide

/-! ## Claim C3 -/

/-- Claim C3: for a 2-cycle plant with
`intercooler = {2: {'amount': 2, 'type': 'HeatExchanger'}}` (the
two-stream kind), exactly 3 compressors and 2 intercoolers are created for
cycle 2 and they are wired in the strictly alternating series
compressor 1 → intercooler 1 → compressor 2 → intercooler 2 →
compressor 3, the final compressor's `out1` feeding the condenser. -/
theorem claim_C3_intercooler_chain :
    resultOk (buildAll cfg_twoCycleIC) = true ∧
    (resultState (buildAll cfg_twoCycleIC)).components.countP
        (fun kv => strStarts kv.1 "Compressor 2" && kv.2.kind == .compressor) = 3 ∧
    (resultState (buildAll cfg_twoCycleIC)).components.countP
        (fun kv => strStarts kv.1 "Intercooler 2") = 2 ∧
    dget (resultState (buildAll cfg_twoCycleIC)).connections
        "comp2-1_to_intercooler2-1"
      = some ⟨"comp2-1_to_intercooler2-1", ⟨"Compressor 2_1", .compressor⟩,
          "out1", ⟨"Intercooler 2-1", .heatExchanger⟩, "in1"⟩ ∧
    dget (resultState (buildAll cfg_twoCycleIC)).connections
        "intercooler2-1_to_comp2-2"
      = some ⟨"intercooler2-1_to_comp2-2", ⟨"Intercooler 2-1", .heatExchanger⟩,
          "out1", ⟨"Compressor 2_2", .compressor⟩, "in1"⟩ ∧
    dget (resultState (buildAll cfg_twoCycleIC)).connections
        "comp2-2_to_intercooler2-2"
      = some ⟨"comp2-2_to_intercooler2-2", ⟨"Compressor 2_2", .compressor⟩,
          "out1", ⟨"Intercooler 2-2", .heatExchanger⟩, "in1"⟩ ∧
    dget (resultState (buildAll cfg_twoCycleIC)).connections
        "intercooler2-2_to_comp2-3"
      = some ⟨"intercooler2-2_to_comp2-3", ⟨"Intercooler 2-2", .heatExchanger⟩,
          "out1", ⟨"Compressor 2_3", .compressor⟩, "in1"⟩ ∧
    dget (resultState (buildAll cfg_twoCycleIC)).connections
        "comp2-3_to_cond2"
      = some ⟨"comp2-3_to_cond2", ⟨"Compressor 2_3", .compressor⟩, "out1",
          ⟨"Condenser 2", .condenser⟩, "in1"⟩ := by
  decide

/-! ## Claim C6 -/

/-- Claim C6 evidence: with the non-positive intercooler amount `0` for
cycle 2, the code raises no configuration error at all: construction
succeeds end to end, no intercooler component exists, and cycle 2 gets the
single stage compressor `Compressor 2-1`.  The malformed map is silently
accepted, contradicting the required configuration-error taxonomy. -/
theorem claim_C6_nonpositive_amount_silently_accepted :
    resultOk (buildAll cfg_icAmountZero) = true ∧
    (resultState (buildAll cfg_icAmountZero)).components.countP
        (fun kv => strStarts kv.1 "Intercooler") = 0 ∧
    dget (resultState (buildAll cfg_icAmountZero)).components "Compressor 2-1"
      = some ⟨"Compressor 2_1", .compressor⟩ ∧
    dget (resultState (buildAll cfg_icAmountZero)).connections "comp2-1_to_cond2"
      = some ⟨"comp2-1_to_cond2", ⟨"Compressor 2_1", .compressor⟩, "out1",
          ⟨"Condenser 2", .condenser⟩, "in1"⟩ := by
  decide

/-! ## Claim C7 -/

/-- Claim C7 counterexample: with the unrecognised intercooler type
`'Foo'` on cycle 1, wiring cycle 1 fails (`KeyError` on the missing
`Intercooler 1-1`), but two connections of that same cycle
(`cc1_to_valve1` and `evaporator1_to_comp1-1`) had already been created
and are in the connection store at the point of failure — the error is
not raised before any connection is made for the failing cycle. -/
theorem claim_C7_counterexample_partial_cycle :
    resultOk (buildAll cfg_icBadType) = false ∧
    resultMsg (buildAll cfg_icBadType) = some "KeyError: Intercooler 1-1" ∧
    dget (resultState (buildAll cfg_icBadType)).connections "cc1_to_valve1"
      = some ⟨"cc1_to_valve1", ⟨"Cycle Closer 1", .cycleCloser⟩, "out1",
          ⟨"Valve 1", .valve⟩, "in1"⟩ ∧
    dget (resultState (buildAll cfg_icBadType)).connections
        "evaporator1_to_comp1-1"
      = some ⟨"evaporator1_to_comp1-1", ⟨"Evaporator 1", .heatExchanger⟩,
          "out2", ⟨"Compressor 1_1", .compressor⟩, "in1"⟩ := by
  decide

/-- Claim C7 amended: the failure atomicity the code actually provides is
per connection, not per cycle: whenever the primitive `set_conn` fails,
that call changes nothing (the state carried by the error is exactly the
input state), and the builder aborts at the failing call; but connections
created earlier for the same cycle remain in the store. -/
theorem claim_C7_amended_per_connection_atomicity
    (st : St) (label comp_out outlet comp_in inlet msg : String) (st' : St)
    (h : set_conn st label comp_out outlet comp_in inlet = .error (msg, st')) :
    st' = st := by
  unfold set_conn at h
  cases h1 : dget st.components comp_out with
  | none => rw [h1] at h; injection h with h; injection h with _ h; exact h.symm
  | some csrc =>
    rw [h1] at h
    cases h2 : dget st.components comp_in with
    | none => rw [h2] at h; injection h with h; injection h with _ h; exact h.symm
    | some ctgt => rw [h2] at h; cases h

/-- Witness for the amended C7 theorem at a concrete failing call. -/
theorem claim_C7_amended_witness :
    resultState (set_conn ⟨[], [], []⟩ "l" "A" "out1" "B" "in1") = ⟨[], [], []⟩ :=
  claim_C7_amended_per_connection_atomicity ⟨[], [], []⟩ "l" "A" "out1" "B" "in1"
    "KeyError: A" (resultState (set_conn ⟨[], [], []⟩ "l" "A" "out1" "B" "in1"))
    (by rfl)

/-! ## Claim C1: counterexample -/

/-- Claim C1 counterexample: for `nr_cycles = 2` and
`int_heatex = {2: [2, 15]}`, the hot-side chain at cycle 2 is computed by
substring filter and lexicographically descending string sort, which puts
`Internal Heat Exchanger 2_2` before `Internal Heat Exchanger 2_15`;
descending order of the *numeric* cold-cycle index would put cold index 15
first.  The claimed chain shape fails for multi-digit indices. -/
theorem claim_C1_counterexample_lexicographic_sort :
    int_heatexs_of (generate_components cfg_multiDigitCold) 2
      = ["Internal Heat Exchanger 2_2", "Internal Heat Exchanger 2_15"] ∧
    specHotChain cfg_multiDigitCold 2
      = ["Internal Heat Exchanger 2_15", "Internal Heat Exchanger 2_2"] ∧
    int_heatexs_of (generate_components cfg_multiDigitCold) 2
      ≠ specHotChain cfg_multiDigitCold 2 := by
  decide

/-! ## Claim C5 -/

/-- A component named `A`. -/
def compA : Component := ⟨"A", .src⟩

/-- A component named `B`. -/
def compB : Component := ⟨"B", .sink⟩

/-- A connection labelled `l` from `A.out1` to `B.in1`. -/
def connL : Conn := ⟨"l", compA, "out1", compB, "in1"⟩

/-- A state whose connection store already holds the label `l`. -/
def stDup : St := ⟨[("A", compA), ("B", compB)], [("l", connL)], [connL]⟩

/-- Claim C5 counterexample: calling the primitive with a label that
already exists in the connection store does not fail at all — the call
succeeds and silently replaces the stored connection in place. -/
theorem claim_C5_counterexample_duplicate_label_overwrites :
    resultOk (set_conn stDup "l" "A" "out2" "B" "in2") = true ∧
    (resultState (set_conn stDup "l" "A" "out2" "B" "in2")).connections
      = [("l", ⟨"l", compA, "out2", compB, "in2"⟩)] := by
  decide

/-- Claim C5 amended: the primitive fails (with a `KeyError` naming the
missing component) when either endpoint component name is absent from the
component store, evaluating the source endpoint first, and in that case
creates no connection; when both endpoints exist the call always succeeds,
a fresh label appending a new connection and an existing label silently
replacing the stored one in place. -/
theorem claim_C5_amended_keyerror_and_overwrite
    (st : St) (label comp_out outlet comp_in inlet : String) :
    (dget st.components comp_out = none →
      set_conn st label comp_out outlet comp_in inlet
        = .error ("KeyError: " ++ comp_out, st)) ∧
    (∀ csrc, dget st.components comp_out = some csrc →
      dget st.components comp_in = none →
      set_conn st label comp_out outlet comp_in inlet
        = .error ("KeyError: " ++ comp_in, st)) ∧
    (∀ csrc ctgt, dget st.components comp_out = some csrc →
      dget st.components comp_in = some ctgt →
      set_conn st label comp_out outlet comp_in inlet
        = .ok ⟨st.components,
            dinsert st.connections label ⟨label, csrc, outlet, ctgt, inlet⟩,
            st.nw_conns ++ [⟨label, csrc, outlet, ctgt, inlet⟩]⟩) := by
  refine ⟨?_, ?_, ?_⟩
  · intro h
    unfold set_conn
    rw [h]
  · intro csrc h1 h2
    unfold set_conn
    rw [h1, h2]
  · intro csrc ctgt h1 h2
    unfold set_conn
    rw [h1, h2]

/-- Witness for the amended C5 theorem: a concrete missing source
component and a concrete successful overwrite. -/
theorem claim_C5_amended_witness :
    set_conn stDup "l2" "X" "out1" "B" "in1" = .error ("KeyError: X", stDup) ∧
    set_conn stDup "l" "A" "out2" "B" "in2"
      = .ok ⟨stDup.components, dinsert stDup.connections "l"
          ⟨"l", compA, "out2", compB, "in2"⟩,
          stDup.nw_conns ++ [⟨"l", compA, "out2", compB, "in2"⟩]⟩ :=
  ⟨(claim_C5_amended_keyerror_and_overwrite stDup "l2" "X" "out1" "B" "in1").1
      (by decide),
   (claim_C5_amended_keyerror_and_overwrite stDup "l" "A" "out2" "B" "in2").2.2
      compA compB (by decide) (by decide)⟩

/-! ## Claim C8 -/

/-- Claim C8 counterexample: on the intercooler plant, deleting the stage
compressor by its store key `Compressor 2-1` succeeds but removes no
connection at all, because the stored connections reference the component
by its display label `Compressor 2_1` (underscore); the surviving
connection `comp2-1_to_intercooler2-1` still has the removed component as
its source — a dangling reference. -/
theorem claim_C8_counterexample_dangling_stage_compressor :
    dget (resultState (buildAll cfg_twoCycleIC)).components "Compressor 2-1"
      = some ⟨"Compressor 2_1", .compressor⟩ ∧
    (delete_component (resultState (buildAll cfg_twoCycleIC))
        "Compressor 2-1").found = true ∧
    (delete_component (resultState (buildAll cfg_twoCycleIC))
        "Compressor 2-1").removed = [] ∧
    dget (delete_component (resultState (buildAll cfg_twoCycleIC))
        "Compressor 2-1").st.components "Compressor 2-1" = none ∧
    dget (delete_component (resultState (buildAll cfg_twoCycleIC))
        "Compressor 2-1").st.connections "comp2-1_to_intercooler2-1"
      = some ⟨"comp2-1_to_intercooler2-1", ⟨"Compressor 2_1", .compressor⟩,
          "out1", ⟨"Intercooler 2-1", .heatExchanger⟩, "in1"⟩ := by
  decide

/-- Looking up a key that is not in the dict yields `none`. -/
theorem dget_eq_none_of_not_mem {α : Type} {m : List (String × α)} {k : String}
    (h : k ∉ dkeys m) : dget m k = none := by
  induction m with
  | nil => rfl
  | cons kv t ih =>
    obtain ⟨k', v⟩ := kv
    simp only [dkeys, List.map_cons, List.mem_cons, not_or] at h
    have hne : k' ≠ k := by
      intro he
      exact h.1 he.symm
    show (if k' = k then some v else dget t k) = none
    rw [if_neg hne]
    exact ih h.2

/-- After erasing a key from a dict with unique keys, the key is gone. -/
theorem dget_derase_self {α : Type} {m : List (String × α)} {k : String}
    (h : (dkeys m).Nodup) : dget (derase m k) k = none := by
  induction m with
  | nil => rfl
  | cons kv t ih =>
    obtain ⟨k', v⟩ := kv
    simp only [dkeys, List.map_cons, List.nodup_cons] at h
    by_cases he : k' = k
    · show dget (if k' = k then t else (k', v) :: derase t k) k = none
      rw [if_pos he]
      subst he
      exact dget_eq_none_of_not_mem h.1
    · show dget (if k' = k then t else (k', v) :: derase t k) k = none
      rw [if_neg he]
      show (if k' = k then some v else dget (derase t k) k) = none
      rw [if_neg he]
      exact ih h.2

/-- `delete_component` on an absent key changes nothing. -/
theorem delete_component_not_found {st : St} {name : String}
    (h : dget st.components name = none) :
    delete_component st name = ⟨false, [], st⟩ := by
  unfold delete_component
  rw [h]

/-- Claim C8 amended: `delete_component` on an absent name reports
not-found and changes nothing; on a present name it marks success, erases
the store entry, and keeps exactly the connections whose source and target
*labels* both differ from the deleted name (each kept connection unchanged
in label, source and target); a second call on the same name (for a store
with unique keys, as built) reports not-found and changes nothing.
Connections attached to a component whose store key differs from its
display label (the stage compressors) are *not* removed — the dangling
aspect of the original claim fails. -/
theorem claim_C8_amended_delete_by_label
    (st : St) (name : String) :
    (dget st.components name = none → delete_component st name = ⟨false, [], st⟩) ∧
    (∀ comp0, dget st.components name = some comp0 →
      (delete_component st name).found = true ∧
      (delete_component st name).st.components = derase st.components name ∧
      (∀ kv, kv ∈ (delete_component st name).st.connections ↔
        kv ∈ st.connections ∧ matchesComp name kv.2 = false) ∧
      ((dkeys st.components).Nodup →
        delete_component (delete_component st name).st name
          = ⟨false, [], (delete_component st name).st⟩)) := by
  constructor
  · intro h
    exact delete_component_not_found h
  · intro comp0 h
    have hdel :
        delete_component st name
          = ⟨true,
              (st.connections.filter (fun kv => matchesComp name kv.2)).map Prod.fst,
              ⟨derase st.components name,
                st.connections.filter (fun kv => !matchesComp name kv.2),
                (st.connections.filter
                    (fun kv => matchesComp name kv.2)).foldl
                  (fun nw kv => nw.erase kv.2) st.nw_conns⟩⟩ := by
      unfold delete_component
      rw [h]
    refine ⟨by rw [hdel], by rw [hdel], ?_, ?_⟩
    · intro kv
      rw [hdel]
      simp [List.mem_filter]
    · intro hnd
      have h2 : dget (delete_component st name).st.components name = none := by
        rw [hdel]
        exact dget_derase_self hnd
      exact delete_component_not_found h2

/-- Witness for the amended C8 theorem: a concrete not-found call and a
concrete successful deletion. -/
theorem claim_C8_amended_witness :
    delete_component stDup "nope" = ⟨false, [], stDup⟩ ∧
    (delete_component stDup "A").st.components = derase stDup.components "A" :=
  ⟨(claim_C8_amended_delete_by_label stDup "nope").1 (by decide),
   ((claim_C8_amended_delete_by_label stDup "A").2 compA (by decide)).2.1⟩

/-! ## Claim C9 -/

/-- Claim C9: topology generation is deterministic — it is a pure function
of the configuration.  Moreover the component store, the build result, the
component-name list (with kinds) and the connection-label list depend only
on the structural fields `nr_cycles`, `int_heatex`, `intercooler`: two
constructions from identical structural inputs (even with different
`fluids`, which only feed the solver network) produce identical stores. -/
theorem claim_C9_determinism (fl fl' : List String) (n : Nat)
    (ih : List (Nat × IHVal)) (ic : List (Nat × ICSpec)) :
    generate_components ⟨fl, n, ih, ic⟩ = generate_components ⟨fl', n, ih, ic⟩ ∧
    buildAll ⟨fl, n, ih, ic⟩ = buildAll ⟨fl', n, ih, ic⟩ ∧
    dkeys (resultState (buildAll ⟨fl, n, ih, ic⟩)).components
      = dkeys (resultState (buildAll ⟨fl', n, ih, ic⟩)).components ∧
    (resultState (buildAll ⟨fl, n, ih, ic⟩)).connections.map Prod.fst
      = (resultState (buildAll ⟨fl', n, ih, ic⟩)).connections.map Prod.fst :=
  ⟨rfl, rfl, rfl, rfl⟩

/-! ## Claim C10 -/

/-- Membership after a dict insert comes from the new pair or the old
dict. -/
theorem mem_dinsert {α : Type} {m : List (String × α)} {k : String} {v : α}
    {x : String × α} (h : x ∈ dinsert m k v) : x = (k, v) ∨ x ∈ m := by
  induction m with
  | nil =>
    simp only [dinsert, List.mem_singleton] at h
    exact Or.inl h
  | cons kv t ih =>
    obtain ⟨k', v'⟩ := kv
    by_cases he : k' = k
    · rw [show dinsert ((k', v') :: t) k v = (k', v) :: t from by
        simp [dinsert, he]] at h
      rcases List.mem_cons.mp h with h | h
      · subst he; exact Or.inl h
      · exact Or.inr (List.mem_cons_of_mem _ h)
    · rw [show dinsert ((k', v') :: t) k v = (k', v') :: dinsert t k v from by
        simp [dinsert, he]] at h
      rcases List.mem_cons.mp h with h | h
      · exact Or.inr (h ▸ List.mem_cons_self _ _)
      · rcases ih h with h | h
        · exact Or.inl h
        · exact Or.inr (List.mem_cons_of_mem _ h)

/-- A fold step preserving a predicate on entries preserves it on the
result. -/
theorem foldl_preserve {α β : Type} (P : α → Prop)
    (f : List α → β → List α)
    (hf : ∀ (m : List α) (b : β), (∀ x ∈ m, P x) → ∀ x ∈ f m b, P x) :
    ∀ (l : List β) (m : List α), (∀ x ∈ m, P x) → ∀ x ∈ l.foldl f m, P x := by
  intro l
  induction l with
  | nil => intro m hm; exact hm
  | cons b t ih => intro m hm; exact ih (f m b) (hf m b hm)

/-- The store-key/display-label discipline of a generated entry: either
they agree, or the entry is a stage compressor of an intercooled cycle,
keyed with a hyphen but labelled with an underscore. -/
def goodEntry (cfg : Config) (x : String × Component) : Prop :=
  x.1 = x.2.label ∨
    ∃ c i, (alGet cfg.intercooler c).isSome = true ∧
      x.1 = icCompKey c i ∧ x.2.label = icCompLabel c i ∧ x.2.kind = .compressor

theorem goodEntry_dinsert_label {cfg : Config} {m : List (String × Component)}
    {label : String} {kind : Kind}
    (hm : ∀ x ∈ m, goodEntry cfg x) :
    ∀ x ∈ dinsert m label ⟨label, kind⟩, goodEntry cfg x := by
  intro x hx
  rcases mem_dinsert hx with h | h
  · exact Or.inl (by rw [h])
  · exact hm x h

theorem goodEntry_genIntercoolerStages {cfg : Config} {spec : ICSpec}
    {cycle : Nat} (hspec : alGet cfg.intercooler cycle = some spec)
    {m : List (String × Component)} (hm : ∀ x ∈ m, goodEntry cfg x) :
    ∀ x ∈ genIntercoolerStages spec cycle m, goodEntry cfg x := by
  refine foldl_preserve (goodEntry cfg) _ ?_ _ m hm
  intro m' i hm' x hx
  simp only at hx
  rcases mem_dinsert hx with h | h
  · exact Or.inr ⟨cycle, i, by rw [hspec]; rfl, by rw [h], by rw [h], by rw [h]⟩
  · split at h
    · split at h
      · exact goodEntry_dinsert_label hm' x h
      · split at h
        · exact goodEntry_dinsert_label hm' x h
        · exact hm' x h
    · exact hm' x h

theorem goodEntry_genCycleBase {cfg : Config} {m : List (String × Component)}
    {cycle : Nat} (hm : ∀ x ∈ m, goodEntry cfg x) :
    ∀ x ∈ genCycleBase cycle m, goodEntry cfg x :=
  goodEntry_dinsert_label (goodEntry_dinsert_label hm)

theorem goodEntry_genCycleHx {cfg : Config} {m : List (String × Component)}
    {cycle : Nat} (hm : ∀ x ∈ m, goodEntry cfg x) :
    ∀ x ∈ genCycleHx cycle m, goodEntry cfg x := by
  unfold genCycleHx
  split
  · exact goodEntry_dinsert_label hm
  · exact hm

theorem goodEntry_genCycleCond {cfg : Config} {m : List (String × Component)}
    {cycle : Nat} (hm : ∀ x ∈ m, goodEntry cfg x) :
    ∀ x ∈ genCycleCond cfg cycle m, goodEntry cfg x := by
  unfold genCycleCond
  split
  · exact goodEntry_dinsert_label hm
  · exact hm

theorem goodEntry_genCycleCompression {cfg : Config}
    {m : List (String × Component)} {cycle : Nat}
    (hm : ∀ x ∈ m, goodEntry cfg x) :
    ∀ x ∈ genCycleCompression cfg cycle m, goodEntry cfg x := by
  unfold genCycleCompression
  cases hic : alGet cfg.intercooler cycle with
  | some spec => exact goodEntry_genIntercoolerStages hic hm
  | none => exact goodEntry_dinsert_label hm

theorem goodEntry_genCycleIhx {cfg : Config} {m : List (String × Component)}
    {cycle : Nat} (hm : ∀ x ∈ m, goodEntry cfg x) :
    ∀ x ∈ genCycleIhx cfg cycle m, goodEntry cfg x := by
  unfold genCycleIhx
  cases hih : alGet cfg.int_heatex cycle with
  | some val =>
    cases val with
    | single t => exact goodEntry_dinsert_label hm
    | list ts =>
      refine foldl_preserve (goodEntry cfg) _ ?_ ts _ hm
      intro m' t hm' x hx
      exact goodEntry_dinsert_label hm' x hx
  | none => exact hm

theorem goodEntry_genCycleComponents {cfg : Config}
    {m : List (String × Component)} {cycle : Nat}
    (hm : ∀ x ∈ m, goodEntry cfg x) :
    ∀ x ∈ genCycleComponents cfg m cycle, goodEntry cfg x :=
  goodEntry_genCycleIhx
    (goodEntry_genCycleCompression
      (goodEntry_genCycleCond (goodEntry_genCycleHx (goodEntry_genCycleBase hm))))

/-- Claim C10: every generated component is stored under a key equal to
its own display label, except the stage compressors of intercooled
cycles, which are keyed `Compressor {c}-{i}` (hyphen) while the stored
object carries the label `Compressor {c}_{i}` (underscore) — and those two
strings really differ; `delete_component` matches connections against the
object's display label (`connection.source.label` / `.target.label`), not
against the store key. -/
theorem claim_C10_key_label_mismatch :
    (∀ (cfg : Config) (x : String × Component), x ∈ generate_components cfg →
      x.1 = x.2.label ∨
        ∃ c i, (alGet cfg.intercooler c).isSome = true ∧
          x.1 = icCompKey c i ∧ x.2.label = icCompLabel c i ∧
          x.2.kind = .compressor) ∧
    (∀ c i, icCompKey c i ≠ icCompLabel c i) ∧
    dget (generate_components cfg_twoCycleIC) "Compressor 2-1"
      = some ⟨"Compressor 2_1", .compressor⟩ ∧
    (∀ (st : St) (name : String) (comp0 : Component),
      dget st.components name = some comp0 →
      (delete_component st name).st.connections
          = st.connections.filter
              (fun kv => !(name = kv.2.source.label || name = kv.2.target.label)) ∧
      (delete_component st name).removed
          = (st.connections.filter
              (fun kv => name = kv.2.source.label || name = kv.2.target.label)).map
              Prod.fst) := by
  refine ⟨?_, ?_, by decide, ?_⟩
  · intro cfg x hx
    refine foldl_preserve (goodEntry cfg) _ ?_ _ fixedComponents ?_ x hx
    · intro m c hm
      exact goodEntry_genCycleComponents hm
    · intro y hy
      unfold fixedComponents at hy
      simp only [List.mem_cons, List.not_mem_nil, or_false] at hy
      rcases hy with h | h | h | h | h | h | h <;> (subst h; exact Or.inl rfl)
  · intro c i h
    have hd := congrArg String.data h
    simp only [icCompKey, icCompLabel, String.data_append, natRepr,
      List.append_assoc] at hd
    have h2 := List.append_cancel_left hd
    have h3 := List.append_cancel_left h2
    have h4 : '-' = '_' := by
      have h5 := congrArg (fun l => l.head?) h3
      simp only [List.head?] at h5
      injection h5
    exact absurd h4 (by decide)
  · intro st name comp0 h
    have hdel :
        delete_component st name
          = ⟨true,
              (st.connections.filter (fun kv => matchesComp name kv.2)).map Prod.fst,
              ⟨derase st.components name,
                st.connections.filter (fun kv => !matchesComp name kv.2),
                (st.connections.filter
                    (fun kv => matchesComp name kv.2)).foldl
                  (fun nw kv => nw.erase kv.2) st.nw_conns⟩⟩ := by
      unfold delete_component
      rw [h]
    rw [hdel]
    exact ⟨rfl, rfl⟩

/-! ## Name-shape lemmas

Each generated name is a concrete literal prefix followed by decimal
digit blocks; these lemmas expose that shape and derive injectivity and
pairwise distinctness. -/

theorem ccKey_data (c : Nat) :
    (ccKey c).data = "Cycle Closer ".data ++ natDigits c := rfl

theorem valveKey_data (c : Nat) :
    (valveKey c).data = "Valve ".data ++ natDigits c := rfl

theorem condKey_data (c : Nat) :
    (condKey c).data = "Condenser ".data ++ natDigits c := rfl

theorem compKey_data (c : Nat) :
    (compKey c).data = "Compressor ".data ++ natDigits c := rfl

theorem hxKey_data (a b : Nat) :
    (hxKey a b).data
      = "Heat Exchanger ".data ++ (natDigits a ++ '_' :: natDigits b) := by
  show (("Heat Exchanger ".data ++ natDigits a) ++ "_".data) ++ natDigits b = _
  simp [List.append_assoc]

theorem ihxName_data (h t : Nat) :
    (ihxName h t).data
      = "Internal Heat Exchanger ".data ++ (natDigits h ++ '_' :: natDigits t) := by
  show (("Internal Heat Exchanger ".data ++ natDigits h) ++ "_".data)
      ++ natDigits t = _
  simp [List.append_assoc]

theorem interKey_data (c i : Nat) :
    (interKey c i).data
      = "Intercooler ".data ++ (natDigits c ++ '-' :: natDigits i) := by
  show (("Intercooler ".data ++ natDigits c) ++ "-".data) ++ natDigits i = _
  simp [List.append_assoc]

theorem icCompKey_data (c i : Nat) :
    (icCompKey c i).data
      = "Compressor ".data ++ (natDigits c ++ '-' :: natDigits i) := by
  show (("Compressor ".data ++ natDigits c) ++ "-".data) ++ natDigits i = _
  simp [List.append_assoc]

/-- Two strings decomposing into clashing prefixes are different. -/
theorem ne_of_clash_parts {a b : String} {p q r s : List Char}
    (ha : a.data = p ++ r) (hb : b.data = q ++ s) (h : clash p q = true) :
    a ≠ b := by
  intro he
  apply ne_of_clash h r s
  rw [← ha, ← hb, he]

/-- A digit block followed by nothing splits off a shared prefix. -/
theorem natDigits_suffix_inj {p : List Char} {c c' : Nat}
    (h : p ++ natDigits c = p ++ natDigits c') : c = c' :=
  natDigits_inj _ _ (List.append_cancel_left h)

theorem head_underscore_not_digit (l : List Char) :
    ∀ x, (('_' :: l).head? = some x) → x.isDigit = false := by
  intro x hx
  injection hx with hx
  subst hx
  decide

theorem ccKey_inj {c c' : Nat} (h : ccKey c = ccKey c') : c = c' :=
  @natDigits_suffix_inj "Cycle Closer ".data c c'
    ((ccKey_data c) ▸ (ccKey_data c') ▸ congrArg String.data h)

theorem valveKey_inj {c c' : Nat} (h : valveKey c = valveKey c') : c = c' :=
  @natDigits_suffix_inj "Valve ".data c c'
    ((valveKey_data c) ▸ (valveKey_data c') ▸ congrArg String.data h)

theorem condKey_inj {c c' : Nat} (h : condKey c = condKey c') : c = c' :=
  @natDigits_suffix_inj "Condenser ".data c c'
    ((condKey_data c) ▸ (condKey_data c') ▸ congrArg String.data h)

theorem compKey_inj {c c' : Nat} (h : compKey c = compKey c') : c = c' :=
  @natDigits_suffix_inj "Compressor ".data c c'
    ((compKey_data c) ▸ (compKey_data c') ▸ congrArg String.data h)

theorem hxKey_inj {a b a' b' : Nat} (h : hxKey a b = hxKey a' b') :
    a = a' ∧ b = b' := by
  have hd := congrArg String.data h
  rw [hxKey_data, hxKey_data] at hd
  have h2 := List.append_cancel_left hd
  have h3 := natDigits_append_inj h2 (head_underscore_not_digit _)
    (head_underscore_not_digit _)
  refine ⟨h3.1, ?_⟩
  have h4 := h3.2
  injection h4 with _ h5
  exact natDigits_inj _ _ h5

theorem ihxName_inj {a b a' b' : Nat} (h : ihxName a b = ihxName a' b') :
    a = a' ∧ b = b' := by
  have hd := congrArg String.data h
  rw [ihxName_data, ihxName_data] at hd
  have h2 := List.append_cancel_left hd
  have h3 := natDigits_append_inj h2 (head_underscore_not_digit _)
    (head_underscore_not_digit _)
  refine ⟨h3.1, ?_⟩
  have h4 := h3.2
  injection h4 with _ h5
  exact natDigits_inj _ _ h5

/-! Pairwise distinctness of the per-cycle component-name families. -/

theorem ne_cc_valve (c c' : Nat) : ccKey c ≠ valveKey c' :=
  ne_of_clash_parts (ccKey_data c) (valveKey_data c') (by decide)

theorem ne_cc_hx (c a b : Nat) : ccKey c ≠ hxKey a b :=
  ne_of_clash_parts (ccKey_data c) (hxKey_data a b) (by decide)

theorem ne_cc_cond (c c' : Nat) : ccKey c ≠ condKey c' :=
  ne_of_clash_parts (ccKey_data c) (condKey_data c') (by decide)

theorem ne_cc_comp (c c' : Nat) : ccKey c ≠ compKey c' :=
  ne_of_clash_parts (ccKey_data c) (compKey_data c') (by decide)

theorem ne_valve_hx (c a b : Nat) : valveKey c ≠ hxKey a b :=
  ne_of_clash_parts (valveKey_data c) (hxKey_data a b) (by decide)

theorem ne_valve_cond (c c' : Nat) : valveKey c ≠ condKey c' :=
  ne_of_clash_parts (valveKey_data c) (condKey_data c') (by decide)

theorem ne_valve_comp (c c' : Nat) : valveKey c ≠ compKey c' :=
  ne_of_clash_parts (valveKey_data c) (compKey_data c') (by decide)

theorem ne_hx_cond (a b c : Nat) : hxKey a b ≠ condKey c :=
  ne_of_clash_parts (hxKey_data a b) (condKey_data c) (by decide)

theorem ne_hx_comp (a b c : Nat) : hxKey a b ≠ compKey c :=
  ne_of_clash_parts (hxKey_data a b) (compKey_data c) (by decide)

theorem ne_cond_comp (c c' : Nat) : condKey c ≠ compKey c' :=
  ne_of_clash_parts (condKey_data c) (compKey_data c') (by decide)

/-! ## Dict lemmas for fresh keys -/

/-- Inserting a fresh key appends. -/
theorem dinsert_fresh {α : Type} {m : List (String × α)} {k : String} {v : α}
    (h : k ∉ dkeys m) : dinsert m k v = m ++ [(k, v)] := by
  induction m with
  | nil => rfl
  | cons kv t ih =>
    obtain ⟨k', v'⟩ := kv
    simp only [dkeys, List.map_cons, List.mem_cons, not_or] at h
    have hne : k' ≠ k := by
      intro he
      exact h.1 he.symm
    show (if k' = k then (k', v) :: t else (k', v') :: dinsert t k v) = _
    rw [if_neg hne, ih h.2]
    rfl

/-- In a dict with unique keys, lookup of a stored entry finds it. -/
theorem dget_of_mem_nodup {α : Type} {m : List (String × α)} {k : String}
    {v : α} (h : (k, v) ∈ m) (hn : (dkeys m).Nodup) : dget m k = some v := by
  induction m with
  | nil => cases h
  | cons kv t ih =>
    obtain ⟨k', v'⟩ := kv
    simp only [dkeys, List.map_cons, List.nodup_cons] at hn
    rcases List.mem_cons.mp h with h | h
    · injection h with h1 h2
      subst h1; subst h2
      show (if k = k then some v else dget t k) = some v
      rw [if_pos rfl]
    · have hne : k' ≠ k := by
        intro he
        subst he
        exact hn.1 (List.mem_map.mpr ⟨(k', v), h, rfl⟩)
      show (if k' = k then some v' else dget t k) = some v
      rw [if_neg hne]
      exact ih h hn.2

/-! ## Claim C4: the plain configuration (no intercoolers, no internal
heat exchangers) -/

/-- The component entries created for cycle `c` of an `N`-cycle plant with
empty `int_heatex` and `intercooler` maps, in creation order. -/
def plainCycleEntries (N c : Nat) : List (String × Component) :=
  [(ccKey c, ⟨ccKey c, .cycleCloser⟩), (valveKey c, ⟨valveKey c, .valve⟩)]
    ++ (if c ≠ 1 then
        [(hxKey (c - 1) c, ⟨hxKey (c - 1) c, .heatExchanger⟩)] else [])
    ++ (if c = N then [(condKey c, ⟨condKey c, .condenser⟩)] else [])
    ++ [(compKey c, ⟨compKey c, .compressor⟩)]

/-- The corresponding store keys. -/
def plainCycleKeys (N c : Nat) : List String :=
  [ccKey c, valveKey c]
    ++ (if c ≠ 1 then [hxKey (c - 1) c] else [])
    ++ (if c = N then [condKey c] else [])
    ++ [compKey c]

theorem map_ite_singleton {α β : Type} (f : α → β) (P : Prop) [Decidable P]
    (a : α) : List.map f (if P then [a] else []) = if P then [f a] else [] := by
  split <;> simp

theorem mem_ite_singleton {α : Type} {k a : α} {P : Prop} [Decidable P] :
    (k ∈ if P then [a] else []) ↔ P ∧ k = a := by
  split <;> simp_all

theorem dkeys_plainCycleEntries (N c : Nat) :
    dkeys (plainCycleEntries N c) = plainCycleKeys N c := by
  simp only [plainCycleEntries, plainCycleKeys, dkeys, List.map_append,
    map_ite_singleton, List.map_cons, List.map_nil]

theorem mem_plainCycleKeys {N c : Nat} {k : String} :
    k ∈ plainCycleKeys N c ↔
      k = ccKey c ∨ k = valveKey c ∨ (c ≠ 1 ∧ k = hxKey (c - 1) c) ∨
        (c = N ∧ k = condKey c) ∨ k = compKey c := by
  simp only [plainCycleKeys, List.mem_append, List.mem_cons,
    List.mem_singleton, List.not_mem_nil, mem_ite_singleton, or_false]
  tauto

theorem nodup_plainCycleKeys (N c : Nat) : (plainCycleKeys N c).Nodup := by
  unfold plainCycleKeys
  by_cases h1 : c ≠ 1
  · rw [if_pos h1]
    by_cases h2 : c = N
    · rw [if_pos h2]
      simp only [List.cons_append, List.nil_append, List.nodup_cons,
        List.mem_cons, List.mem_singleton, List.not_mem_nil, or_false,
        not_or, List.nodup_nil, and_true]
      repeat' apply And.intro
      all_goals
        first
          | exact ne_cc_valve _ _
          | exact ne_cc_hx _ _ _
          | exact ne_cc_cond _ _
          | exact ne_cc_comp _ _
          | exact ne_valve_hx _ _ _
          | exact ne_valve_cond _ _
          | exact ne_valve_comp _ _
          | exact ne_hx_cond _ _ _
          | exact ne_hx_comp _ _ _
          | exact ne_cond_comp _ _
          | trivial
    · rw [if_neg h2]
      simp only [List.cons_append, List.nil_append, List.nodup_cons,
        List.mem_cons, List.mem_singleton, List.not_mem_nil, or_false,
        not_or, List.nodup_nil, and_true]
      repeat' apply And.intro
      all_goals
        first
          | exact ne_cc_valve _ _
          | exact ne_cc_hx _ _ _
          | exact ne_cc_comp _ _
          | exact ne_valve_hx _ _ _
          | exact ne_valve_comp _ _
          | exact ne_hx_comp _ _ _
          | trivial
  · rw [if_neg h1]
    by_cases h2 : c = N
    · rw [if_pos h2]
      simp only [List.cons_append, List.nil_append, List.nodup_cons,
        List.mem_cons, List.mem_singleton, List.not_mem_nil, or_false,
        not_or, List.nodup_nil, and_true]
      repeat' apply And.intro
      all_goals
        first
          | exact ne_cc_valve _ _
          | exact ne_cc_cond _ _
          | exact ne_cc_comp _ _
          | exact ne_valve_cond _ _
          | exact ne_valve_comp _ _
          | exact ne_cond_comp _ _
          | trivial
    · rw [if_neg h2]
      simp only [List.cons_append, List.nil_append, List.nodup_cons,
        List.mem_cons, List.mem_singleton, List.not_mem_nil, or_false,
        not_or, List.nodup_nil, and_true]
      repeat' apply And.intro
      all_goals
        first
          | exact ne_cc_valve _ _
          | exact ne_cc_comp _ _
          | exact ne_valve_comp _ _
          | trivial

/-- Distinct cycles use disjoint component-key families. -/
theorem disjoint_plainCycleKeys {N a b : Nat} (hab : a ≠ b) :
    List.Disjoint (plainCycleKeys N a) (plainCycleKeys N b) := by
  intro k hka hkb
  rw [mem_plainCycleKeys] at hka hkb
  rcases hka with h | h | ⟨-, h⟩ | ⟨ha1, h⟩ | h <;> subst h <;>
    rcases hkb with h' | h' | ⟨-, h'⟩ | ⟨hb1, h'⟩ | h' <;>
    first
      | exact hab (ccKey_inj h')
      | exact hab (valveKey_inj h')
      | exact hab (hxKey_inj h').2
      | exact hab (condKey_inj h')
      | exact hab (compKey_inj h')
      | exact absurd h'.symm (ne_cc_valve _ _)
      | exact absurd h'.symm (ne_cc_hx _ _ _)
      | exact absurd h'.symm (ne_cc_cond _ _)
      | exact absurd h'.symm (ne_cc_comp _ _)
      | exact absurd h'.symm (ne_valve_hx _ _ _)
      | exact absurd h'.symm (ne_valve_cond _ _)
      | exact absurd h'.symm (ne_valve_comp _ _)
      | exact absurd h'.symm (ne_hx_cond _ _ _)
      | exact absurd h'.symm (ne_hx_comp _ _ _)
      | exact absurd h'.symm (ne_cond_comp _ _)
      | exact absurd h' (ne_cc_valve _ _)
      | exact absurd h' (ne_cc_hx _ _ _)
      | exact absurd h' (ne_cc_cond _ _)
      | exact absurd h' (ne_cc_comp _ _)
      | exact absurd h' (ne_valve_hx _ _ _)
      | exact absurd h' (ne_valve_cond _ _)
      | exact absurd h' (ne_valve_comp _ _)
      | exact absurd h' (ne_hx_cond _ _ _)
      | exact absurd h' (ne_hx_comp _ _ _)
      | exact absurd h' (ne_cond_comp _ _)

/-- All component keys of the plain configuration. -/
def plainAllKeys (N : Nat) : List String :=
  dkeys fixedComponents ++ (List.range' 1 N).flatMap (plainCycleKeys N)

theorem nodup_plainAllKeys (N : Nat) : (plainAllKeys N).Nodup := by
  rw [plainAllKeys, List.nodup_append]
  refine ⟨by decide, ?_, ?_⟩
  · rw [List.nodup_flatMap]
    refine ⟨fun c _ => nodup_plainCycleKeys N c, ?_⟩
    exact (List.pairwise_lt_range' 1 N).imp
      (fun hab => disjoint_plainCycleKeys (Nat.ne_of_lt hab))
  · intro k hk hk'
    rw [List.mem_flatMap] at hk'
    obtain ⟨c, -, hkc⟩ := hk'
    rw [mem_plainCycleKeys] at hkc
    fin_cases hk <;>
      rcases hkc with h | h | ⟨-, h⟩ | ⟨-, h⟩ | h <;>
      first
        | exact absurd h (ne_of_clash_parts (List.append_nil _).symm
            (ccKey_data _) (by decide))
        | exact absurd h (ne_of_clash_parts (List.append_nil _).symm
            (valveKey_data _) (by decide))
        | exact absurd h (ne_of_clash_parts (List.append_nil _).symm
            (hxKey_data _ _) (by decide))
        | exact absurd h (ne_of_clash_parts (List.append_nil _).symm
            (condKey_data _) (by decide))
        | exact absurd h (ne_of_clash_parts (List.append_nil _).symm
            (compKey_data _) (by decide))

/-- Unfolding lemmas for the per-cycle stages. -/
theorem genCycleHx_pos {c : Nat} {m : List (String × Component)} (h : c ≠ 1) :
    genCycleHx c m
      = dinsert m (hxKey (c - 1) c) ⟨hxKey (c - 1) c, .heatExchanger⟩ := by
  unfold genCycleHx
  rw [if_pos h]

theorem genCycleHx_neg {c : Nat} {m : List (String × Component)} (h : ¬c ≠ 1) :
    genCycleHx c m = m := by
  unfold genCycleHx
  rw [if_neg h]

theorem genCycleCond_pos {cfg : Config} {c : Nat}
    {m : List (String × Component)} (h : c = cfg.nr_cycles) :
    genCycleCond cfg c m
      = dinsert m (condKey c) ⟨condKey c, .condenser⟩ := by
  unfold genCycleCond
  rw [if_pos h]

theorem genCycleCond_neg {cfg : Config} {c : Nat}
    {m : List (String × Component)} (h : ¬c = cfg.nr_cycles) :
    genCycleCond cfg c m = m := by
  unfold genCycleCond
  rw [if_neg h]

theorem genCycleCompression_none {cfg : Config} {c : Nat}
    {m : List (String × Component)} (h : alGet cfg.intercooler c = none) :
    genCycleCompression cfg c m
      = dinsert m (compKey c) ⟨compKey c, .compressor⟩ := by
  unfold genCycleCompression
  rw [h]

theorem genCycleIhx_none {cfg : Config} {c : Nat}
    {m : List (String × Component)} (h : alGet cfg.int_heatex c = none) :
    genCycleIhx cfg c m = m := by
  unfold genCycleIhx
  rw [h]

theorem dkeys_append {α : Type} (a b : List (String × α)) :
    dkeys (a ++ b) = dkeys a ++ dkeys b :=
  List.map_append _ a b

/-- One plain cycle appends exactly its entry block. -/
theorem genCycleComponents_plain (fl : List String) (N c : Nat)
    (m : List (String × Component))
    (hf : ∀ k ∈ plainCycleKeys N c, k ∉ dkeys m) :
    genCycleComponents ⟨fl, N, [], []⟩ m c = m ++ plainCycleEntries N c := by
  have hcc : ccKey c ∉ dkeys m :=
    hf _ (mem_plainCycleKeys.mpr (Or.inl rfl))
  have hv : valveKey c ∉ dkeys m :=
    hf _ (mem_plainCycleKeys.mpr (Or.inr (Or.inl rfl)))
  have hcomp : compKey c ∉ dkeys m :=
    hf _ (mem_plainCycleKeys.mpr (Or.inr (Or.inr (Or.inr (Or.inr rfl)))))
  have hbase : genCycleBase c m
      = m ++ [(ccKey c, ⟨ccKey c, .cycleCloser⟩),
              (valveKey c, ⟨valveKey c, .valve⟩)] := by
    unfold genCycleBase
    rw [dinsert_fresh hcc]
    rw [dinsert_fresh (by
      simp only [dkeys, List.map_append, List.map_cons, List.map_nil,
        List.mem_append, List.mem_cons, List.not_mem_nil, or_false, not_or]
      exact ⟨hv, fun he => ne_cc_valve c c he.symm⟩)]
    rw [List.append_assoc]
    rfl
  show genCycleIhx _ c (genCycleCompression _ c
    (genCycleCond _ c (genCycleHx c (genCycleBase c m)))) = _
  rw [@genCycleIhx_none ⟨fl, N, [], []⟩ c _ rfl,
    @genCycleCompression_none ⟨fl, N, [], []⟩ c _ rfl, hbase]
  by_cases h1 : c ≠ 1
  · have hhx : hxKey (c - 1) c ∉ dkeys m :=
      hf _ (mem_plainCycleKeys.mpr (Or.inr (Or.inr (Or.inl ⟨h1, rfl⟩))))
    have e1 : genCycleHx c
        (m ++ [(ccKey c, ⟨ccKey c, .cycleCloser⟩),
               (valveKey c, ⟨valveKey c, .valve⟩)])
        = m ++ [(ccKey c, ⟨ccKey c, .cycleCloser⟩),
               (valveKey c, ⟨valveKey c, .valve⟩)]
            ++ [(hxKey (c - 1) c, ⟨hxKey (c - 1) c, .heatExchanger⟩)] := by
      rw [genCycleHx_pos h1]
      apply dinsert_fresh
      simp only [dkeys, List.map_append, List.map_cons, List.map_nil,
        List.mem_append, List.mem_cons, List.not_mem_nil, or_false, not_or]
      exact ⟨hhx, fun he => ne_cc_hx c (c - 1) c he.symm,
        fun he => ne_valve_hx c (c - 1) c he.symm⟩
    rw [e1]
    by_cases h2 : c = N
    · have hcond : condKey c ∉ dkeys m :=
        hf _ (mem_plainCycleKeys.mpr (Or.inr (Or.inr (Or.inr (Or.inl ⟨h2, rfl⟩)))))
      have e2 : genCycleCond ⟨fl, N, [], []⟩ c
          (m ++ [(ccKey c, ⟨ccKey c, .cycleCloser⟩),
                 (valveKey c, ⟨valveKey c, .valve⟩)]
             ++ [(hxKey (c - 1) c, ⟨hxKey (c - 1) c, .heatExchanger⟩)])
          = m ++ [(ccKey c, ⟨ccKey c, .cycleCloser⟩),
                 (valveKey c, ⟨valveKey c, .valve⟩)]
             ++ [(hxKey (c - 1) c, ⟨hxKey (c - 1) c, .heatExchanger⟩)]
             ++ [(condKey c, ⟨condKey c, .condenser⟩)] := by
        rw [genCycleCond_pos h2]
        apply dinsert_fresh
        simp only [dkeys, List.map_append, List.map_cons, List.map_nil,
          List.mem_append, List.mem_cons, List.not_mem_nil, or_false, not_or]
        exact ⟨⟨hcond, fun he => ne_cc_cond c c he.symm,
          fun he => ne_valve_cond c c he.symm⟩,
          fun he => ne_hx_cond (c - 1) c c he.symm⟩
      rw [e2]
      rw [dinsert_fresh (by
        simp only [dkeys, List.map_append, List.map_cons, List.map_nil,
          List.mem_append, List.mem_cons, List.not_mem_nil, or_false, not_or]
        exact ⟨⟨⟨hcomp, fun he => ne_cc_comp c c he.symm,
          fun he => ne_valve_comp c c he.symm⟩,
          fun he => ne_hx_comp (c - 1) c c he.symm⟩,
          fun he => ne_cond_comp c c he.symm⟩)]
      subst h2
      simp [plainCycleEntries, h1]
    · have e2 : genCycleCond ⟨fl, N, [], []⟩ c
          (m ++ [(ccKey c, ⟨ccKey c, .cycleCloser⟩),
                 (valveKey c, ⟨valveKey c, .valve⟩)]
             ++ [(hxKey (c - 1) c, ⟨hxKey (c - 1) c, .heatExchanger⟩)])
          = m ++ [(ccKey c, ⟨ccKey c, .cycleCloser⟩),
                 (valveKey c, ⟨valveKey c, .valve⟩)]
             ++ [(hxKey (c - 1) c, ⟨hxKey (c - 1) c, .heatExchanger⟩)] :=
        genCycleCond_neg h2
      rw [e2]
      rw [dinsert_fresh (by
        simp only [dkeys, List.map_append, List.map_cons, List.map_nil,
          List.mem_append, List.mem_cons, List.not_mem_nil, or_false, not_or]
        exact ⟨⟨hcomp, fun he => ne_cc_comp c c he.symm,
          fun he => ne_valve_comp c c he.symm⟩,
          fun he => ne_hx_comp (c - 1) c c he.symm⟩)]
      simp [plainCycleEntries, h1, h2]
  · have e1 : genCycleHx c
        (m ++ [(ccKey c, ⟨ccKey c, .cycleCloser⟩),
               (valveKey c, ⟨valveKey c, .valve⟩)])
        = m ++ [(ccKey c, ⟨ccKey c, .cycleCloser⟩),
               (valveKey c, ⟨valveKey c, .valve⟩)] :=
      genCycleHx_neg h1
    rw [e1]
    by_cases h2 : c = N
    · have hcond : condKey c ∉ dkeys m :=
        hf _ (mem_plainCycleKeys.mpr (Or.inr (Or.inr (Or.inr (Or.inl ⟨h2, rfl⟩)))))
      have e2 : genCycleCond ⟨fl, N, [], []⟩ c
          (m ++ [(ccKey c, ⟨ccKey c, .cycleCloser⟩),
                 (valveKey c, ⟨valveKey c, .valve⟩)])
          = m ++ [(ccKey c, ⟨ccKey c, .cycleCloser⟩),
                 (valveKey c, ⟨valveKey c, .valve⟩)]
             ++ [(condKey c, ⟨condKey c, .condenser⟩)] := by
        rw [genCycleCond_pos h2]
        apply dinsert_fresh
        simp only [dkeys, List.map_append, List.map_cons, List.map_nil,
          List.mem_append, List.mem_cons, List.not_mem_nil, or_false, not_or]
        exact ⟨hcond, fun he => ne_cc_cond c c he.symm,
          fun he => ne_valve_cond c c he.symm⟩
      rw [e2]
      rw [dinsert_fresh (by
        simp only [dkeys, List.map_append, List.map_cons, List.map_nil,
          List.mem_append, List.mem_cons, List.not_mem_nil, or_false, not_or]
        exact ⟨⟨hcomp, fun he => ne_cc_comp c c he.symm,
          fun he => ne_valve_comp c c he.symm⟩,
          fun he => ne_cond_comp c c he.symm⟩)]
      have hc1 : c = 1 := not_not.mp h1
      subst hc1
      subst h2
      simp [plainCycleEntries]
    · have e2 : genCycleCond ⟨fl, N, [], []⟩ c
          (m ++ [(ccKey c, ⟨ccKey c, .cycleCloser⟩),
                 (valveKey c, ⟨valveKey c, .valve⟩)])
          = m ++ [(ccKey c, ⟨ccKey c, .cycleCloser⟩),
                 (valveKey c, ⟨valveKey c, .valve⟩)] :=
        genCycleCond_neg h2
      rw [e2]
      rw [dinsert_fresh (by
        simp only [dkeys, List.map_append, List.map_cons, List.map_nil,
          List.mem_append, List.mem_cons, List.not_mem_nil, or_false, not_or]
        exact ⟨hcomp, fun he => ne_cc_comp c c he.symm,
          fun he => ne_valve_comp c c he.symm⟩)]
      have hc1 : c = 1 := not_not.mp h1
      subst hc1
      simp [plainCycleEntries, h2]

/-- Folding the plain cycles appends their entry blocks. -/
theorem foldl_genCycle_plain (fl : List String) (N : Nat) :
    ∀ (l : List Nat) (m : List (String × Component)),
      (dkeys m ++ l.flatMap (plainCycleKeys N)).Nodup →
      List.foldl (genCycleComponents ⟨fl, N, [], []⟩) m l
        = m ++ l.flatMap (plainCycleEntries N) := by
  intro l
  induction l with
  | nil =>
    intro m _
    simp
  | cons c t ih =>
    intro m hnd
    have hdisj : List.Disjoint (dkeys m)
        ((c :: t).flatMap (plainCycleKeys N)) :=
      List.disjoint_of_nodup_append hnd
    have hf : ∀ k ∈ plainCycleKeys N c, k ∉ dkeys m := by
      intro k hk hkm
      exact hdisj hkm (by
        rw [List.flatMap_cons, List.mem_append]
        exact Or.inl hk)
    rw [List.foldl_cons, genCycleComponents_plain fl N c m hf, ih, List.flatMap_cons,
      List.append_assoc]
    rw [dkeys_append, dkeys_plainCycleEntries, List.append_assoc]
    rw [List.flatMap_cons] at hnd
    exact hnd

/-- The component store of the plain configuration, in creation order. -/
theorem generate_components_plain (fl : List String) (N : Nat) :
    generate_components ⟨fl, N, [], []⟩
      = fixedComponents ++ (List.range' 1 N).flatMap (plainCycleEntries N) := by
  unfold generate_components
  exact foldl_genCycle_plain fl N (List.range' 1 N) fixedComponents
    (nodup_plainAllKeys N)

/-! Component counting for claim C4. -/

/-- A per-cycle cycle closer (excludes the fixed `Consumer Cycle Closer`). -/
def isCycleCloserEntry (kv : String × Component) : Bool :=
  kv.2.kind == .cycleCloser && strStarts kv.1 "Cycle Closer "

def isValveEntry (kv : String × Component) : Bool :=
  kv.2.kind == .valve

def isCompressorEntry (kv : String × Component) : Bool :=
  kv.2.kind == .compressor

def isCondenserEntry (kv : String × Component) : Bool :=
  kv.2.kind == .condenser

/-- An inter-cycle heat exchanger `Heat Exchanger {c-1}_{c}` (excludes the
evaporator and internal heat exchangers, which have other names). -/
def isInterCycleHxEntry (kv : String × Component) : Bool :=
  strStarts kv.1 "Heat Exchanger "

theorem isPrefixB_eq_false_of_clash :
    ∀ {p q : List Char}, clash p q = true →
      ∀ r, isPrefixB p (q ++ r) = false := by
  intro p
  induction p with
  | nil => intro q h; cases q <;> cases h
  | cons a as ih =>
    intro q h r
    cases q with
    | nil => cases h
    | cons b bs =>
      simp only [clash, Bool.or_eq_true, bne_iff_ne, ne_eq,
        decide_eq_true_eq] at h
      by_cases hab : a = b
      · rcases h with h | h
        · exact absurd hab h
        · simp only [List.cons_append, isPrefixB, hab]
          simp [ih h r]
      · simp [List.cons_append, isPrefixB, hab]

theorem strStarts_self_append (p : String) (r : List Char) :
    strStarts ⟨p.data ++ r⟩ p = true :=
  isPrefixB_refl_append p.data r

theorem countP_ite_singleton {α : Type} (p : α → Bool) (P : Prop)
    [Decidable P] (a : α) :
    List.countP p (if P then [a] else [])
      = if P then (if p a then 1 else 0) else 0 := by
  split <;> simp [List.countP_cons]

theorem countP_flatMap {α β : Type} (p : β → Bool) (f : α → List β) :
    ∀ l : List α,
      List.countP p (l.flatMap f) = (l.map (fun c => List.countP p (f c))).sum := by
  intro l
  induction l with
  | nil => rfl
  | cons a t ih =>
    rw [List.flatMap_cons, List.countP_append, ih, List.map_cons, List.sum_cons]

theorem sum_map_const_one {α : Type} (l : List α) :
    (l.map (fun _ => 1)).sum = l.length := by
  induction l with
  | nil => rfl
  | cons a t ih => simp [ih, Nat.add_comm]

theorem sum_map_ite_prop {α : Type} (p : α → Prop) [DecidablePred p]
    (l : List α) :
    (l.map (fun c => if p c then 1 else 0)).sum
      = List.countP (fun c => decide (p c)) l := by
  induction l with
  | nil => rfl
  | cons a t ih =>
    rw [List.map_cons, List.sum_cons, List.countP_cons, ih]
    by_cases h : p a <;> simp [h, Nat.add_comm]

theorem countP_decide_eq_of_nodup {a : Nat} {l : List Nat} (hn : l.Nodup)
    (hm : a ∈ l) : List.countP (fun c => decide (c = a)) l = 1 := by
  induction l with
  | nil => cases hm
  | cons b t ih =>
    rw [List.nodup_cons] at hn
    rcases List.mem_cons.mp hm with h | h
    · subst h
      rw [List.countP_cons, if_pos (by simp)]
      rw [List.countP_eq_zero.mpr (by
        intro c hc
        simp only [decide_eq_true_eq]
        intro he
        exact hn.1 (he ▸ hc))]
    · have hb : ¬b = a := by
        intro he
        exact hn.1 (he ▸ h)
      rw [List.countP_cons, if_neg (by simpa using hb), Nat.add_zero]
      exact ih hn.2 h

/-- Cycle-closer evaluation lemmas on the plain per-cycle entries. -/
theorem count_cc_plainCycleEntries (N c : Nat) :
    List.countP isCycleCloserEntry (plainCycleEntries N c) = 1 := by
  have h1 : strStarts (ccKey c) "Cycle Closer " = true := by
    show isPrefixB "Cycle Closer ".data (ccKey c).data = true
    rw [ccKey_data]
    exact isPrefixB_refl_append _ _
  unfold plainCycleEntries
  rw [List.countP_append, List.countP_append, List.countP_append]
  rw [countP_ite_singleton, countP_ite_singleton]
  simp [List.countP_cons, isCycleCloserEntry, h1]

theorem count_valve_plainCycleEntries (N c : Nat) :
    List.countP isValveEntry (plainCycleEntries N c) = 1 := by
  unfold plainCycleEntries
  rw [List.countP_append, List.countP_append, List.countP_append]
  rw [countP_ite_singleton, countP_ite_singleton]
  simp [List.countP_cons, isValveEntry]

theorem count_comp_plainCycleEntries (N c : Nat) :
    List.countP isCompressorEntry (plainCycleEntries N c) = 1 := by
  unfold plainCycleEntries
  rw [List.countP_append, List.countP_append, List.countP_append]
  rw [countP_ite_singleton, countP_ite_singleton]
  simp [List.countP_cons, isCompressorEntry]

theorem count_cond_plainCycleEntries (N c : Nat) :
    List.countP isCondenserEntry (plainCycleEntries N c)
      = if c = N then 1 else 0 := by
  unfold plainCycleEntries
  rw [List.countP_append, List.countP_append, List.countP_append]
  rw [countP_ite_singleton, countP_ite_singleton]
  simp [List.countP_cons, isCondenserEntry]

theorem count_hx_plainCycleEntries (N c : Nat) :
    List.countP isInterCycleHxEntry (plainCycleEntries N c)
      = if c ≠ 1 then 1 else 0 := by
  have hcc : isInterCycleHxEntry (ccKey c, ⟨ccKey c, .cycleCloser⟩) = false := by
    show strStarts (ccKey c) "Heat Exchanger " = false
    show isPrefixB "Heat Exchanger ".data (ccKey c).data = false
    rw [ccKey_data]
    exact isPrefixB_eq_false_of_clash (by decide) _
  have hv : isInterCycleHxEntry (valveKey c, ⟨valveKey c, .valve⟩) = false := by
    show isPrefixB "Heat Exchanger ".data (valveKey c).data = false
    rw [valveKey_data]
    exact isPrefixB_eq_false_of_clash (by decide) _
  have hcond : isInterCycleHxEntry (condKey c, ⟨condKey c, .condenser⟩)
      = false := by
    show isPrefixB "Heat Exchanger ".data (condKey c).data = false
    rw [condKey_data]
    exact isPrefixB_eq_false_of_clash (by decide) _
  have hcomp : isInterCycleHxEntry (compKey c, ⟨compKey c, .compressor⟩)
      = false := by
    show isPrefixB "Heat Exchanger ".data (compKey c).data = false
    rw [compKey_data]
    exact isPrefixB_eq_false_of_clash (by decide) _
  have hhx : isInterCycleHxEntry
      (hxKey (c - 1) c, ⟨hxKey (c - 1) c, .heatExchanger⟩) = true := by
    show isPrefixB "Heat Exchanger ".data (hxKey (c - 1) c).data = true
    rw [hxKey_data]
    exact isPrefixB_refl_append _ _
  unfold plainCycleEntries
  rw [List.countP_append, List.countP_append, List.countP_append]
  rw [countP_ite_singleton, countP_ite_singleton]
  simp [List.countP_cons, hcc, hv, hcond, hcomp, hhx]

/-! Wiring of the plain configuration. -/

/-- With an empty `int_heatex` map the cold-side collection is empty. -/
theorem cycle_int_heatex_plain (fl : List String) (N c : Nat) :
    cycle_int_heatex ⟨fl, N, [], []⟩ c = [] := by
  unfold cycle_int_heatex
  have h : ∀ (l : List Nat) (acc : List Nat),
      List.foldl
        (fun acc i =>
          match alGet (⟨fl, N, [], []⟩ : Config).int_heatex i with
          | some (.single t) => if t = c then acc ++ [i] else acc
          | some (.list ts) => if c ∈ ts then acc ++ [i] else acc
          | none => acc)
        acc l = acc := by
    intro l
    induction l with
    | nil => intro acc; rfl
    | cons a t ih => intro acc; exact ih acc
  exact h _ []

theorem noI_natDigits (n : Nat) : 'I' ∉ natDigits n := by
  intro h
  have := mem_natDigits_isDigit n 'I' h
  exact absurd this (by decide)

/-- No key of the plain component store contains the hot-side filter
substring (all keys lack a capital `I`). -/
theorem int_heatexs_of_plain (fl : List String) (N c : Nat) :
    int_heatexs_of (generate_components ⟨fl, N, [], []⟩) c = [] := by
  unfold int_heatexs_of
  rw [List.filter_eq_nil_iff.mpr ?_]
  · rfl
  intro k hk
  simp only [Bool.not_eq_true]
  have hpat : (("Internal Heat Exchanger " ++ natRepr c)).data.head? = some 'I' := rfl
  apply containsB_eq_false_of_head_not_mem hpat
  have hkeys : dkeys (generate_components ⟨fl, N, [], []⟩) = plainAllKeys N := by
    rw [generate_components_plain, plainAllKeys, dkeys_append]
    congr 1
    have h : ∀ l : List Nat,
        dkeys (l.flatMap (plainCycleEntries N)) = l.flatMap (plainCycleKeys N) := by
      intro l
      induction l with
      | nil => rfl
      | cons a t ih =>
        rw [List.flatMap_cons, List.flatMap_cons, dkeys_append,
          dkeys_plainCycleEntries, ih]
    exact h _
  rw [show dkeys (generate_components ⟨fl, N, [], []⟩)
    = plainAllKeys N from hkeys] at hk
  rw [plainAllKeys, List.mem_append] at hk
  rcases hk with hk | hk
  · fin_cases hk <;> decide
  · rw [List.mem_flatMap] at hk
    obtain ⟨a, -, hk⟩ := hk
    rw [mem_plainCycleKeys] at hk
    rcases hk with h | h | ⟨-, h⟩ | ⟨-, h⟩ | h <;> subst h <;>
      first
        | (rw [show ('I' ∈ (ccKey a).data) = ('I' ∈ "Cycle Closer ".data
              ++ natDigits a) from by rw [ccKey_data]]
           simp only [List.mem_append]
           rintro (h | h)
           · exact absurd h (by decide)
           · exact noI_natDigits a h)
        | (rw [show ('I' ∈ (valveKey a).data) = ('I' ∈ "Valve ".data
              ++ natDigits a) from by rw [valveKey_data]]
           simp only [List.mem_append]
           rintro (h | h)
           · exact absurd h (by decide)
           · exact noI_natDigits a h)
        | (rw [show ('I' ∈ (condKey a).data) = ('I' ∈ "Condenser ".data
              ++ natDigits a) from by rw [condKey_data]]
           simp only [List.mem_append]
           rintro (h | h)
           · exact absurd h (by decide)
           · exact noI_natDigits a h)
        | (rw [show ('I' ∈ (compKey a).data) = ('I' ∈ "Compressor ".data
              ++ natDigits a) from by rw [compKey_data]]
           simp only [List.mem_append]
           rintro (h | h)
           · exact absurd h (by decide)
           · exact noI_natDigits a h)
        | (rw [show ('I' ∈ (hxKey (a - 1) a).data) = ('I' ∈ "Heat Exchanger ".data
              ++ (natDigits (a - 1) ++ '_' :: natDigits a)) from by rw [hxKey_data]]
           simp only [List.mem_append, List.mem_cons]
           rintro (h | h | h | h)
           · exact absurd h (by decide)
           · exact noI_natDigits (a - 1) h
           · exact absurd h (by decide)
           · exact noI_natDigits a h)

/-- Successful `set_conn` with a fresh label appends the connection. -/
theorem set_conn_ok_append {st : St}
    {label comp_out outlet comp_in inlet : String} {csrc ctgt : Component}
    (h1 : dget st.components comp_out = some csrc)
    (h2 : dget st.components comp_in = some ctgt)
    (hfresh : label ∉ st.connections.map Prod.fst) :
    set_conn st label comp_out outlet comp_in inlet
      = .ok ⟨st.components,
          st.connections ++ [(label, ⟨label, csrc, outlet, ctgt, inlet⟩)],
          st.nw_conns ++ [⟨label, csrc, outlet, ctgt, inlet⟩]⟩ := by
  unfold set_conn
  rw [h1, h2]
  simp only [dinsert_fresh hfresh]

/-- The plain store has unique keys. -/
theorem nodup_dkeys_plain (fl : List String) (N : Nat) :
    (dkeys (generate_components ⟨fl, N, [], []⟩)).Nodup := by
  have hkeys : dkeys (generate_components ⟨fl, N, [], []⟩) = plainAllKeys N := by
    rw [generate_components_plain, plainAllKeys, dkeys_append]
    congr 1
    have h : ∀ l : List Nat,
        dkeys (l.flatMap (plainCycleEntries N)) = l.flatMap (plainCycleKeys N) := by
      intro l
      induction l with
      | nil => rfl
      | cons a t ih =>
        rw [List.flatMap_cons, List.flatMap_cons, dkeys_append,
          dkeys_plainCycleEntries, ih]
    exact h _
  rw [hkeys]
  exact nodup_plainAllKeys N

/-- Lookup of a fixed component in the plain store. -/
theorem dget_plain_fixed {fl : List String} {N : Nat} {k : String}
    {v : Component} (hm : (k, v) ∈ fixedComponents) :
    dget (generate_components ⟨fl, N, [], []⟩) k = some v :=
  dget_of_mem_nodup
    (by rw [generate_components_plain]; exact List.mem_append_left _ hm)
    (nodup_dkeys_plain fl N)

/-- Lookup of a per-cycle component in the plain store. -/
theorem dget_plain_cycle {fl : List String} {N c : Nat} {k : String}
    {v : Component} (hc : c ∈ List.range' 1 N)
    (hm : (k, v) ∈ plainCycleEntries N c) :
    dget (generate_components ⟨fl, N, [], []⟩) k = some v :=
  dget_of_mem_nodup
    (by
      rw [generate_components_plain]
      exact List.mem_append_right _ (List.mem_flatMap.mpr ⟨c, hc, hm⟩))
    (nodup_dkeys_plain fl N)

/-! Connection labels of the plain configuration. -/

theorem natRepr_data (n : Nat) : (natRepr n).data = natDigits n := rfl

def ccValveLabel (c : Nat) : String :=
  "cc" ++ natRepr c ++ "_to_valve" ++ natRepr c

def valveHxLabel (c : Nat) : String :=
  "valve" ++ natRepr c ++ "_to_heat_ex" ++ natRepr (c - 1) ++ "_" ++ natRepr c

def evapCompLabel (c : Nat) : String :=
  "evaporator1_to_comp" ++ natRepr c

def hxCompLabel (c : Nat) : String :=
  "heatex" ++ natRepr (c - 1) ++ "_" ++ natRepr c ++ "_to_comp" ++ natRepr c

def compCondLabel (c : Nat) : String :=
  "comp" ++ natRepr c ++ "_to_cond" ++ natRepr c

def compHxLabel (c : Nat) : String :=
  "comp" ++ natRepr c ++ "_to_heatex" ++ natRepr c ++ "_" ++ natRepr (c + 1)

def condCcLabel (c : Nat) : String :=
  "cond" ++ natRepr c ++ "_to_cc" ++ natRepr c

def hxCcLabel (c : Nat) : String :=
  "heatex" ++ natRepr c ++ "_" ++ natRepr (c + 1) ++ "_to_cc" ++ natRepr c

def condConsumerLabel (N : Nat) : String :=
  "cond" ++ natRepr N ++ "_to_consumer"

def heatsinkCondLabel (N : Nat) : String :=
  "heatsink_pump_to_cond" ++ natRepr N

/-- The eight fixed connection labels (lines 192-233). -/
def fixedConnLabels (N : Nat) : List String :=
  ["valve1_to_evaporator1", "heatsource_ff_to_heatsource_pump",
   "heatsource_pump_to_evaporator1", "evaporator1_to_heatsource_bf",
   "heatsink_cc_to_heatsink_pump", heatsinkCondLabel N,
   condConsumerLabel N, "consumer_to_heatsink_cc"]

/-- The per-cycle connection labels of the plain configuration, in
creation order. -/
def plainCycleConnLabels (N c : Nat) : List String :=
  [ccValveLabel c]
    ++ (if c ≠ 1 then [valveHxLabel c] else [])
    ++ [if c = 1 then evapCompLabel c else hxCompLabel c]
    ++ [if c = N then compCondLabel c else compHxLabel c]
    ++ [if c = N then condCcLabel c else hxCcLabel c]

theorem ccValveLabel_data (c : Nat) :
    (ccValveLabel c).data
      = "cc".data ++ (natDigits c ++ ('_' :: ("to_valve".data ++ natDigits c))) := by
  have h : "_to_valve".data = '_' :: "to_valve".data := by decide
  simp [ccValveLabel, natRepr_data, h, List.append_assoc]

theorem valveHxLabel_data (c : Nat) :
    (valveHxLabel c).data
      = "valve".data ++ (natDigits c ++ ('_' :: ("to_heat_ex".data
          ++ (natDigits (c - 1) ++ ('_' :: natDigits c))))) := by
  have h : "_to_heat_ex".data = '_' :: "to_heat_ex".data := by decide
  have h2 : "_".data = ['_'] := by decide
  simp [valveHxLabel, natRepr_data, h, h2, List.append_assoc]

theorem evapCompLabel_data (c : Nat) :
    (evapCompLabel c).data = "evaporator1_to_comp".data ++ natDigits c := rfl

theorem hxCompLabel_data (c : Nat) :
    (hxCompLabel c).data
      = "heatex".data ++ (natDigits (c - 1) ++ ('_' :: (natDigits c
          ++ ('_' :: ("to_comp".data ++ natDigits c))))) := by
  have h : "_to_comp".data = '_' :: "to_comp".data := by decide
  have h2 : "_".data = ['_'] := by decide
  simp [hxCompLabel, natRepr_data, h, h2, List.append_assoc]

theorem compCondLabel_data (c : Nat) :
    (compCondLabel c).data
      = "comp".data ++ (natDigits c ++ ('_' :: ("to_cond".data ++ natDigits c))) := by
  have h : "_to_cond".data = '_' :: "to_cond".data := by decide
  simp [compCondLabel, natRepr_data, h, List.append_assoc]

theorem compHxLabel_data (c : Nat) :
    (compHxLabel c).data
      = "comp".data ++ (natDigits c ++ ('_' :: ("to_heatex".data
          ++ (natDigits c ++ ('_' :: natDigits (c + 1)))))) := by
  have h : "_to_heatex".data = '_' :: "to_heatex".data := by decide
  have h2 : "_".data = ['_'] := by decide
  simp [compHxLabel, natRepr_data, h, h2, List.append_assoc]

theorem condCcLabel_data (c : Nat) :
    (condCcLabel c).data
      = "cond".data ++ (natDigits c ++ ('_' :: ("to_cc".data ++ natDigits c))) := by
  have h : "_to_cc".data = '_' :: "to_cc".data := by decide
  simp [condCcLabel, natRepr_data, h, List.append_assoc]

theorem hxCcLabel_data (c : Nat) :
    (hxCcLabel c).data
      = "heatex".data ++ (natDigits c ++ ('_' :: (natDigits (c + 1)
          ++ ('_' :: ("to_cc".data ++ natDigits c))))) := by
  have h : "_to_cc".data = '_' :: "to_cc".data := by decide
  have h2 : "_".data = ['_'] := by decide
  simp [hxCcLabel, natRepr_data, h, h2, List.append_assoc]

theorem condConsumerLabel_data (N : Nat) :
    (condConsumerLabel N).data
      = "cond".data ++ (natDigits N ++ ('_' :: "to_consumer".data)) := by
  have h : "_to_consumer".data = '_' :: "to_consumer".data := by decide
  simp [condConsumerLabel, natRepr_data, h, List.append_assoc]

theorem heatsinkCondLabel_data (N : Nat) :
    (heatsinkCondLabel N).data
      = "heatsink_pump_to_cond".data ++ natDigits N := rfl

theorem valve1Evap_data :
    ("valve1_to_evaporator1" : String).data
      = "valve".data ++ (natDigits 1 ++ ('_' :: "to_evaporator1".data)) := by
  decide

/-- Splitting a shared literal prefix followed by digit blocks. -/
theorem prefix_digits_split {p r s : List Char} {c c' : Nat}
    (h : p ++ (natDigits c ++ r) = p ++ (natDigits c' ++ s))
    (hr : ∀ x, r.head? = some x → x.isDigit = false)
    (hs : ∀ x, s.head? = some x → x.isDigit = false) : c = c' ∧ r = s :=
  natDigits_append_inj (List.append_cancel_left h) hr hs

theorem head_not_digit_cons {ch : Char} {l : List Char}
    (hch : ch.isDigit = false) :
    ∀ x, ((ch :: l).head? = some x) → x.isDigit = false := by
  intro x hx
  injection hx with hx
  exact hx ▸ hch

theorem head_not_digit_nil :
    ∀ x : Char, (([] : List Char).head? = some x) → x.isDigit = false := by
  intro x hx
  cases hx

/-- Two strings with the given digit-block decompositions and equal
leading literals force equal leading digit blocks. -/
theorem label_split {a b : String} {p r s : List Char} {c c' : Nat}
    (ha : a.data = p ++ (natDigits c ++ r))
    (hb : b.data = p ++ (natDigits c' ++ s))
    (hr : ∀ x, r.head? = some x → x.isDigit = false)
    (hs : ∀ x, s.head? = some x → x.isDigit = false)
    (hab : a = b) : c = c' ∧ r = s := by
  refine prefix_digits_split
    (show p ++ (natDigits c ++ r) = p ++ (natDigits c' ++ s) from by
      rw [← ha, ← hb, hab]) hr hs

/-! Injectivity and distinctness of the connection-label families. -/

theorem ccValveLabel_inj {c c' : Nat} (h : ccValveLabel c = ccValveLabel c') :
    c = c' :=
  (label_split (ccValveLabel_data c) (ccValveLabel_data c')
    (head_not_digit_cons (by decide)) (head_not_digit_cons (by decide)) h).1

theorem valveHxLabel_inj {c c' : Nat} (h : valveHxLabel c = valveHxLabel c') :
    c = c' :=
  (label_split (valveHxLabel_data c) (valveHxLabel_data c')
    (head_not_digit_cons (by decide)) (head_not_digit_cons (by decide)) h).1

theorem evapCompLabel_data' (c : Nat) :
    (evapCompLabel c).data
      = "evaporator1_to_comp".data ++ (natDigits c ++ []) := by
  rw [evapCompLabel_data]
  simp

theorem evapCompLabel_inj {c c' : Nat} (h : evapCompLabel c = evapCompLabel c') :
    c = c' :=
  (label_split (evapCompLabel_data' c) (evapCompLabel_data' c')
    head_not_digit_nil head_not_digit_nil h).1

theorem hxCompLabel_inj {c c' : Nat} (h : hxCompLabel c = hxCompLabel c') :
    c = c' := by
  have h1 := label_split (hxCompLabel_data c) (hxCompLabel_data c')
    (head_not_digit_cons (by decide)) (head_not_digit_cons (by decide)) h
  have h2 := h1.2
  injection h2 with _ h3
  exact (natDigits_append_inj h3 (head_not_digit_cons (by decide))
    (head_not_digit_cons (by decide))).1

theorem compCondLabel_inj {c c' : Nat} (h : compCondLabel c = compCondLabel c') :
    c = c' :=
  (label_split (compCondLabel_data c) (compCondLabel_data c')
    (head_not_digit_cons (by decide)) (head_not_digit_cons (by decide)) h).1

theorem compHxLabel_inj {c c' : Nat} (h : compHxLabel c = compHxLabel c') :
    c = c' :=
  (label_split (compHxLabel_data c) (compHxLabel_data c')
    (head_not_digit_cons (by decide)) (head_not_digit_cons (by decide)) h).1

theorem condCcLabel_inj {c c' : Nat} (h : condCcLabel c = condCcLabel c') :
    c = c' :=
  (label_split (condCcLabel_data c) (condCcLabel_data c')
    (head_not_digit_cons (by decide)) (head_not_digit_cons (by decide)) h).1

theorem hxCcLabel_inj {c c' : Nat} (h : hxCcLabel c = hxCcLabel c') : c = c' :=
  (label_split (hxCcLabel_data c) (hxCcLabel_data c')
    (head_not_digit_cons (by decide)) (head_not_digit_cons (by decide)) h).1

theorem ne_compCond_compHx (c c' : Nat) : compCondLabel c ≠ compHxLabel c' := by
  intro h
  have h1 := label_split (compCondLabel_data c) (compHxLabel_data c')
    (head_not_digit_cons (by decide)) (head_not_digit_cons (by decide)) h
  have h2 := h1.2
  injection h2 with _ h3
  exact ne_of_clash
    (show clash "to_cond".data "to_heatex".data = true from by decide) _ _ h3

theorem ne_hxComp_hxCc (c c' : Nat) : hxCompLabel c ≠ hxCcLabel c' := by
  intro h
  have h1 := label_split (hxCompLabel_data c) (hxCcLabel_data c')
    (head_not_digit_cons (by decide)) (head_not_digit_cons (by decide)) h
  have h2 := h1.2
  injection h2 with _ h3
  have h4 := natDigits_append_inj h3 (head_not_digit_cons (by decide))
    (head_not_digit_cons (by decide))
  have h5 := h4.2
  injection h5 with _ h6
  exact ne_of_clash
    (show clash "to_comp".data "to_cc".data = true from by decide) _ _ h6

theorem ne_valve1Evap_valveHx (c : Nat) :
    ("valve1_to_evaporator1" : String) ≠ valveHxLabel c := by
  intro h
  have h1 := label_split valve1Evap_data (valveHxLabel_data c)
    (head_not_digit_cons (by decide)) (head_not_digit_cons (by decide)) h
  have h2 := h1.2
  injection h2 with _ h3
  exact ne_of_clash
    (show clash "to_evaporator1".data "to_heat_ex".data = true from by decide) _ _ h3

theorem ne_condConsumer_condCc (M c : Nat) :
    condConsumerLabel M ≠ condCcLabel c := by
  intro h
  have h1 := label_split (condConsumerLabel_data M) (condCcLabel_data c)
    (head_not_digit_cons (by decide)) (head_not_digit_cons (by decide)) h
  have h2 := h1.2
  injection h2 with _ h3
  exact ne_of_clash
    (show clash "to_consumer".data "to_cc".data = true from by decide) _ _ h3

theorem mem_plainCycleConnLabels {N c : Nat} {k : String} :
    k ∈ plainCycleConnLabels N c ↔
      k = ccValveLabel c ∨ (c ≠ 1 ∧ k = valveHxLabel c) ∨
        (c = 1 ∧ k = evapCompLabel c) ∨ (c ≠ 1 ∧ k = hxCompLabel c) ∨
        (c = N ∧ k = compCondLabel c) ∨ (c ≠ N ∧ k = compHxLabel c) ∨
        (c = N ∧ k = condCcLabel c) ∨ (c ≠ N ∧ k = hxCcLabel c) := by
  unfold plainCycleConnLabels
  by_cases h1 : c ≠ 1
  · rw [if_pos h1, if_neg h1]
    by_cases h2 : c = N
    · rw [if_pos h2, if_pos h2]
      simp only [List.cons_append, List.nil_append, List.mem_cons,
        List.mem_singleton, List.not_mem_nil, or_false]
      tauto
    · rw [if_neg h2, if_neg h2]
      simp only [List.cons_append, List.nil_append, List.mem_cons,
        List.mem_singleton, List.not_mem_nil, or_false]
      tauto
  · have hc1 : c = 1 := not_not.mp h1
    rw [if_neg h1, if_pos hc1]
    by_cases h2 : c = N
    · rw [if_pos h2, if_pos h2]
      simp only [List.cons_append, List.nil_append, List.mem_cons,
        List.mem_singleton, List.not_mem_nil, or_false]
      tauto
    · rw [if_neg h2, if_neg h2]
      simp only [List.cons_append, List.nil_append, List.mem_cons,
        List.mem_singleton, List.not_mem_nil, or_false]
      tauto

theorem ne_pair_ccValve_valveHx (c c' : Nat) : ccValveLabel c ≠ valveHxLabel c' :=
  ne_of_clash_parts (ccValveLabel_data c) (valveHxLabel_data c') (by decide)

theorem ne_pair_ccValve_evapComp (c c' : Nat) : ccValveLabel c ≠ evapCompLabel c' :=
  ne_of_clash_parts (ccValveLabel_data c) (evapCompLabel_data c') (by decide)

theorem ne_pair_ccValve_hxComp (c c' : Nat) : ccValveLabel c ≠ hxCompLabel c' :=
  ne_of_clash_parts (ccValveLabel_data c) (hxCompLabel_data c') (by decide)

theorem ne_pair_ccValve_compCond (c c' : Nat) : ccValveLabel c ≠ compCondLabel c' :=
  ne_of_clash_parts (ccValveLabel_data c) (compCondLabel_data c') (by decide)

theorem ne_pair_ccValve_compHx (c c' : Nat) : ccValveLabel c ≠ compHxLabel c' :=
  ne_of_clash_parts (ccValveLabel_data c) (compHxLabel_data c') (by decide)

theorem ne_pair_ccValve_condCc (c c' : Nat) : ccValveLabel c ≠ condCcLabel c' :=
  ne_of_clash_parts (ccValveLabel_data c) (condCcLabel_data c') (by decide)

theorem ne_pair_ccValve_hxCc (c c' : Nat) : ccValveLabel c ≠ hxCcLabel c' :=
  ne_of_clash_parts (ccValveLabel_data c) (hxCcLabel_data c') (by decide)

theorem ne_pair_valveHx_evapComp (c c' : Nat) : valveHxLabel c ≠ evapCompLabel c' :=
  ne_of_clash_parts (valveHxLabel_data c) (evapCompLabel_data c') (by decide)

theorem ne_pair_valveHx_hxComp (c c' : Nat) : valveHxLabel c ≠ hxCompLabel c' :=
  ne_of_clash_parts (valveHxLabel_data c) (hxCompLabel_data c') (by decide)

theorem ne_pair_valveHx_compCond (c c' : Nat) : valveHxLabel c ≠ compCondLabel c' :=
  ne_of_clash_parts (valveHxLabel_data c) (compCondLabel_data c') (by decide)

theorem ne_pair_valveHx_compHx (c c' : Nat) : valveHxLabel c ≠ compHxLabel c' :=
  ne_of_clash_parts (valveHxLabel_data c) (compHxLabel_data c') (by decide)

theorem ne_pair_valveHx_condCc (c c' : Nat) : valveHxLabel c ≠ condCcLabel c' :=
  ne_of_clash_parts (valveHxLabel_data c) (condCcLabel_data c') (by decide)

theorem ne_pair_valveHx_hxCc (c c' : Nat) : valveHxLabel c ≠ hxCcLabel c' :=
  ne_of_clash_parts (valveHxLabel_data c) (hxCcLabel_data c') (by decide)

theorem ne_pair_evapComp_hxComp (c c' : Nat) : evapCompLabel c ≠ hxCompLabel c' :=
  ne_of_clash_parts (evapCompLabel_data c) (hxCompLabel_data c') (by decide)

theorem ne_pair_evapComp_compCond (c c' : Nat) : evapCompLabel c ≠ compCondLabel c' :=
  ne_of_clash_parts (evapCompLabel_data c) (compCondLabel_data c') (by decide)

theorem ne_pair_evapComp_compHx (c c' : Nat) : evapCompLabel c ≠ compHxLabel c' :=
  ne_of_clash_parts (evapCompLabel_data c) (compHxLabel_data c') (by decide)

theorem ne_pair_evapComp_condCc (c c' : Nat) : evapCompLabel c ≠ condCcLabel c' :=
  ne_of_clash_parts (evapCompLabel_data c) (condCcLabel_data c') (by decide)

theorem ne_pair_evapComp_hxCc (c c' : Nat) : evapCompLabel c ≠ hxCcLabel c' :=
  ne_of_clash_parts (evapCompLabel_data c) (hxCcLabel_data c') (by decide)

theorem ne_pair_hxComp_compCond (c c' : Nat) : hxCompLabel c ≠ compCondLabel c' :=
  ne_of_clash_parts (hxCompLabel_data c) (compCondLabel_data c') (by decide)

theorem ne_pair_hxComp_compHx (c c' : Nat) : hxCompLabel c ≠ compHxLabel c' :=
  ne_of_clash_parts (hxCompLabel_data c) (compHxLabel_data c') (by decide)

theorem ne_pair_hxComp_condCc (c c' : Nat) : hxCompLabel c ≠ condCcLabel c' :=
  ne_of_clash_parts (hxCompLabel_data c) (condCcLabel_data c') (by decide)

theorem ne_pair_compCond_condCc (c c' : Nat) : compCondLabel c ≠ condCcLabel c' :=
  ne_of_clash_parts (compCondLabel_data c) (condCcLabel_data c') (by decide)

theorem ne_pair_compCond_hxCc (c c' : Nat) : compCondLabel c ≠ hxCcLabel c' :=
  ne_of_clash_parts (compCondLabel_data c) (hxCcLabel_data c') (by decide)

theorem ne_pair_compHx_condCc (c c' : Nat) : compHxLabel c ≠ condCcLabel c' :=
  ne_of_clash_parts (compHxLabel_data c) (condCcLabel_data c') (by decide)

theorem ne_pair_compHx_hxCc (c c' : Nat) : compHxLabel c ≠ hxCcLabel c' :=
  ne_of_clash_parts (compHxLabel_data c) (hxCcLabel_data c') (by decide)

theorem ne_pair_condCc_hxCc (c c' : Nat) : condCcLabel c ≠ hxCcLabel c' :=
  ne_of_clash_parts (condCcLabel_data c) (hxCcLabel_data c') (by decide)

theorem nodup_plainCycleConnLabels (N c : Nat) :
    (plainCycleConnLabels N c).Nodup := by
  unfold plainCycleConnLabels
  by_cases h1 : c ≠ 1
  · rw [if_pos h1, if_neg h1]
    by_cases h2 : c = N
    · rw [if_pos h2, if_pos h2]
      simp only [List.cons_append, List.nil_append, List.nodup_cons,
        List.mem_cons, List.mem_singleton, List.not_mem_nil, or_false,
        not_or, List.nodup_nil, and_true, not_false_iff]
      repeat' apply And.intro
      · exact ne_pair_ccValve_valveHx _ _
      · exact ne_pair_ccValve_hxComp _ _
      · exact ne_pair_ccValve_compCond _ _
      · exact ne_pair_ccValve_condCc _ _
      · exact ne_pair_valveHx_hxComp _ _
      · exact ne_pair_valveHx_compCond _ _
      · exact ne_pair_valveHx_condCc _ _
      · exact ne_pair_hxComp_compCond _ _
      · exact ne_pair_hxComp_condCc _ _
      · exact ne_pair_compCond_condCc _ _
    · rw [if_neg h2, if_neg h2]
      simp only [List.cons_append, List.nil_append, List.nodup_cons,
        List.mem_cons, List.mem_singleton, List.not_mem_nil, or_false,
        not_or, List.nodup_nil, and_true, not_false_iff]
      repeat' apply And.intro
      · exact ne_pair_ccValve_valveHx _ _
      · exact ne_pair_ccValve_hxComp _ _
      · exact ne_pair_ccValve_compHx _ _
      · exact ne_pair_ccValve_hxCc _ _
      · exact ne_pair_valveHx_hxComp _ _
      · exact ne_pair_valveHx_compHx _ _
      · exact ne_pair_valveHx_hxCc _ _
      · exact ne_pair_hxComp_compHx _ _
      · exact ne_hxComp_hxCc _ _
      · exact ne_pair_compHx_hxCc _ _
  · have hc1 : c = 1 := not_not.mp h1
    rw [if_neg h1, if_pos hc1]
    by_cases h2 : c = N
    · rw [if_pos h2, if_pos h2]
      simp only [List.cons_append, List.nil_append, List.nodup_cons,
        List.mem_cons, List.mem_singleton, List.not_mem_nil, or_false,
        not_or, List.nodup_nil, and_true, not_false_iff]
      repeat' apply And.intro
      · exact ne_pair_ccValve_evapComp _ _
      · exact ne_pair_ccValve_compCond _ _
      · exact ne_pair_ccValve_condCc _ _
      · exact ne_pair_evapComp_compCond _ _
      · exact ne_pair_evapComp_condCc _ _
      · exact ne_pair_compCond_condCc _ _
    · rw [if_neg h2, if_neg h2]
      simp only [List.cons_append, List.nil_append, List.nodup_cons,
        List.mem_cons, List.mem_singleton, List.not_mem_nil, or_false,
        not_or, List.nodup_nil, and_true, not_false_iff]
      repeat' apply And.intro
      · exact ne_pair_ccValve_evapComp _ _
      · exact ne_pair_ccValve_compHx _ _
      · exact ne_pair_ccValve_hxCc _ _
      · exact ne_pair_evapComp_compHx _ _
      · exact ne_pair_evapComp_hxCc _ _
      · exact ne_pair_compHx_hxCc _ _

theorem disjoint_plainCycleConnLabels {N a b : Nat} (hne : a ≠ b) :
    List.Disjoint (plainCycleConnLabels N a) (plainCycleConnLabels N b) := by
  intro k hka hkb
  rw [mem_plainCycleConnLabels] at hka hkb
  rcases hka with h | ⟨-, h⟩ | ⟨-, h⟩ | ⟨-, h⟩ | ⟨-, h⟩ | ⟨-, h⟩ | ⟨-, h⟩ | ⟨-, h⟩
  · subst h
    rcases hkb with h' | ⟨-, h'⟩ | ⟨-, h'⟩ | ⟨-, h'⟩ | ⟨-, h'⟩ | ⟨-, h'⟩ | ⟨-, h'⟩ | ⟨-, h'⟩
    · exact hne (ccValveLabel_inj h')
    · exact absurd h' (ne_pair_ccValve_valveHx _ _)
    · exact absurd h' (ne_pair_ccValve_evapComp _ _)
    · exact absurd h' (ne_pair_ccValve_hxComp _ _)
    · exact absurd h' (ne_pair_ccValve_compCond _ _)
    · exact absurd h' (ne_pair_ccValve_compHx _ _)
    · exact absurd h' (ne_pair_ccValve_condCc _ _)
    · exact absurd h' (ne_pair_ccValve_hxCc _ _)
  · subst h
    rcases hkb with h' | ⟨-, h'⟩ | ⟨-, h'⟩ | ⟨-, h'⟩ | ⟨-, h'⟩ | ⟨-, h'⟩ | ⟨-, h'⟩ | ⟨-, h'⟩
    · exact absurd h'.symm (ne_pair_ccValve_valveHx _ _)
    · exact hne (valveHxLabel_inj h')
    · exact absurd h' (ne_pair_valveHx_evapComp _ _)
    · exact absurd h' (ne_pair_valveHx_hxComp _ _)
    · exact absurd h' (ne_pair_valveHx_compCond _ _)
    · exact absurd h' (ne_pair_valveHx_compHx _ _)
    · exact absurd h' (ne_pair_valveHx_condCc _ _)
    · exact absurd h' (ne_pair_valveHx_hxCc _ _)
  · subst h
    rcases hkb with h' | ⟨-, h'⟩ | ⟨-, h'⟩ | ⟨-, h'⟩ | ⟨-, h'⟩ | ⟨-, h'⟩ | ⟨-, h'⟩ | ⟨-, h'⟩
    · exact absurd h'.symm (ne_pair_ccValve_evapComp _ _)
    · exact absurd h'.symm (ne_pair_valveHx_evapComp _ _)
    · exact hne (evapCompLabel_inj h')
    · exact absurd h' (ne_pair_evapComp_hxComp _ _)
    · exact absurd h' (ne_pair_evapComp_compCond _ _)
    · exact absurd h' (ne_pair_evapComp_compHx _ _)
    · exact absurd h' (ne_pair_evapComp_condCc _ _)
    · exact absurd h' (ne_pair_evapComp_hxCc _ _)
  · subst h
    rcases hkb with h' | ⟨-, h'⟩ | ⟨-, h'⟩ | ⟨-, h'⟩ | ⟨-, h'⟩ | ⟨-, h'⟩ | ⟨-, h'⟩ | ⟨-, h'⟩
    · exact absurd h'.symm (ne_pair_ccValve_hxComp _ _)
    · exact absurd h'.symm (ne_pair_valveHx_hxComp _ _)
    · exact absurd h'.symm (ne_pair_evapComp_hxComp _ _)
    · exact hne (hxCompLabel_inj h')
    · exact absurd h' (ne_pair_hxComp_compCond _ _)
    · exact absurd h' (ne_pair_hxComp_compHx _ _)
    · exact absurd h' (ne_pair_hxComp_condCc _ _)
    · exact absurd h' (ne_hxComp_hxCc _ _)
  · subst h
    rcases hkb with h' | ⟨-, h'⟩ | ⟨-, h'⟩ | ⟨-, h'⟩ | ⟨-, h'⟩ | ⟨-, h'⟩ | ⟨-, h'⟩ | ⟨-, h'⟩
    · exact absurd h'.symm (ne_pair_ccValve_compCond _ _)
    · exact absurd h'.symm (ne_pair_valveHx_compCond _ _)
    · exact absurd h'.symm (ne_pair_evapComp_compCond _ _)
    · exact absurd h'.symm (ne_pair_hxComp_compCond _ _)
    · exact hne (compCondLabel_inj h')
    · exact absurd h' (ne_compCond_compHx _ _)
    · exact absurd h' (ne_pair_compCond_condCc _ _)
    · exact absurd h' (ne_pair_compCond_hxCc _ _)
  · subst h
    rcases hkb with h' | ⟨-, h'⟩ | ⟨-, h'⟩ | ⟨-, h'⟩ | ⟨-, h'⟩ | ⟨-, h'⟩ | ⟨-, h'⟩ | ⟨-, h'⟩
    · exact absurd h'.symm (ne_pair_ccValve_compHx _ _)
    · exact absurd h'.symm (ne_pair_valveHx_compHx _ _)
    · exact absurd h'.symm (ne_pair_evapComp_compHx _ _)
    · exact absurd h'.symm (ne_pair_hxComp_compHx _ _)
    · exact absurd h'.symm (ne_compCond_compHx _ _)
    · exact hne (compHxLabel_inj h')
    · exact absurd h' (ne_pair_compHx_condCc _ _)
    · exact absurd h' (ne_pair_compHx_hxCc _ _)
  · subst h
    rcases hkb with h' | ⟨-, h'⟩ | ⟨-, h'⟩ | ⟨-, h'⟩ | ⟨-, h'⟩ | ⟨-, h'⟩ | ⟨-, h'⟩ | ⟨-, h'⟩
    · exact absurd h'.symm (ne_pair_ccValve_condCc _ _)
    · exact absurd h'.symm (ne_pair_valveHx_condCc _ _)
    · exact absurd h'.symm (ne_pair_evapComp_condCc _ _)
    · exact absurd h'.symm (ne_pair_hxComp_condCc _ _)
    · exact absurd h'.symm (ne_pair_compCond_condCc _ _)
    · exact absurd h'.symm (ne_pair_compHx_condCc _ _)
    · exact hne (condCcLabel_inj h')
    · exact absurd h' (ne_pair_condCc_hxCc _ _)
  · subst h
    rcases hkb with h' | ⟨-, h'⟩ | ⟨-, h'⟩ | ⟨-, h'⟩ | ⟨-, h'⟩ | ⟨-, h'⟩ | ⟨-, h'⟩ | ⟨-, h'⟩
    · exact absurd h'.symm (ne_pair_ccValve_hxCc _ _)
    · exact absurd h'.symm (ne_pair_valveHx_hxCc _ _)
    · exact absurd h'.symm (ne_pair_evapComp_hxCc _ _)
    · exact absurd h'.symm (ne_hxComp_hxCc _ _)
    · exact absurd h'.symm (ne_pair_compCond_hxCc _ _)
    · exact absurd h'.symm (ne_pair_compHx_hxCc _ _)
    · exact absurd h'.symm (ne_pair_condCc_hxCc _ _)
    · exact hne (hxCcLabel_inj h')

/-! Fixed connection labels: distinctness and disjointness from the
per-cycle labels. -/

theorem lit_data_self (s : String) : s.data = s.data ++ [] :=
  (List.append_nil _).symm

theorem nodup_fixedConnLabels (N : Nat) : (fixedConnLabels N).Nodup := by
  unfold fixedConnLabels
  simp only [List.nodup_cons, List.mem_cons, List.not_mem_nil, or_false,
    not_or, List.nodup_nil, and_true, not_false_iff]
  repeat' apply And.intro
  · decide
  · decide
  · decide
  · decide
  · exact ne_of_clash_parts (lit_data_self _) (heatsinkCondLabel_data _) (by decide)
  · exact ne_of_clash_parts (lit_data_self _) (condConsumerLabel_data _) (by decide)
  · decide
  · decide
  · decide
  · decide
  · exact ne_of_clash_parts (lit_data_self _) (heatsinkCondLabel_data _) (by decide)
  · exact ne_of_clash_parts (lit_data_self _) (condConsumerLabel_data _) (by decide)
  · decide
  · decide
  · decide
  · exact ne_of_clash_parts (lit_data_self _) (heatsinkCondLabel_data _) (by decide)
  · exact ne_of_clash_parts (lit_data_self _) (condConsumerLabel_data _) (by decide)
  · decide
  · decide
  · exact ne_of_clash_parts (lit_data_self _) (heatsinkCondLabel_data _) (by decide)
  · exact ne_of_clash_parts (lit_data_self _) (condConsumerLabel_data _) (by decide)
  · decide
  · exact ne_of_clash_parts (lit_data_self _) (heatsinkCondLabel_data _) (by decide)
  · exact ne_of_clash_parts (lit_data_self _) (condConsumerLabel_data _) (by decide)
  · decide
  · exact ne_of_clash_parts (heatsinkCondLabel_data _) (condConsumerLabel_data _) (by decide)
  · exact ne_of_clash_parts (heatsinkCondLabel_data _) (lit_data_self _) (by decide)
  · exact ne_of_clash_parts (condConsumerLabel_data _) (lit_data_self _) (by decide)

theorem disjoint_fixed_cycleConn (N c : Nat) :
    List.Disjoint (fixedConnLabels N) (plainCycleConnLabels N c) := by
  intro k h1 h2
  rw [mem_plainCycleConnLabels] at h2
  simp only [fixedConnLabels, List.mem_cons, List.not_mem_nil, or_false] at h1
  rcases h1 with h | h | h | h | h | h | h | h
  · subst h
    rcases h2 with h' | ⟨-, h'⟩ | ⟨-, h'⟩ | ⟨-, h'⟩ | ⟨-, h'⟩ | ⟨-, h'⟩ | ⟨-, h'⟩ | ⟨-, h'⟩
    · exact absurd h' (ne_of_clash_parts (lit_data_self _) (ccValveLabel_data _) (by decide))
    · exact absurd h' (ne_valve1Evap_valveHx _)
    · exact absurd h' (ne_of_clash_parts (lit_data_self _) (evapCompLabel_data _) (by decide))
    · exact absurd h' (ne_of_clash_parts (lit_data_self _) (hxCompLabel_data _) (by decide))
    · exact absurd h' (ne_of_clash_parts (lit_data_self _) (compCondLabel_data _) (by decide))
    · exact absurd h' (ne_of_clash_parts (lit_data_self _) (compHxLabel_data _) (by decide))
    · exact absurd h' (ne_of_clash_parts (lit_data_self _) (condCcLabel_data _) (by decide))
    · exact absurd h' (ne_of_clash_parts (lit_data_self _) (hxCcLabel_data _) (by decide))
  · subst h
    rcases h2 with h' | ⟨-, h'⟩ | ⟨-, h'⟩ | ⟨-, h'⟩ | ⟨-, h'⟩ | ⟨-, h'⟩ | ⟨-, h'⟩ | ⟨-, h'⟩
    · exact absurd h' (ne_of_clash_parts (lit_data_self _) (ccValveLabel_data _) (by decide))
    · exact absurd h' (ne_of_clash_parts (lit_data_self _) (valveHxLabel_data _) (by decide))
    · exact absurd h' (ne_of_clash_parts (lit_data_self _) (evapCompLabel_data _) (by decide))
    · exact absurd h' (ne_of_clash_parts (lit_data_self _) (hxCompLabel_data _) (by decide))
    · exact absurd h' (ne_of_clash_parts (lit_data_self _) (compCondLabel_data _) (by decide))
    · exact absurd h' (ne_of_clash_parts (lit_data_self _) (compHxLabel_data _) (by decide))
    · exact absurd h' (ne_of_clash_parts (lit_data_self _) (condCcLabel_data _) (by decide))
    · exact absurd h' (ne_of_clash_parts (lit_data_self _) (hxCcLabel_data _) (by decide))
  · subst h
    rcases h2 with h' | ⟨-, h'⟩ | ⟨-, h'⟩ | ⟨-, h'⟩ | ⟨-, h'⟩ | ⟨-, h'⟩ | ⟨-, h'⟩ | ⟨-, h'⟩
    · exact absurd h' (ne_of_clash_parts (lit_data_self _) (ccValveLabel_data _) (by decide))
    · exact absurd h' (ne_of_clash_parts (lit_data_self _) (valveHxLabel_data _) (by decide))
    · exact absurd h' (ne_of_clash_parts (lit_data_self _) (evapCompLabel_data _) (by decide))
    · exact absurd h' (ne_of_clash_parts (lit_data_self _) (hxCompLabel_data _) (by decide))
    · exact absurd h' (ne_of_clash_parts (lit_data_self _) (compCondLabel_data _) (by decide))
    · exact absurd h' (ne_of_clash_parts (lit_data_self _) (compHxLabel_data _) (by decide))
    · exact absurd h' (ne_of_clash_parts (lit_data_self _) (condCcLabel_data _) (by decide))
    · exact absurd h' (ne_of_clash_parts (lit_data_self _) (hxCcLabel_data _) (by decide))
  · subst h
    rcases h2 with h' | ⟨-, h'⟩ | ⟨-, h'⟩ | ⟨-, h'⟩ | ⟨-, h'⟩ | ⟨-, h'⟩ | ⟨-, h'⟩ | ⟨-, h'⟩
    · exact absurd h' (ne_of_clash_parts (lit_data_self _) (ccValveLabel_data _) (by decide))
    · exact absurd h' (ne_of_clash_parts (lit_data_self _) (valveHxLabel_data _) (by decide))
    · exact absurd h' (ne_of_clash_parts (lit_data_self _) (evapCompLabel_data _) (by decide))
    · exact absurd h' (ne_of_clash_parts (lit_data_self _) (hxCompLabel_data _) (by decide))
    · exact absurd h' (ne_of_clash_parts (lit_data_self _) (compCondLabel_data _) (by decide))
    · exact absurd h' (ne_of_clash_parts (lit_data_self _) (compHxLabel_data _) (by decide))
    · exact absurd h' (ne_of_clash_parts (lit_data_self _) (condCcLabel_data _) (by decide))
    · exact absurd h' (ne_of_clash_parts (lit_data_self _) (hxCcLabel_data _) (by decide))
  · subst h
    rcases h2 with h' | ⟨-, h'⟩ | ⟨-, h'⟩ | ⟨-, h'⟩ | ⟨-, h'⟩ | ⟨-, h'⟩ | ⟨-, h'⟩ | ⟨-, h'⟩
    · exact absurd h' (ne_of_clash_parts (lit_data_self _) (ccValveLabel_data _) (by decide))
    · exact absurd h' (ne_of_clash_parts (lit_data_self _) (valveHxLabel_data _) (by decide))
    · exact absurd h' (ne_of_clash_parts (lit_data_self _) (evapCompLabel_data _) (by decide))
    · exact absurd h' (ne_of_clash_parts (lit_data_self _) (hxCompLabel_data _) (by decide))
    · exact absurd h' (ne_of_clash_parts (lit_data_self _) (compCondLabel_data _) (by decide))
    · exact absurd h' (ne_of_clash_parts (lit_data_self _) (compHxLabel_data _) (by decide))
    · exact absurd h' (ne_of_clash_parts (lit_data_self _) (condCcLabel_data _) (by decide))
    · exact absurd h' (ne_of_clash_parts (lit_data_self _) (hxCcLabel_data _) (by decide))
  · subst h
    rcases h2 with h' | ⟨-, h'⟩ | ⟨-, h'⟩ | ⟨-, h'⟩ | ⟨-, h'⟩ | ⟨-, h'⟩ | ⟨-, h'⟩ | ⟨-, h'⟩
    · exact absurd h' (ne_of_clash_parts (heatsinkCondLabel_data _) (ccValveLabel_data _) (by decide))
    · exact absurd h' (ne_of_clash_parts (heatsinkCondLabel_data _) (valveHxLabel_data _) (by decide))
    · exact absurd h' (ne_of_clash_parts (heatsinkCondLabel_data _) (evapCompLabel_data _) (by decide))
    · exact absurd h' (ne_of_clash_parts (heatsinkCondLabel_data _) (hxCompLabel_data _) (by decide))
    · exact absurd h' (ne_of_clash_parts (heatsinkCondLabel_data _) (compCondLabel_data _) (by decide))
    · exact absurd h' (ne_of_clash_parts (heatsinkCondLabel_data _) (compHxLabel_data _) (by decide))
    · exact absurd h' (ne_of_clash_parts (heatsinkCondLabel_data _) (condCcLabel_data _) (by decide))
    · exact absurd h' (ne_of_clash_parts (heatsinkCondLabel_data _) (hxCcLabel_data _) (by decide))
  · subst h
    rcases h2 with h' | ⟨-, h'⟩ | ⟨-, h'⟩ | ⟨-, h'⟩ | ⟨-, h'⟩ | ⟨-, h'⟩ | ⟨-, h'⟩ | ⟨-, h'⟩
    · exact absurd h' (ne_of_clash_parts (condConsumerLabel_data _) (ccValveLabel_data _) (by decide))
    · exact absurd h' (ne_of_clash_parts (condConsumerLabel_data _) (valveHxLabel_data _) (by decide))
    · exact absurd h' (ne_of_clash_parts (condConsumerLabel_data _) (evapCompLabel_data _) (by decide))
    · exact absurd h' (ne_of_clash_parts (condConsumerLabel_data _) (hxCompLabel_data _) (by decide))
    · exact absurd h' (ne_of_clash_parts (condConsumerLabel_data _) (compCondLabel_data _) (by decide))
    · exact absurd h' (ne_of_clash_parts (condConsumerLabel_data _) (compHxLabel_data _) (by decide))
    · exact absurd h' (ne_condConsumer_condCc _ _)
    · exact absurd h' (ne_of_clash_parts (condConsumerLabel_data _) (hxCcLabel_data _) (by decide))
  · subst h
    rcases h2 with h' | ⟨-, h'⟩ | ⟨-, h'⟩ | ⟨-, h'⟩ | ⟨-, h'⟩ | ⟨-, h'⟩ | ⟨-, h'⟩ | ⟨-, h'⟩
    · exact absurd h' (ne_of_clash_parts (lit_data_self _) (ccValveLabel_data _) (by decide))
    · exact absurd h' (ne_of_clash_parts (lit_data_self _) (valveHxLabel_data _) (by decide))
    · exact absurd h' (ne_of_clash_parts (lit_data_self _) (evapCompLabel_data _) (by decide))
    · exact absurd h' (ne_of_clash_parts (lit_data_self _) (hxCompLabel_data _) (by decide))
    · exact absurd h' (ne_of_clash_parts (lit_data_self _) (compCondLabel_data _) (by decide))
    · exact absurd h' (ne_of_clash_parts (lit_data_self _) (compHxLabel_data _) (by decide))
    · exact absurd h' (ne_of_clash_parts (lit_data_self _) (condCcLabel_data _) (by decide))
    · exact absurd h' (ne_of_clash_parts (lit_data_self _) (hxCcLabel_data _) (by decide))

/-- Bind of a success just continues. -/
theorem ok_bind {e a b : Type} (x : a) (f : a → Except e b) :
    (Except.ok x >>= f : Except e b) = f x := rfl

/-- `pure` is `ok`. -/
theorem pure_ok {e a : Type} (x : a) : (pure x : Except e a) = Except.ok x := rfl

theorem alGet_nil {a : Type} (k : Nat) : alGet ([] : List (Nat × a)) k = none := rfl

/-! Evaluation of the fixed wiring loops on the plain configuration. -/

/-- The eight fixed connections, with their stored endpoint objects. -/
def fixedConnEntries (N : Nat) : List (String × Conn) :=
  [("valve1_to_evaporator1", ⟨"valve1_to_evaporator1", ⟨valveKey 1, .valve⟩, "out1", ⟨"Evaporator 1", .heatExchanger⟩, "in2"⟩),
   ("heatsource_ff_to_heatsource_pump", ⟨"heatsource_ff_to_heatsource_pump", ⟨"Heat Source Feed Flow", .src⟩, "out1", ⟨"Heat Source Recirculation Pump", .pump⟩, "in1"⟩),
   ("heatsource_pump_to_evaporator1", ⟨"heatsource_pump_to_evaporator1", ⟨"Heat Source Recirculation Pump", .pump⟩, "out1", ⟨"Evaporator 1", .heatExchanger⟩, "in1"⟩),
   ("evaporator1_to_heatsource_bf", ⟨"evaporator1_to_heatsource_bf", ⟨"Evaporator 1", .heatExchanger⟩, "out1", ⟨"Heat Source Back Flow", .sink⟩, "in1"⟩),
   ("heatsink_cc_to_heatsink_pump", ⟨"heatsink_cc_to_heatsink_pump", ⟨"Consumer Cycle Closer", .cycleCloser⟩, "out1", ⟨"Consumer Recirculation Pump", .pump⟩, "in1"⟩),
   (("heatsink_pump_to_cond" ++ natRepr N), ⟨("heatsink_pump_to_cond" ++ natRepr N), ⟨"Consumer Recirculation Pump", .pump⟩, "out1", ⟨condKey N, .condenser⟩, "in2"⟩),
   (("cond" ++ natRepr N ++ "_to_consumer"), ⟨("cond" ++ natRepr N ++ "_to_consumer"), ⟨condKey N, .condenser⟩, "out2", ⟨"Consumer", .heatExchangerSimple⟩, "in1"⟩),
   ("consumer_to_heatsink_cc", ⟨"consumer_to_heatsink_cc", ⟨"Consumer", .heatExchangerSimple⟩, "out1", ⟨"Consumer Cycle Closer", .cycleCloser⟩, "in1"⟩)]

theorem map_fst_fixedConnEntries (N : Nat) :
    (fixedConnEntries N).map Prod.fst = fixedConnLabels N := rfl

theorem wireFixed_plain (fl : List String) (N : Nat) (hN : 1 ≤ N) :
    wireFixed ⟨fl, N, [], []⟩ ⟨generate_components ⟨fl, N, [], []⟩, [], []⟩
      = .ok ⟨generate_components ⟨fl, N, [], []⟩, fixedConnEntries N,
             (fixedConnEntries N).map Prod.snd⟩ := by
  have h1mem : (1 : Nat) ∈ List.range' 1 N := List.mem_range'.mpr ⟨0, by omega, by omega⟩
  have hNmem : N ∈ List.range' 1 N := List.mem_range'.mpr ⟨N - 1, by omega, by omega⟩
  have hgV1 : dget (generate_components ⟨fl, N, [], []⟩) "Valve 1"
      = some ⟨valveKey 1, .valve⟩ := by
    rw [show ("Valve 1" : String) = valveKey 1 from by decide]
    exact dget_plain_cycle h1mem (by simp [plainCycleEntries])
  have hgEV : dget (generate_components ⟨fl, N, [], []⟩) "Evaporator 1"
      = some ⟨"Evaporator 1", .heatExchanger⟩ :=
    dget_plain_fixed (by decide)
  have hgFF : dget (generate_components ⟨fl, N, [], []⟩) "Heat Source Feed Flow"
      = some ⟨"Heat Source Feed Flow", .src⟩ :=
    dget_plain_fixed (by decide)
  have hgRP : dget (generate_components ⟨fl, N, [], []⟩)
      "Heat Source Recirculation Pump"
      = some ⟨"Heat Source Recirculation Pump", .pump⟩ :=
    dget_plain_fixed (by decide)
  have hgBF : dget (generate_components ⟨fl, N, [], []⟩) "Heat Source Back Flow"
      = some ⟨"Heat Source Back Flow", .sink⟩ :=
    dget_plain_fixed (by decide)
  have hgCCC : dget (generate_components ⟨fl, N, [], []⟩) "Consumer Cycle Closer"
      = some ⟨"Consumer Cycle Closer", .cycleCloser⟩ :=
    dget_plain_fixed (by decide)
  have hgCRP : dget (generate_components ⟨fl, N, [], []⟩)
      "Consumer Recirculation Pump"
      = some ⟨"Consumer Recirculation Pump", .pump⟩ :=
    dget_plain_fixed (by decide)
  have hgCON : dget (generate_components ⟨fl, N, [], []⟩) "Consumer"
      = some ⟨"Consumer", .heatExchangerSimple⟩ :=
    dget_plain_fixed (by decide)
  have hgCND : dget (generate_components ⟨fl, N, [], []⟩) (condKey N)
      = some ⟨condKey N, .condenser⟩ :=
    dget_plain_cycle hNmem (by simp [plainCycleEntries])
  have e1 : set_conn
      ⟨generate_components ⟨fl, N, [], []⟩,
       [],
       []⟩
      "valve1_to_evaporator1" "Valve 1" "out1" "Evaporator 1" "in2"
      = .ok ⟨generate_components ⟨fl, N, [], []⟩,
       [("valve1_to_evaporator1", ⟨"valve1_to_evaporator1", ⟨valveKey 1, .valve⟩, "out1", ⟨"Evaporator 1", .heatExchanger⟩, "in2"⟩)],
       [⟨"valve1_to_evaporator1", ⟨valveKey 1, .valve⟩, "out1", ⟨"Evaporator 1", .heatExchanger⟩, "in2"⟩]⟩ :=
    set_conn_ok_append hgV1 hgEV (by simp)
  have e2 : set_conn
      ⟨generate_components ⟨fl, N, [], []⟩,
       [("valve1_to_evaporator1", ⟨"valve1_to_evaporator1", ⟨valveKey 1, .valve⟩, "out1", ⟨"Evaporator 1", .heatExchanger⟩, "in2"⟩)],
       [⟨"valve1_to_evaporator1", ⟨valveKey 1, .valve⟩, "out1", ⟨"Evaporator 1", .heatExchanger⟩, "in2"⟩]⟩
      "heatsource_ff_to_heatsource_pump" "Heat Source Feed Flow" "out1" "Heat Source Recirculation Pump" "in1"
      = .ok ⟨generate_components ⟨fl, N, [], []⟩,
       [("valve1_to_evaporator1", ⟨"valve1_to_evaporator1", ⟨valveKey 1, .valve⟩, "out1", ⟨"Evaporator 1", .heatExchanger⟩, "in2"⟩),
       ("heatsource_ff_to_heatsource_pump", ⟨"heatsource_ff_to_heatsource_pump", ⟨"Heat Source Feed Flow", .src⟩, "out1", ⟨"Heat Source Recirculation Pump", .pump⟩, "in1"⟩)],
       [⟨"valve1_to_evaporator1", ⟨valveKey 1, .valve⟩, "out1", ⟨"Evaporator 1", .heatExchanger⟩, "in2"⟩,
       ⟨"heatsource_ff_to_heatsource_pump", ⟨"Heat Source Feed Flow", .src⟩, "out1", ⟨"Heat Source Recirculation Pump", .pump⟩, "in1"⟩]⟩ :=
    set_conn_ok_append hgFF hgRP (by
      intro hm
      simp only [List.map_cons, List.map_nil, List.mem_cons,
        List.not_mem_nil, or_false] at hm
      exact absurd hm (by decide))
  have e3 : set_conn
      ⟨generate_components ⟨fl, N, [], []⟩,
       [("valve1_to_evaporator1", ⟨"valve1_to_evaporator1", ⟨valveKey 1, .valve⟩, "out1", ⟨"Evaporator 1", .heatExchanger⟩, "in2"⟩),
       ("heatsource_ff_to_heatsource_pump", ⟨"heatsource_ff_to_heatsource_pump", ⟨"Heat Source Feed Flow", .src⟩, "out1", ⟨"Heat Source Recirculation Pump", .pump⟩, "in1"⟩)],
       [⟨"valve1_to_evaporator1", ⟨valveKey 1, .valve⟩, "out1", ⟨"Evaporator 1", .heatExchanger⟩, "in2"⟩,
       ⟨"heatsource_ff_to_heatsource_pump", ⟨"Heat Source Feed Flow", .src⟩, "out1", ⟨"Heat Source Recirculation Pump", .pump⟩, "in1"⟩]⟩
      "heatsource_pump_to_evaporator1" "Heat Source Recirculation Pump" "out1" "Evaporator 1" "in1"
      = .ok ⟨generate_components ⟨fl, N, [], []⟩,
       [("valve1_to_evaporator1", ⟨"valve1_to_evaporator1", ⟨valveKey 1, .valve⟩, "out1", ⟨"Evaporator 1", .heatExchanger⟩, "in2"⟩),
       ("heatsource_ff_to_heatsource_pump", ⟨"heatsource_ff_to_heatsource_pump", ⟨"Heat Source Feed Flow", .src⟩, "out1", ⟨"Heat Source Recirculation Pump", .pump⟩, "in1"⟩),
       ("heatsource_pump_to_evaporator1", ⟨"heatsource_pump_to_evaporator1", ⟨"Heat Source Recirculation Pump", .pump⟩, "out1", ⟨"Evaporator 1", .heatExchanger⟩, "in1"⟩)],
       [⟨"valve1_to_evaporator1", ⟨valveKey 1, .valve⟩, "out1", ⟨"Evaporator 1", .heatExchanger⟩, "in2"⟩,
       ⟨"heatsource_ff_to_heatsource_pump", ⟨"Heat Source Feed Flow", .src⟩, "out1", ⟨"Heat Source Recirculation Pump", .pump⟩, "in1"⟩,
       ⟨"heatsource_pump_to_evaporator1", ⟨"Heat Source Recirculation Pump", .pump⟩, "out1", ⟨"Evaporator 1", .heatExchanger⟩, "in1"⟩]⟩ :=
    set_conn_ok_append hgRP hgEV (by
      intro hm
      simp only [List.map_cons, List.map_nil, List.mem_cons,
        List.not_mem_nil, or_false] at hm
      exact absurd hm (by decide))
  have e4 : set_conn
      ⟨generate_components ⟨fl, N, [], []⟩,
       [("valve1_to_evaporator1", ⟨"valve1_to_evaporator1", ⟨valveKey 1, .valve⟩, "out1", ⟨"Evaporator 1", .heatExchanger⟩, "in2"⟩),
       ("heatsource_ff_to_heatsource_pump", ⟨"heatsource_ff_to_heatsource_pump", ⟨"Heat Source Feed Flow", .src⟩, "out1", ⟨"Heat Source Recirculation Pump", .pump⟩, "in1"⟩),
       ("heatsource_pump_to_evaporator1", ⟨"heatsource_pump_to_evaporator1", ⟨"Heat Source Recirculation Pump", .pump⟩, "out1", ⟨"Evaporator 1", .heatExchanger⟩, "in1"⟩)],
       [⟨"valve1_to_evaporator1", ⟨valveKey 1, .valve⟩, "out1", ⟨"Evaporator 1", .heatExchanger⟩, "in2"⟩,
       ⟨"heatsource_ff_to_heatsource_pump", ⟨"Heat Source Feed Flow", .src⟩, "out1", ⟨"Heat Source Recirculation Pump", .pump⟩, "in1"⟩,
       ⟨"heatsource_pump_to_evaporator1", ⟨"Heat Source Recirculation Pump", .pump⟩, "out1", ⟨"Evaporator 1", .heatExchanger⟩, "in1"⟩]⟩
      "evaporator1_to_heatsource_bf" "Evaporator 1" "out1" "Heat Source Back Flow" "in1"
      = .ok ⟨generate_components ⟨fl, N, [], []⟩,
       [("valve1_to_evaporator1", ⟨"valve1_to_evaporator1", ⟨valveKey 1, .valve⟩, "out1", ⟨"Evaporator 1", .heatExchanger⟩, "in2"⟩),
       ("heatsource_ff_to_heatsource_pump", ⟨"heatsource_ff_to_heatsource_pump", ⟨"Heat Source Feed Flow", .src⟩, "out1", ⟨"Heat Source Recirculation Pump", .pump⟩, "in1"⟩),
       ("heatsource_pump_to_evaporator1", ⟨"heatsource_pump_to_evaporator1", ⟨"Heat Source Recirculation Pump", .pump⟩, "out1", ⟨"Evaporator 1", .heatExchanger⟩, "in1"⟩),
       ("evaporator1_to_heatsource_bf", ⟨"evaporator1_to_heatsource_bf", ⟨"Evaporator 1", .heatExchanger⟩, "out1", ⟨"Heat Source Back Flow", .sink⟩, "in1"⟩)],
       [⟨"valve1_to_evaporator1", ⟨valveKey 1, .valve⟩, "out1", ⟨"Evaporator 1", .heatExchanger⟩, "in2"⟩,
       ⟨"heatsource_ff_to_heatsource_pump", ⟨"Heat Source Feed Flow", .src⟩, "out1", ⟨"Heat Source Recirculation Pump", .pump⟩, "in1"⟩,
       ⟨"heatsource_pump_to_evaporator1", ⟨"Heat Source Recirculation Pump", .pump⟩, "out1", ⟨"Evaporator 1", .heatExchanger⟩, "in1"⟩,
       ⟨"evaporator1_to_heatsource_bf", ⟨"Evaporator 1", .heatExchanger⟩, "out1", ⟨"Heat Source Back Flow", .sink⟩, "in1"⟩]⟩ :=
    set_conn_ok_append hgEV hgBF (by
      intro hm
      simp only [List.map_cons, List.map_nil, List.mem_cons,
        List.not_mem_nil, or_false] at hm
      exact absurd hm (by decide))
  have e5 : set_conn
      ⟨generate_components ⟨fl, N, [], []⟩,
       [("valve1_to_evaporator1", ⟨"valve1_to_evaporator1", ⟨valveKey 1, .valve⟩, "out1", ⟨"Evaporator 1", .heatExchanger⟩, "in2"⟩),
       ("heatsource_ff_to_heatsource_pump", ⟨"heatsource_ff_to_heatsource_pump", ⟨"Heat Source Feed Flow", .src⟩, "out1", ⟨"Heat Source Recirculation Pump", .pump⟩, "in1"⟩),
       ("heatsource_pump_to_evaporator1", ⟨"heatsource_pump_to_evaporator1", ⟨"Heat Source Recirculation Pump", .pump⟩, "out1", ⟨"Evaporator 1", .heatExchanger⟩, "in1"⟩),
       ("evaporator1_to_heatsource_bf", ⟨"evaporator1_to_heatsource_bf", ⟨"Evaporator 1", .heatExchanger⟩, "out1", ⟨"Heat Source Back Flow", .sink⟩, "in1"⟩)],
       [⟨"valve1_to_evaporator1", ⟨valveKey 1, .valve⟩, "out1", ⟨"Evaporator 1", .heatExchanger⟩, "in2"⟩,
       ⟨"heatsource_ff_to_heatsource_pump", ⟨"Heat Source Feed Flow", .src⟩, "out1", ⟨"Heat Source Recirculation Pump", .pump⟩, "in1"⟩,
       ⟨"heatsource_pump_to_evaporator1", ⟨"Heat Source Recirculation Pump", .pump⟩, "out1", ⟨"Evaporator 1", .heatExchanger⟩, "in1"⟩,
       ⟨"evaporator1_to_heatsource_bf", ⟨"Evaporator 1", .heatExchanger⟩, "out1", ⟨"Heat Source Back Flow", .sink⟩, "in1"⟩]⟩
      "heatsink_cc_to_heatsink_pump" "Consumer Cycle Closer" "out1" "Consumer Recirculation Pump" "in1"
      = .ok ⟨generate_components ⟨fl, N, [], []⟩,
       [("valve1_to_evaporator1", ⟨"valve1_to_evaporator1", ⟨valveKey 1, .valve⟩, "out1", ⟨"Evaporator 1", .heatExchanger⟩, "in2"⟩),
       ("heatsource_ff_to_heatsource_pump", ⟨"heatsource_ff_to_heatsource_pump", ⟨"Heat Source Feed Flow", .src⟩, "out1", ⟨"Heat Source Recirculation Pump", .pump⟩, "in1"⟩),
       ("heatsource_pump_to_evaporator1", ⟨"heatsource_pump_to_evaporator1", ⟨"Heat Source Recirculation Pump", .pump⟩, "out1", ⟨"Evaporator 1", .heatExchanger⟩, "in1"⟩),
       ("evaporator1_to_heatsource_bf", ⟨"evaporator1_to_heatsource_bf", ⟨"Evaporator 1", .heatExchanger⟩, "out1", ⟨"Heat Source Back Flow", .sink⟩, "in1"⟩),
       ("heatsink_cc_to_heatsink_pump", ⟨"heatsink_cc_to_heatsink_pump", ⟨"Consumer Cycle Closer", .cycleCloser⟩, "out1", ⟨"Consumer Recirculation Pump", .pump⟩, "in1"⟩)],
       [⟨"valve1_to_evaporator1", ⟨valveKey 1, .valve⟩, "out1", ⟨"Evaporator 1", .heatExchanger⟩, "in2"⟩,
       ⟨"heatsource_ff_to_heatsource_pump", ⟨"Heat Source Feed Flow", .src⟩, "out1", ⟨"Heat Source Recirculation Pump", .pump⟩, "in1"⟩,
       ⟨"heatsource_pump_to_evaporator1", ⟨"Heat Source Recirculation Pump", .pump⟩, "out1", ⟨"Evaporator 1", .heatExchanger⟩, "in1"⟩,
       ⟨"evaporator1_to_heatsource_bf", ⟨"Evaporator 1", .heatExchanger⟩, "out1", ⟨"Heat Source Back Flow", .sink⟩, "in1"⟩,
       ⟨"heatsink_cc_to_heatsink_pump", ⟨"Consumer Cycle Closer", .cycleCloser⟩, "out1", ⟨"Consumer Recirculation Pump", .pump⟩, "in1"⟩]⟩ :=
    set_conn_ok_append hgCCC hgCRP (by
      intro hm
      simp only [List.map_cons, List.map_nil, List.mem_cons,
        List.not_mem_nil, or_false] at hm
      exact absurd hm (by decide))
  have e6 : set_conn
      ⟨generate_components ⟨fl, N, [], []⟩,
       [("valve1_to_evaporator1", ⟨"valve1_to_evaporator1", ⟨valveKey 1, .valve⟩, "out1", ⟨"Evaporator 1", .heatExchanger⟩, "in2"⟩),
       ("heatsource_ff_to_heatsource_pump", ⟨"heatsource_ff_to_heatsource_pump", ⟨"Heat Source Feed Flow", .src⟩, "out1", ⟨"Heat Source Recirculation Pump", .pump⟩, "in1"⟩),
       ("heatsource_pump_to_evaporator1", ⟨"heatsource_pump_to_evaporator1", ⟨"Heat Source Recirculation Pump", .pump⟩, "out1", ⟨"Evaporator 1", .heatExchanger⟩, "in1"⟩),
       ("evaporator1_to_heatsource_bf", ⟨"evaporator1_to_heatsource_bf", ⟨"Evaporator 1", .heatExchanger⟩, "out1", ⟨"Heat Source Back Flow", .sink⟩, "in1"⟩),
       ("heatsink_cc_to_heatsink_pump", ⟨"heatsink_cc_to_heatsink_pump", ⟨"Consumer Cycle Closer", .cycleCloser⟩, "out1", ⟨"Consumer Recirculation Pump", .pump⟩, "in1"⟩)],
       [⟨"valve1_to_evaporator1", ⟨valveKey 1, .valve⟩, "out1", ⟨"Evaporator 1", .heatExchanger⟩, "in2"⟩,
       ⟨"heatsource_ff_to_heatsource_pump", ⟨"Heat Source Feed Flow", .src⟩, "out1", ⟨"Heat Source Recirculation Pump", .pump⟩, "in1"⟩,
       ⟨"heatsource_pump_to_evaporator1", ⟨"Heat Source Recirculation Pump", .pump⟩, "out1", ⟨"Evaporator 1", .heatExchanger⟩, "in1"⟩,
       ⟨"evaporator1_to_heatsource_bf", ⟨"Evaporator 1", .heatExchanger⟩, "out1", ⟨"Heat Source Back Flow", .sink⟩, "in1"⟩,
       ⟨"heatsink_cc_to_heatsink_pump", ⟨"Consumer Cycle Closer", .cycleCloser⟩, "out1", ⟨"Consumer Recirculation Pump", .pump⟩, "in1"⟩]⟩
      ("heatsink_pump_to_cond" ++ natRepr N) "Consumer Recirculation Pump" "out1" (condKey N) "in2"
      = .ok ⟨generate_components ⟨fl, N, [], []⟩,
       [("valve1_to_evaporator1", ⟨"valve1_to_evaporator1", ⟨valveKey 1, .valve⟩, "out1", ⟨"Evaporator 1", .heatExchanger⟩, "in2"⟩),
       ("heatsource_ff_to_heatsource_pump", ⟨"heatsource_ff_to_heatsource_pump", ⟨"Heat Source Feed Flow", .src⟩, "out1", ⟨"Heat Source Recirculation Pump", .pump⟩, "in1"⟩),
       ("heatsource_pump_to_evaporator1", ⟨"heatsource_pump_to_evaporator1", ⟨"Heat Source Recirculation Pump", .pump⟩, "out1", ⟨"Evaporator 1", .heatExchanger⟩, "in1"⟩),
       ("evaporator1_to_heatsource_bf", ⟨"evaporator1_to_heatsource_bf", ⟨"Evaporator 1", .heatExchanger⟩, "out1", ⟨"Heat Source Back Flow", .sink⟩, "in1"⟩),
       ("heatsink_cc_to_heatsink_pump", ⟨"heatsink_cc_to_heatsink_pump", ⟨"Consumer Cycle Closer", .cycleCloser⟩, "out1", ⟨"Consumer Recirculation Pump", .pump⟩, "in1"⟩),
       (("heatsink_pump_to_cond" ++ natRepr N), ⟨("heatsink_pump_to_cond" ++ natRepr N), ⟨"Consumer Recirculation Pump", .pump⟩, "out1", ⟨condKey N, .condenser⟩, "in2"⟩)],
       [⟨"valve1_to_evaporator1", ⟨valveKey 1, .valve⟩, "out1", ⟨"Evaporator 1", .heatExchanger⟩, "in2"⟩,
       ⟨"heatsource_ff_to_heatsource_pump", ⟨"Heat Source Feed Flow", .src⟩, "out1", ⟨"Heat Source Recirculation Pump", .pump⟩, "in1"⟩,
       ⟨"heatsource_pump_to_evaporator1", ⟨"Heat Source Recirculation Pump", .pump⟩, "out1", ⟨"Evaporator 1", .heatExchanger⟩, "in1"⟩,
       ⟨"evaporator1_to_heatsource_bf", ⟨"Evaporator 1", .heatExchanger⟩, "out1", ⟨"Heat Source Back Flow", .sink⟩, "in1"⟩,
       ⟨"heatsink_cc_to_heatsink_pump", ⟨"Consumer Cycle Closer", .cycleCloser⟩, "out1", ⟨"Consumer Recirculation Pump", .pump⟩, "in1"⟩,
       ⟨("heatsink_pump_to_cond" ++ natRepr N), ⟨"Consumer Recirculation Pump", .pump⟩, "out1", ⟨condKey N, .condenser⟩, "in2"⟩]⟩ :=
    set_conn_ok_append hgCRP hgCND (by
      intro hm
      simp only [List.map_cons, List.map_nil, List.mem_cons,
        List.not_mem_nil, or_false] at hm
      rcases hm with h | h | h | h | h
      · exact ne_of_clash_parts (heatsinkCondLabel_data N) (lit_data_self _) (by decide) h
      · exact ne_of_clash_parts (heatsinkCondLabel_data N) (lit_data_self _) (by decide) h
      · exact ne_of_clash_parts (heatsinkCondLabel_data N) (lit_data_self _) (by decide) h
      · exact ne_of_clash_parts (heatsinkCondLabel_data N) (lit_data_self _) (by decide) h
      · exact ne_of_clash_parts (heatsinkCondLabel_data N) (lit_data_self _) (by decide) h)
  have e7 : set_conn
      ⟨generate_components ⟨fl, N, [], []⟩,
       [("valve1_to_evaporator1", ⟨"valve1_to_evaporator1", ⟨valveKey 1, .valve⟩, "out1", ⟨"Evaporator 1", .heatExchanger⟩, "in2"⟩),
       ("heatsource_ff_to_heatsource_pump", ⟨"heatsource_ff_to_heatsource_pump", ⟨"Heat Source Feed Flow", .src⟩, "out1", ⟨"Heat Source Recirculation Pump", .pump⟩, "in1"⟩),
       ("heatsource_pump_to_evaporator1", ⟨"heatsource_pump_to_evaporator1", ⟨"Heat Source Recirculation Pump", .pump⟩, "out1", ⟨"Evaporator 1", .heatExchanger⟩, "in1"⟩),
       ("evaporator1_to_heatsource_bf", ⟨"evaporator1_to_heatsource_bf", ⟨"Evaporator 1", .heatExchanger⟩, "out1", ⟨"Heat Source Back Flow", .sink⟩, "in1"⟩),
       ("heatsink_cc_to_heatsink_pump", ⟨"heatsink_cc_to_heatsink_pump", ⟨"Consumer Cycle Closer", .cycleCloser⟩, "out1", ⟨"Consumer Recirculation Pump", .pump⟩, "in1"⟩),
       (("heatsink_pump_to_cond" ++ natRepr N), ⟨("heatsink_pump_to_cond" ++ natRepr N), ⟨"Consumer Recirculation Pump", .pump⟩, "out1", ⟨condKey N, .condenser⟩, "in2"⟩)],
       [⟨"valve1_to_evaporator1", ⟨valveKey 1, .valve⟩, "out1", ⟨"Evaporator 1", .heatExchanger⟩, "in2"⟩,
       ⟨"heatsource_ff_to_heatsource_pump", ⟨"Heat Source Feed Flow", .src⟩, "out1", ⟨"Heat Source Recirculation Pump", .pump⟩, "in1"⟩,
       ⟨"heatsource_pump_to_evaporator1", ⟨"Heat Source Recirculation Pump", .pump⟩, "out1", ⟨"Evaporator 1", .heatExchanger⟩, "in1"⟩,
       ⟨"evaporator1_to_heatsource_bf", ⟨"Evaporator 1", .heatExchanger⟩, "out1", ⟨"Heat Source Back Flow", .sink⟩, "in1"⟩,
       ⟨"heatsink_cc_to_heatsink_pump", ⟨"Consumer Cycle Closer", .cycleCloser⟩, "out1", ⟨"Consumer Recirculation Pump", .pump⟩, "in1"⟩,
       ⟨("heatsink_pump_to_cond" ++ natRepr N), ⟨"Consumer Recirculation Pump", .pump⟩, "out1", ⟨condKey N, .condenser⟩, "in2"⟩]⟩
      ("cond" ++ natRepr N ++ "_to_consumer") (condKey N) "out2" "Consumer" "in1"
      = .ok ⟨generate_components ⟨fl, N, [], []⟩,
       [("valve1_to_evaporator1", ⟨"valve1_to_evaporator1", ⟨valveKey 1, .valve⟩, "out1", ⟨"Evaporator 1", .heatExchanger⟩, "in2"⟩),
       ("heatsource_ff_to_heatsource_pump", ⟨"heatsource_ff_to_heatsource_pump", ⟨"Heat Source Feed Flow", .src⟩, "out1", ⟨"Heat Source Recirculation Pump", .pump⟩, "in1"⟩),
       ("heatsource_pump_to_evaporator1", ⟨"heatsource_pump_to_evaporator1", ⟨"Heat Source Recirculation Pump", .pump⟩, "out1", ⟨"Evaporator 1", .heatExchanger⟩, "in1"⟩),
       ("evaporator1_to_heatsource_bf", ⟨"evaporator1_to_heatsource_bf", ⟨"Evaporator 1", .heatExchanger⟩, "out1", ⟨"Heat Source Back Flow", .sink⟩, "in1"⟩),
       ("heatsink_cc_to_heatsink_pump", ⟨"heatsink_cc_to_heatsink_pump", ⟨"Consumer Cycle Closer", .cycleCloser⟩, "out1", ⟨"Consumer Recirculation Pump", .pump⟩, "in1"⟩),
       (("heatsink_pump_to_cond" ++ natRepr N), ⟨("heatsink_pump_to_cond" ++ natRepr N), ⟨"Consumer Recirculation Pump", .pump⟩, "out1", ⟨condKey N, .condenser⟩, "in2"⟩),
       (("cond" ++ natRepr N ++ "_to_consumer"), ⟨("cond" ++ natRepr N ++ "_to_consumer"), ⟨condKey N, .condenser⟩, "out2", ⟨"Consumer", .heatExchangerSimple⟩, "in1"⟩)],
       [⟨"valve1_to_evaporator1", ⟨valveKey 1, .valve⟩, "out1", ⟨"Evaporator 1", .heatExchanger⟩, "in2"⟩,
       ⟨"heatsource_ff_to_heatsource_pump", ⟨"Heat Source Feed Flow", .src⟩, "out1", ⟨"Heat Source Recirculation Pump", .pump⟩, "in1"⟩,
       ⟨"heatsource_pump_to_evaporator1", ⟨"Heat Source Recirculation Pump", .pump⟩, "out1", ⟨"Evaporator 1", .heatExchanger⟩, "in1"⟩,
       ⟨"evaporator1_to_heatsource_bf", ⟨"Evaporator 1", .heatExchanger⟩, "out1", ⟨"Heat Source Back Flow", .sink⟩, "in1"⟩,
       ⟨"heatsink_cc_to_heatsink_pump", ⟨"Consumer Cycle Closer", .cycleCloser⟩, "out1", ⟨"Consumer Recirculation Pump", .pump⟩, "in1"⟩,
       ⟨("heatsink_pump_to_cond" ++ natRepr N), ⟨"Consumer Recirculation Pump", .pump⟩, "out1", ⟨condKey N, .condenser⟩, "in2"⟩,
       ⟨("cond" ++ natRepr N ++ "_to_consumer"), ⟨condKey N, .condenser⟩, "out2", ⟨"Consumer", .heatExchangerSimple⟩, "in1"⟩]⟩ :=
    set_conn_ok_append hgCND hgCON (by
      intro hm
      simp only [List.map_cons, List.map_nil, List.mem_cons,
        List.not_mem_nil, or_false] at hm
      rcases hm with h | h | h | h | h | h
      · exact ne_of_clash_parts (condConsumerLabel_data N) (lit_data_self _) (by decide) h
      · exact ne_of_clash_parts (condConsumerLabel_data N) (lit_data_self _) (by decide) h
      · exact ne_of_clash_parts (condConsumerLabel_data N) (lit_data_self _) (by decide) h
      · exact ne_of_clash_parts (condConsumerLabel_data N) (lit_data_self _) (by decide) h
      · exact ne_of_clash_parts (condConsumerLabel_data N) (lit_data_self _) (by decide) h
      · exact ne_of_clash_parts (condConsumerLabel_data N) (heatsinkCondLabel_data N) (by decide) h)
  have e8 : set_conn
      ⟨generate_components ⟨fl, N, [], []⟩,
       [("valve1_to_evaporator1", ⟨"valve1_to_evaporator1", ⟨valveKey 1, .valve⟩, "out1", ⟨"Evaporator 1", .heatExchanger⟩, "in2"⟩),
       ("heatsource_ff_to_heatsource_pump", ⟨"heatsource_ff_to_heatsource_pump", ⟨"Heat Source Feed Flow", .src⟩, "out1", ⟨"Heat Source Recirculation Pump", .pump⟩, "in1"⟩),
       ("heatsource_pump_to_evaporator1", ⟨"heatsource_pump_to_evaporator1", ⟨"Heat Source Recirculation Pump", .pump⟩, "out1", ⟨"Evaporator 1", .heatExchanger⟩, "in1"⟩),
       ("evaporator1_to_heatsource_bf", ⟨"evaporator1_to_heatsource_bf", ⟨"Evaporator 1", .heatExchanger⟩, "out1", ⟨"Heat Source Back Flow", .sink⟩, "in1"⟩),
       ("heatsink_cc_to_heatsink_pump", ⟨"heatsink_cc_to_heatsink_pump", ⟨"Consumer Cycle Closer", .cycleCloser⟩, "out1", ⟨"Consumer Recirculation Pump", .pump⟩, "in1"⟩),
       (("heatsink_pump_to_cond" ++ natRepr N), ⟨("heatsink_pump_to_cond" ++ natRepr N), ⟨"Consumer Recirculation Pump", .pump⟩, "out1", ⟨condKey N, .condenser⟩, "in2"⟩),
       (("cond" ++ natRepr N ++ "_to_consumer"), ⟨("cond" ++ natRepr N ++ "_to_consumer"), ⟨condKey N, .condenser⟩, "out2", ⟨"Consumer", .heatExchangerSimple⟩, "in1"⟩)],
       [⟨"valve1_to_evaporator1", ⟨valveKey 1, .valve⟩, "out1", ⟨"Evaporator 1", .heatExchanger⟩, "in2"⟩,
       ⟨"heatsource_ff_to_heatsource_pump", ⟨"Heat Source Feed Flow", .src⟩, "out1", ⟨"Heat Source Recirculation Pump", .pump⟩, "in1"⟩,
       ⟨"heatsource_pump_to_evaporator1", ⟨"Heat Source Recirculation Pump", .pump⟩, "out1", ⟨"Evaporator 1", .heatExchanger⟩, "in1"⟩,
       ⟨"evaporator1_to_heatsource_bf", ⟨"Evaporator 1", .heatExchanger⟩, "out1", ⟨"Heat Source Back Flow", .sink⟩, "in1"⟩,
       ⟨"heatsink_cc_to_heatsink_pump", ⟨"Consumer Cycle Closer", .cycleCloser⟩, "out1", ⟨"Consumer Recirculation Pump", .pump⟩, "in1"⟩,
       ⟨("heatsink_pump_to_cond" ++ natRepr N), ⟨"Consumer Recirculation Pump", .pump⟩, "out1", ⟨condKey N, .condenser⟩, "in2"⟩,
       ⟨("cond" ++ natRepr N ++ "_to_consumer"), ⟨condKey N, .condenser⟩, "out2", ⟨"Consumer", .heatExchangerSimple⟩, "in1"⟩]⟩
      "consumer_to_heatsink_cc" "Consumer" "out1" "Consumer Cycle Closer" "in1"
      = .ok ⟨generate_components ⟨fl, N, [], []⟩,
       [("valve1_to_evaporator1", ⟨"valve1_to_evaporator1", ⟨valveKey 1, .valve⟩, "out1", ⟨"Evaporator 1", .heatExchanger⟩, "in2"⟩),
       ("heatsource_ff_to_heatsource_pump", ⟨"heatsource_ff_to_heatsource_pump", ⟨"Heat Source Feed Flow", .src⟩, "out1", ⟨"Heat Source Recirculation Pump", .pump⟩, "in1"⟩),
       ("heatsource_pump_to_evaporator1", ⟨"heatsource_pump_to_evaporator1", ⟨"Heat Source Recirculation Pump", .pump⟩, "out1", ⟨"Evaporator 1", .heatExchanger⟩, "in1"⟩),
       ("evaporator1_to_heatsource_bf", ⟨"evaporator1_to_heatsource_bf", ⟨"Evaporator 1", .heatExchanger⟩, "out1", ⟨"Heat Source Back Flow", .sink⟩, "in1"⟩),
       ("heatsink_cc_to_heatsink_pump", ⟨"heatsink_cc_to_heatsink_pump", ⟨"Consumer Cycle Closer", .cycleCloser⟩, "out1", ⟨"Consumer Recirculation Pump", .pump⟩, "in1"⟩),
       (("heatsink_pump_to_cond" ++ natRepr N), ⟨("heatsink_pump_to_cond" ++ natRepr N), ⟨"Consumer Recirculation Pump", .pump⟩, "out1", ⟨condKey N, .condenser⟩, "in2"⟩),
       (("cond" ++ natRepr N ++ "_to_consumer"), ⟨("cond" ++ natRepr N ++ "_to_consumer"), ⟨condKey N, .condenser⟩, "out2", ⟨"Consumer", .heatExchangerSimple⟩, "in1"⟩),
       ("consumer_to_heatsink_cc", ⟨"consumer_to_heatsink_cc", ⟨"Consumer", .heatExchangerSimple⟩, "out1", ⟨"Consumer Cycle Closer", .cycleCloser⟩, "in1"⟩)],
       [⟨"valve1_to_evaporator1", ⟨valveKey 1, .valve⟩, "out1", ⟨"Evaporator 1", .heatExchanger⟩, "in2"⟩,
       ⟨"heatsource_ff_to_heatsource_pump", ⟨"Heat Source Feed Flow", .src⟩, "out1", ⟨"Heat Source Recirculation Pump", .pump⟩, "in1"⟩,
       ⟨"heatsource_pump_to_evaporator1", ⟨"Heat Source Recirculation Pump", .pump⟩, "out1", ⟨"Evaporator 1", .heatExchanger⟩, "in1"⟩,
       ⟨"evaporator1_to_heatsource_bf", ⟨"Evaporator 1", .heatExchanger⟩, "out1", ⟨"Heat Source Back Flow", .sink⟩, "in1"⟩,
       ⟨"heatsink_cc_to_heatsink_pump", ⟨"Consumer Cycle Closer", .cycleCloser⟩, "out1", ⟨"Consumer Recirculation Pump", .pump⟩, "in1"⟩,
       ⟨("heatsink_pump_to_cond" ++ natRepr N), ⟨"Consumer Recirculation Pump", .pump⟩, "out1", ⟨condKey N, .condenser⟩, "in2"⟩,
       ⟨("cond" ++ natRepr N ++ "_to_consumer"), ⟨condKey N, .condenser⟩, "out2", ⟨"Consumer", .heatExchangerSimple⟩, "in1"⟩,
       ⟨"consumer_to_heatsink_cc", ⟨"Consumer", .heatExchangerSimple⟩, "out1", ⟨"Consumer Cycle Closer", .cycleCloser⟩, "in1"⟩]⟩ :=
    set_conn_ok_append hgCON hgCCC (by
      intro hm
      simp only [List.map_cons, List.map_nil, List.mem_cons,
        List.not_mem_nil, or_false] at hm
      rcases hm with h | h | h | h | h | h | h
      · exact absurd h (by decide)
      · exact absurd h (by decide)
      · exact absurd h (by decide)
      · exact absurd h (by decide)
      · exact absurd h (by decide)
      · exact ne_of_clash_parts (lit_data_self _) (heatsinkCondLabel_data N) (by decide) h
      · exact ne_of_clash_parts (lit_data_self _) (condConsumerLabel_data N) (by decide) h)
  simp only [wireFixed, e1, e2, e3, e4, e5, e6, e7, e8, ok_bind,
    List.cons_append, List.nil_append]
  rfl

/-! Evaluation of the per-cycle wiring on the plain configuration. -/

theorem foldlM_nil_ex {e s a : Type} (f : s → a → Except e s) (i : s) :
    List.foldlM f i ([] : List a) = pure i := rfl

/-- One plain cycle appends exactly the connections named by
`plainCycleConnLabels`. -/
theorem wireCycle_plain (fl : List String) (N c : Nat)
    (hc : c ∈ List.range' 1 N)
    (conns : List (String × Conn)) (nw : List Conn)
    (hfresh : ∀ l ∈ plainCycleConnLabels N c, l ∉ conns.map Prod.fst) :
    ∃ added : List (String × Conn),
      added.map Prod.fst = plainCycleConnLabels N c ∧
      wireCycle ⟨fl, N, [], []⟩
          ⟨generate_components ⟨fl, N, [], []⟩, conns, nw⟩ c
        = .ok ⟨generate_components ⟨fl, N, [], []⟩, conns ++ added,
               nw ++ added.map Prod.snd⟩ := by
  obtain ⟨i, hi, hci⟩ := List.mem_range'.mp hc
  by_cases h1 : c = 1
  · by_cases h2 : c = N
    · have hgCc : dget (generate_components ⟨fl, N, [], []⟩) (ccKey c)
          = some ⟨ccKey c, .cycleCloser⟩ :=
        dget_plain_cycle hc (by simp [plainCycleEntries])
      have hgValve : dget (generate_components ⟨fl, N, [], []⟩) (valveKey c)
          = some ⟨valveKey c, .valve⟩ :=
        dget_plain_cycle hc (by simp [plainCycleEntries])
      have hgComp : dget (generate_components ⟨fl, N, [], []⟩) (compKey c)
          = some ⟨compKey c, .compressor⟩ :=
        dget_plain_cycle hc (by simp [plainCycleEntries])
      have hgEvap : dget (generate_components ⟨fl, N, [], []⟩) "Evaporator 1"
          = some ⟨"Evaporator 1", .heatExchanger⟩ :=
        dget_plain_fixed (by decide)
      have hgCond : dget (generate_components ⟨fl, N, [], []⟩) (condKey c)
          = some ⟨condKey c, .condenser⟩ :=
        dget_plain_cycle hc (by simp [plainCycleEntries, h2])
      have e1 : set_conn
          ⟨generate_components ⟨fl, N, [], []⟩,
           conns,
           nw⟩
          ("cc" ++ natRepr c ++ "_to_valve" ++ natRepr c) (ccKey c) "out1" (valveKey c) "in1"
          = .ok ⟨generate_components ⟨fl, N, [], []⟩,
           conns
             ++ [(("cc" ++ natRepr c ++ "_to_valve" ++ natRepr c), ⟨("cc" ++ natRepr c ++ "_to_valve" ++ natRepr c), ⟨ccKey c, .cycleCloser⟩, "out1", ⟨valveKey c, .valve⟩, "in1"⟩)],
           nw
             ++ [⟨("cc" ++ natRepr c ++ "_to_valve" ++ natRepr c), ⟨ccKey c, .cycleCloser⟩, "out1", ⟨valveKey c, .valve⟩, "in1"⟩]⟩ :=
        set_conn_ok_append hgCc hgValve
        (hfresh _ (mem_plainCycleConnLabels.mpr (Or.inl rfl)))
      have e2 : set_conn
          ⟨generate_components ⟨fl, N, [], []⟩,
           conns
             ++ [(("cc" ++ natRepr c ++ "_to_valve" ++ natRepr c), ⟨("cc" ++ natRepr c ++ "_to_valve" ++ natRepr c), ⟨ccKey c, .cycleCloser⟩, "out1", ⟨valveKey c, .valve⟩, "in1"⟩)],
           nw
             ++ [⟨("cc" ++ natRepr c ++ "_to_valve" ++ natRepr c), ⟨ccKey c, .cycleCloser⟩, "out1", ⟨valveKey c, .valve⟩, "in1"⟩]⟩
          ("evaporator1_to_comp" ++ natRepr c) "Evaporator 1" "out2" (compKey c) "in1"
          = .ok ⟨generate_components ⟨fl, N, [], []⟩,
           conns
             ++ [(("cc" ++ natRepr c ++ "_to_valve" ++ natRepr c), ⟨("cc" ++ natRepr c ++ "_to_valve" ++ natRepr c), ⟨ccKey c, .cycleCloser⟩, "out1", ⟨valveKey c, .valve⟩, "in1"⟩)]
             ++ [(("evaporator1_to_comp" ++ natRepr c), ⟨("evaporator1_to_comp" ++ natRepr c), ⟨"Evaporator 1", .heatExchanger⟩, "out2", ⟨compKey c, .compressor⟩, "in1"⟩)],
           nw
             ++ [⟨("cc" ++ natRepr c ++ "_to_valve" ++ natRepr c), ⟨ccKey c, .cycleCloser⟩, "out1", ⟨valveKey c, .valve⟩, "in1"⟩]
             ++ [⟨("evaporator1_to_comp" ++ natRepr c), ⟨"Evaporator 1", .heatExchanger⟩, "out2", ⟨compKey c, .compressor⟩, "in1"⟩]⟩ :=
        set_conn_ok_append hgEvap hgComp
        (by
          intro hm
          simp only [List.map_append, List.mem_append, List.map_cons,
            List.map_nil, List.mem_cons, List.not_mem_nil, or_false] at hm
          rcases hm with (hm | g1)
          · exact hfresh _ (mem_plainCycleConnLabels.mpr (Or.inr (Or.inr (Or.inl ⟨h1, rfl⟩)))) hm
          · exact ne_pair_ccValve_evapComp _ _ g1.symm
        )
      have e3 : set_conn
          ⟨generate_components ⟨fl, N, [], []⟩,
           conns
             ++ [(("cc" ++ natRepr c ++ "_to_valve" ++ natRepr c), ⟨("cc" ++ natRepr c ++ "_to_valve" ++ natRepr c), ⟨ccKey c, .cycleCloser⟩, "out1", ⟨valveKey c, .valve⟩, "in1"⟩)]
             ++ [(("evaporator1_to_comp" ++ natRepr c), ⟨("evaporator1_to_comp" ++ natRepr c), ⟨"Evaporator 1", .heatExchanger⟩, "out2", ⟨compKey c, .compressor⟩, "in1"⟩)],
           nw
             ++ [⟨("cc" ++ natRepr c ++ "_to_valve" ++ natRepr c), ⟨ccKey c, .cycleCloser⟩, "out1", ⟨valveKey c, .valve⟩, "in1"⟩]
             ++ [⟨("evaporator1_to_comp" ++ natRepr c), ⟨"Evaporator 1", .heatExchanger⟩, "out2", ⟨compKey c, .compressor⟩, "in1"⟩]⟩
          ("comp" ++ natRepr c ++ "_to_cond" ++ natRepr c) (compKey c) "out1" (condKey c) "in1"
          = .ok ⟨generate_components ⟨fl, N, [], []⟩,
           conns
             ++ [(("cc" ++ natRepr c ++ "_to_valve" ++ natRepr c), ⟨("cc" ++ natRepr c ++ "_to_valve" ++ natRepr c), ⟨ccKey c, .cycleCloser⟩, "out1", ⟨valveKey c, .valve⟩, "in1"⟩)]
             ++ [(("evaporator1_to_comp" ++ natRepr c), ⟨("evaporator1_to_comp" ++ natRepr c), ⟨"Evaporator 1", .heatExchanger⟩, "out2", ⟨compKey c, .compressor⟩, "in1"⟩)]
             ++ [(("comp" ++ natRepr c ++ "_to_cond" ++ natRepr c), ⟨("comp" ++ natRepr c ++ "_to_cond" ++ natRepr c), ⟨compKey c, .compressor⟩, "out1", ⟨condKey c, .condenser⟩, "in1"⟩)],
           nw
             ++ [⟨("cc" ++ natRepr c ++ "_to_valve" ++ natRepr c), ⟨ccKey c, .cycleCloser⟩, "out1", ⟨valveKey c, .valve⟩, "in1"⟩]
             ++ [⟨("evaporator1_to_comp" ++ natRepr c), ⟨"Evaporator 1", .heatExchanger⟩, "out2", ⟨compKey c, .compressor⟩, "in1"⟩]
             ++ [⟨("comp" ++ natRepr c ++ "_to_cond" ++ natRepr c), ⟨compKey c, .compressor⟩, "out1", ⟨condKey c, .condenser⟩, "in1"⟩]⟩ :=
        set_conn_ok_append hgComp hgCond
        (by
          intro hm
          simp only [List.map_append, List.mem_append, List.map_cons,
            List.map_nil, List.mem_cons, List.not_mem_nil, or_false] at hm
          rcases hm with ((hm | g1) | g2)
          · exact hfresh _ (mem_plainCycleConnLabels.mpr (Or.inr (Or.inr (Or.inr (Or.inr (Or.inl ⟨h2, rfl⟩)))))) hm
          · exact ne_pair_ccValve_compCond _ _ g1.symm
          · exact ne_pair_evapComp_compCond _ _ g2.symm
        )
      have e4 : set_conn
          ⟨generate_components ⟨fl, N, [], []⟩,
           conns
             ++ [(("cc" ++ natRepr c ++ "_to_valve" ++ natRepr c), ⟨("cc" ++ natRepr c ++ "_to_valve" ++ natRepr c), ⟨ccKey c, .cycleCloser⟩, "out1", ⟨valveKey c, .valve⟩, "in1"⟩)]
             ++ [(("evaporator1_to_comp" ++ natRepr c), ⟨("evaporator1_to_comp" ++ natRepr c), ⟨"Evaporator 1", .heatExchanger⟩, "out2", ⟨compKey c, .compressor⟩, "in1"⟩)]
             ++ [(("comp" ++ natRepr c ++ "_to_cond" ++ natRepr c), ⟨("comp" ++ natRepr c ++ "_to_cond" ++ natRepr c), ⟨compKey c, .compressor⟩, "out1", ⟨condKey c, .condenser⟩, "in1"⟩)],
           nw
             ++ [⟨("cc" ++ natRepr c ++ "_to_valve" ++ natRepr c), ⟨ccKey c, .cycleCloser⟩, "out1", ⟨valveKey c, .valve⟩, "in1"⟩]
             ++ [⟨("evaporator1_to_comp" ++ natRepr c), ⟨"Evaporator 1", .heatExchanger⟩, "out2", ⟨compKey c, .compressor⟩, "in1"⟩]
             ++ [⟨("comp" ++ natRepr c ++ "_to_cond" ++ natRepr c), ⟨compKey c, .compressor⟩, "out1", ⟨condKey c, .condenser⟩, "in1"⟩]⟩
          ("cond" ++ natRepr c ++ "_to_cc" ++ natRepr c) (condKey c) "out1" (ccKey c) "in1"
          = .ok ⟨generate_components ⟨fl, N, [], []⟩,
           conns
             ++ [(("cc" ++ natRepr c ++ "_to_valve" ++ natRepr c), ⟨("cc" ++ natRepr c ++ "_to_valve" ++ natRepr c), ⟨ccKey c, .cycleCloser⟩, "out1", ⟨valveKey c, .valve⟩, "in1"⟩)]
             ++ [(("evaporator1_to_comp" ++ natRepr c), ⟨("evaporator1_to_comp" ++ natRepr c), ⟨"Evaporator 1", .heatExchanger⟩, "out2", ⟨compKey c, .compressor⟩, "in1"⟩)]
             ++ [(("comp" ++ natRepr c ++ "_to_cond" ++ natRepr c), ⟨("comp" ++ natRepr c ++ "_to_cond" ++ natRepr c), ⟨compKey c, .compressor⟩, "out1", ⟨condKey c, .condenser⟩, "in1"⟩)]
             ++ [(("cond" ++ natRepr c ++ "_to_cc" ++ natRepr c), ⟨("cond" ++ natRepr c ++ "_to_cc" ++ natRepr c), ⟨condKey c, .condenser⟩, "out1", ⟨ccKey c, .cycleCloser⟩, "in1"⟩)],
           nw
             ++ [⟨("cc" ++ natRepr c ++ "_to_valve" ++ natRepr c), ⟨ccKey c, .cycleCloser⟩, "out1", ⟨valveKey c, .valve⟩, "in1"⟩]
             ++ [⟨("evaporator1_to_comp" ++ natRepr c), ⟨"Evaporator 1", .heatExchanger⟩, "out2", ⟨compKey c, .compressor⟩, "in1"⟩]
             ++ [⟨("comp" ++ natRepr c ++ "_to_cond" ++ natRepr c), ⟨compKey c, .compressor⟩, "out1", ⟨condKey c, .condenser⟩, "in1"⟩]
             ++ [⟨("cond" ++ natRepr c ++ "_to_cc" ++ natRepr c), ⟨condKey c, .condenser⟩, "out1", ⟨ccKey c, .cycleCloser⟩, "in1"⟩]⟩ :=
        set_conn_ok_append hgCond hgCc
        (by
          intro hm
          simp only [List.map_append, List.mem_append, List.map_cons,
            List.map_nil, List.mem_cons, List.not_mem_nil, or_false] at hm
          rcases hm with (((hm | g1) | g2) | g3)
          · exact hfresh _ (mem_plainCycleConnLabels.mpr (Or.inr (Or.inr (Or.inr (Or.inr (Or.inr (Or.inr (Or.inl ⟨h2, rfl⟩)))))))) hm
          · exact ne_pair_ccValve_condCc _ _ g1.symm
          · exact ne_pair_evapComp_condCc _ _ g2.symm
          · exact ne_pair_compCond_condCc _ _ g3.symm
        )
      refine ⟨[(("cc" ++ natRepr c ++ "_to_valve" ++ natRepr c), ⟨("cc" ++ natRepr c ++ "_to_valve" ++ natRepr c), ⟨ccKey c, .cycleCloser⟩, "out1", ⟨valveKey c, .valve⟩, "in1"⟩), (("evaporator1_to_comp" ++ natRepr c), ⟨("evaporator1_to_comp" ++ natRepr c), ⟨"Evaporator 1", .heatExchanger⟩, "out2", ⟨compKey c, .compressor⟩, "in1"⟩), (("comp" ++ natRepr c ++ "_to_cond" ++ natRepr c), ⟨("comp" ++ natRepr c ++ "_to_cond" ++ natRepr c), ⟨compKey c, .compressor⟩, "out1", ⟨condKey c, .condenser⟩, "in1"⟩), (("cond" ++ natRepr c ++ "_to_cc" ++ natRepr c), ⟨("cond" ++ natRepr c ++ "_to_cc" ++ natRepr c), ⟨condKey c, .condenser⟩, "out1", ⟨ccKey c, .cycleCloser⟩, "in1"⟩)], ?_, ?_⟩
      · simp only [plainCycleConnLabels, if_neg (not_not_intro h1), if_pos h1, if_pos h2,
          List.map_cons, List.map_nil, List.cons_append, List.nil_append]
        rfl
      · simp only [wireCycle, cycle_int_heatex_plain, int_heatexs_of_plain,
          alGet_nil, foldlM_nil_ex, e1, e2, e3, e4, ok_bind, pure_ok,
          if_neg (not_not_intro h1), if_pos h1, if_pos h2]
        simp only [List.append_assoc, List.cons_append, List.nil_append,
          List.map_cons, List.map_nil]
    · have hgCc : dget (generate_components ⟨fl, N, [], []⟩) (ccKey c)
          = some ⟨ccKey c, .cycleCloser⟩ :=
        dget_plain_cycle hc (by simp [plainCycleEntries])
      have hgValve : dget (generate_components ⟨fl, N, [], []⟩) (valveKey c)
          = some ⟨valveKey c, .valve⟩ :=
        dget_plain_cycle hc (by simp [plainCycleEntries])
      have hgComp : dget (generate_components ⟨fl, N, [], []⟩) (compKey c)
          = some ⟨compKey c, .compressor⟩ :=
        dget_plain_cycle hc (by simp [plainCycleEntries])
      have hgEvap : dget (generate_components ⟨fl, N, [], []⟩) "Evaporator 1"
          = some ⟨"Evaporator 1", .heatExchanger⟩ :=
        dget_plain_fixed (by decide)
      have hc1mem : c + 1 ∈ List.range' 1 N :=
        List.mem_range'.mpr ⟨c, by omega, by omega⟩
      have hgHxOut : dget (generate_components ⟨fl, N, [], []⟩) (hxKey c (c + 1))
          = some ⟨hxKey c (c + 1), .heatExchanger⟩ :=
        dget_plain_cycle hc1mem
          (by simp [plainCycleEntries, Nat.add_sub_cancel,
                show c + 1 ≠ 1 from by omega])
      have e1 : set_conn
          ⟨generate_components ⟨fl, N, [], []⟩,
           conns,
           nw⟩
          ("cc" ++ natRepr c ++ "_to_valve" ++ natRepr c) (ccKey c) "out1" (valveKey c) "in1"
          = .ok ⟨generate_components ⟨fl, N, [], []⟩,
           conns
             ++ [(("cc" ++ natRepr c ++ "_to_valve" ++ natRepr c), ⟨("cc" ++ natRepr c ++ "_to_valve" ++ natRepr c), ⟨ccKey c, .cycleCloser⟩, "out1", ⟨valveKey c, .valve⟩, "in1"⟩)],
           nw
             ++ [⟨("cc" ++ natRepr c ++ "_to_valve" ++ natRepr c), ⟨ccKey c, .cycleCloser⟩, "out1", ⟨valveKey c, .valve⟩, "in1"⟩]⟩ :=
        set_conn_ok_append hgCc hgValve
        (hfresh _ (mem_plainCycleConnLabels.mpr (Or.inl rfl)))
      have e2 : set_conn
          ⟨generate_components ⟨fl, N, [], []⟩,
           conns
             ++ [(("cc" ++ natRepr c ++ "_to_valve" ++ natRepr c), ⟨("cc" ++ natRepr c ++ "_to_valve" ++ natRepr c), ⟨ccKey c, .cycleCloser⟩, "out1", ⟨valveKey c, .valve⟩, "in1"⟩)],
           nw
             ++ [⟨("cc" ++ natRepr c ++ "_to_valve" ++ natRepr c), ⟨ccKey c, .cycleCloser⟩, "out1", ⟨valveKey c, .valve⟩, "in1"⟩]⟩
          ("evaporator1_to_comp" ++ natRepr c) "Evaporator 1" "out2" (compKey c) "in1"
          = .ok ⟨generate_components ⟨fl, N, [], []⟩,
           conns
             ++ [(("cc" ++ natRepr c ++ "_to_valve" ++ natRepr c), ⟨("cc" ++ natRepr c ++ "_to_valve" ++ natRepr c), ⟨ccKey c, .cycleCloser⟩, "out1", ⟨valveKey c, .valve⟩, "in1"⟩)]
             ++ [(("evaporator1_to_comp" ++ natRepr c), ⟨("evaporator1_to_comp" ++ natRepr c), ⟨"Evaporator 1", .heatExchanger⟩, "out2", ⟨compKey c, .compressor⟩, "in1"⟩)],
           nw
             ++ [⟨("cc" ++ natRepr c ++ "_to_valve" ++ natRepr c), ⟨ccKey c, .cycleCloser⟩, "out1", ⟨valveKey c, .valve⟩, "in1"⟩]
             ++ [⟨("evaporator1_to_comp" ++ natRepr c), ⟨"Evaporator 1", .heatExchanger⟩, "out2", ⟨compKey c, .compressor⟩, "in1"⟩]⟩ :=
        set_conn_ok_append hgEvap hgComp
        (by
          intro hm
          simp only [List.map_append, List.mem_append, List.map_cons,
            List.map_nil, List.mem_cons, List.not_mem_nil, or_false] at hm
          rcases hm with (hm | g1)
          · exact hfresh _ (mem_plainCycleConnLabels.mpr (Or.inr (Or.inr (Or.inl ⟨h1, rfl⟩)))) hm
          · exact ne_pair_ccValve_evapComp _ _ g1.symm
        )
      have e3 : set_conn
          ⟨generate_components ⟨fl, N, [], []⟩,
           conns
             ++ [(("cc" ++ natRepr c ++ "_to_valve" ++ natRepr c), ⟨("cc" ++ natRepr c ++ "_to_valve" ++ natRepr c), ⟨ccKey c, .cycleCloser⟩, "out1", ⟨valveKey c, .valve⟩, "in1"⟩)]
             ++ [(("evaporator1_to_comp" ++ natRepr c), ⟨("evaporator1_to_comp" ++ natRepr c), ⟨"Evaporator 1", .heatExchanger⟩, "out2", ⟨compKey c, .compressor⟩, "in1"⟩)],
           nw
             ++ [⟨("cc" ++ natRepr c ++ "_to_valve" ++ natRepr c), ⟨ccKey c, .cycleCloser⟩, "out1", ⟨valveKey c, .valve⟩, "in1"⟩]
             ++ [⟨("evaporator1_to_comp" ++ natRepr c), ⟨"Evaporator 1", .heatExchanger⟩, "out2", ⟨compKey c, .compressor⟩, "in1"⟩]⟩
          ("comp" ++ natRepr c ++ "_to_heatex" ++ natRepr c ++ "_" ++ natRepr (c + 1)) (compKey c) "out1" (hxKey c (c + 1)) "in1"
          = .ok ⟨generate_components ⟨fl, N, [], []⟩,
           conns
             ++ [(("cc" ++ natRepr c ++ "_to_valve" ++ natRepr c), ⟨("cc" ++ natRepr c ++ "_to_valve" ++ natRepr c), ⟨ccKey c, .cycleCloser⟩, "out1", ⟨valveKey c, .valve⟩, "in1"⟩)]
             ++ [(("evaporator1_to_comp" ++ natRepr c), ⟨("evaporator1_to_comp" ++ natRepr c), ⟨"Evaporator 1", .heatExchanger⟩, "out2", ⟨compKey c, .compressor⟩, "in1"⟩)]
             ++ [(("comp" ++ natRepr c ++ "_to_heatex" ++ natRepr c ++ "_" ++ natRepr (c + 1)), ⟨("comp" ++ natRepr c ++ "_to_heatex" ++ natRepr c ++ "_" ++ natRepr (c + 1)), ⟨compKey c, .compressor⟩, "out1", ⟨hxKey c (c + 1), .heatExchanger⟩, "in1"⟩)],
           nw
             ++ [⟨("cc" ++ natRepr c ++ "_to_valve" ++ natRepr c), ⟨ccKey c, .cycleCloser⟩, "out1", ⟨valveKey c, .valve⟩, "in1"⟩]
             ++ [⟨("evaporator1_to_comp" ++ natRepr c), ⟨"Evaporator 1", .heatExchanger⟩, "out2", ⟨compKey c, .compressor⟩, "in1"⟩]
             ++ [⟨("comp" ++ natRepr c ++ "_to_heatex" ++ natRepr c ++ "_" ++ natRepr (c + 1)), ⟨compKey c, .compressor⟩, "out1", ⟨hxKey c (c + 1), .heatExchanger⟩, "in1"⟩]⟩ :=
        set_conn_ok_append hgComp hgHxOut
        (by
          intro hm
          simp only [List.map_append, List.mem_append, List.map_cons,
            List.map_nil, List.mem_cons, List.not_mem_nil, or_false] at hm
          rcases hm with ((hm | g1) | g2)
          · exact hfresh _ (mem_plainCycleConnLabels.mpr (Or.inr (Or.inr (Or.inr (Or.inr (Or.inr (Or.inl ⟨h2, rfl⟩))))))) hm
          · exact ne_pair_ccValve_compHx _ _ g1.symm
          · exact ne_pair_evapComp_compHx _ _ g2.symm
        )
      have e4 : set_conn
          ⟨generate_components ⟨fl, N, [], []⟩,
           conns
             ++ [(("cc" ++ natRepr c ++ "_to_valve" ++ natRepr c), ⟨("cc" ++ natRepr c ++ "_to_valve" ++ natRepr c), ⟨ccKey c, .cycleCloser⟩, "out1", ⟨valveKey c, .valve⟩, "in1"⟩)]
             ++ [(("evaporator1_to_comp" ++ natRepr c), ⟨("evaporator1_to_comp" ++ natRepr c), ⟨"Evaporator 1", .heatExchanger⟩, "out2", ⟨compKey c, .compressor⟩, "in1"⟩)]
             ++ [(("comp" ++ natRepr c ++ "_to_heatex" ++ natRepr c ++ "_" ++ natRepr (c + 1)), ⟨("comp" ++ natRepr c ++ "_to_heatex" ++ natRepr c ++ "_" ++ natRepr (c + 1)), ⟨compKey c, .compressor⟩, "out1", ⟨hxKey c (c + 1), .heatExchanger⟩, "in1"⟩)],
           nw
             ++ [⟨("cc" ++ natRepr c ++ "_to_valve" ++ natRepr c), ⟨ccKey c, .cycleCloser⟩, "out1", ⟨valveKey c, .valve⟩, "in1"⟩]
             ++ [⟨("evaporator1_to_comp" ++ natRepr c), ⟨"Evaporator 1", .heatExchanger⟩, "out2", ⟨compKey c, .compressor⟩, "in1"⟩]
             ++ [⟨("comp" ++ natRepr c ++ "_to_heatex" ++ natRepr c ++ "_" ++ natRepr (c + 1)), ⟨compKey c, .compressor⟩, "out1", ⟨hxKey c (c + 1), .heatExchanger⟩, "in1"⟩]⟩
          ("heatex" ++ natRepr c ++ "_" ++ natRepr (c + 1) ++ "_to_cc" ++ natRepr c) (hxKey c (c + 1)) "out1" (ccKey c) "in1"
          = .ok ⟨generate_components ⟨fl, N, [], []⟩,
           conns
             ++ [(("cc" ++ natRepr c ++ "_to_valve" ++ natRepr c), ⟨("cc" ++ natRepr c ++ "_to_valve" ++ natRepr c), ⟨ccKey c, .cycleCloser⟩, "out1", ⟨valveKey c, .valve⟩, "in1"⟩)]
             ++ [(("evaporator1_to_comp" ++ natRepr c), ⟨("evaporator1_to_comp" ++ natRepr c), ⟨"Evaporator 1", .heatExchanger⟩, "out2", ⟨compKey c, .compressor⟩, "in1"⟩)]
             ++ [(("comp" ++ natRepr c ++ "_to_heatex" ++ natRepr c ++ "_" ++ natRepr (c + 1)), ⟨("comp" ++ natRepr c ++ "_to_heatex" ++ natRepr c ++ "_" ++ natRepr (c + 1)), ⟨compKey c, .compressor⟩, "out1", ⟨hxKey c (c + 1), .heatExchanger⟩, "in1"⟩)]
             ++ [(("heatex" ++ natRepr c ++ "_" ++ natRepr (c + 1) ++ "_to_cc" ++ natRepr c), ⟨("heatex" ++ natRepr c ++ "_" ++ natRepr (c + 1) ++ "_to_cc" ++ natRepr c), ⟨hxKey c (c + 1), .heatExchanger⟩, "out1", ⟨ccKey c, .cycleCloser⟩, "in1"⟩)],
           nw
             ++ [⟨("cc" ++ natRepr c ++ "_to_valve" ++ natRepr c), ⟨ccKey c, .cycleCloser⟩, "out1", ⟨valveKey c, .valve⟩, "in1"⟩]
             ++ [⟨("evaporator1_to_comp" ++ natRepr c), ⟨"Evaporator 1", .heatExchanger⟩, "out2", ⟨compKey c, .compressor⟩, "in1"⟩]
             ++ [⟨("comp" ++ natRepr c ++ "_to_heatex" ++ natRepr c ++ "_" ++ natRepr (c + 1)), ⟨compKey c, .compressor⟩, "out1", ⟨hxKey c (c + 1), .heatExchanger⟩, "in1"⟩]
             ++ [⟨("heatex" ++ natRepr c ++ "_" ++ natRepr (c + 1) ++ "_to_cc" ++ natRepr c), ⟨hxKey c (c + 1), .heatExchanger⟩, "out1", ⟨ccKey c, .cycleCloser⟩, "in1"⟩]⟩ :=
        set_conn_ok_append hgHxOut hgCc
        (by
          intro hm
          simp only [List.map_append, List.mem_append, List.map_cons,
            List.map_nil, List.mem_cons, List.not_mem_nil, or_false] at hm
          rcases hm with (((hm | g1) | g2) | g3)
          · exact hfresh _ (mem_plainCycleConnLabels.mpr (Or.inr (Or.inr (Or.inr (Or.inr (Or.inr (Or.inr (Or.inr ⟨h2, rfl⟩)))))))) hm
          · exact ne_pair_ccValve_hxCc _ _ g1.symm
          · exact ne_pair_evapComp_hxCc _ _ g2.symm
          · exact ne_pair_compHx_hxCc _ _ g3.symm
        )
      refine ⟨[(("cc" ++ natRepr c ++ "_to_valve" ++ natRepr c), ⟨("cc" ++ natRepr c ++ "_to_valve" ++ natRepr c), ⟨ccKey c, .cycleCloser⟩, "out1", ⟨valveKey c, .valve⟩, "in1"⟩), (("evaporator1_to_comp" ++ natRepr c), ⟨("evaporator1_to_comp" ++ natRepr c), ⟨"Evaporator 1", .heatExchanger⟩, "out2", ⟨compKey c, .compressor⟩, "in1"⟩), (("comp" ++ natRepr c ++ "_to_heatex" ++ natRepr c ++ "_" ++ natRepr (c + 1)), ⟨("comp" ++ natRepr c ++ "_to_heatex" ++ natRepr c ++ "_" ++ natRepr (c + 1)), ⟨compKey c, .compressor⟩, "out1", ⟨hxKey c (c + 1), .heatExchanger⟩, "in1"⟩), (("heatex" ++ natRepr c ++ "_" ++ natRepr (c + 1) ++ "_to_cc" ++ natRepr c), ⟨("heatex" ++ natRepr c ++ "_" ++ natRepr (c + 1) ++ "_to_cc" ++ natRepr c), ⟨hxKey c (c + 1), .heatExchanger⟩, "out1", ⟨ccKey c, .cycleCloser⟩, "in1"⟩)], ?_, ?_⟩
      · simp only [plainCycleConnLabels, if_neg (not_not_intro h1), if_pos h1, if_neg h2,
          List.map_cons, List.map_nil, List.cons_append, List.nil_append]
        rfl
      · simp only [wireCycle, cycle_int_heatex_plain, int_heatexs_of_plain,
          alGet_nil, foldlM_nil_ex, e1, e2, e3, e4, ok_bind, pure_ok,
          if_neg (not_not_intro h1), if_pos h1, if_neg h2]
        simp only [List.append_assoc, List.cons_append, List.nil_append,
          List.map_cons, List.map_nil]
  · by_cases h2 : c = N
    · have hgCc : dget (generate_components ⟨fl, N, [], []⟩) (ccKey c)
          = some ⟨ccKey c, .cycleCloser⟩ :=
        dget_plain_cycle hc (by simp [plainCycleEntries])
      have hgValve : dget (generate_components ⟨fl, N, [], []⟩) (valveKey c)
          = some ⟨valveKey c, .valve⟩ :=
        dget_plain_cycle hc (by simp [plainCycleEntries])
      have hgComp : dget (generate_components ⟨fl, N, [], []⟩) (compKey c)
          = some ⟨compKey c, .compressor⟩ :=
        dget_plain_cycle hc (by simp [plainCycleEntries])
      have hgHxIn : dget (generate_components ⟨fl, N, [], []⟩) (hxKey (c - 1) c)
          = some ⟨hxKey (c - 1) c, .heatExchanger⟩ :=
        dget_plain_cycle hc (by simp [plainCycleEntries, h1])
      have hgCond : dget (generate_components ⟨fl, N, [], []⟩) (condKey c)
          = some ⟨condKey c, .condenser⟩ :=
        dget_plain_cycle hc (by simp [plainCycleEntries, h2])
      have e1 : set_conn
          ⟨generate_components ⟨fl, N, [], []⟩,
           conns,
           nw⟩
          ("cc" ++ natRepr c ++ "_to_valve" ++ natRepr c) (ccKey c) "out1" (valveKey c) "in1"
          = .ok ⟨generate_components ⟨fl, N, [], []⟩,
           conns
             ++ [(("cc" ++ natRepr c ++ "_to_valve" ++ natRepr c), ⟨("cc" ++ natRepr c ++ "_to_valve" ++ natRepr c), ⟨ccKey c, .cycleCloser⟩, "out1", ⟨valveKey c, .valve⟩, "in1"⟩)],
           nw
             ++ [⟨("cc" ++ natRepr c ++ "_to_valve" ++ natRepr c), ⟨ccKey c, .cycleCloser⟩, "out1", ⟨valveKey c, .valve⟩, "in1"⟩]⟩ :=
        set_conn_ok_append hgCc hgValve
        (hfresh _ (mem_plainCycleConnLabels.mpr (Or.inl rfl)))
      have e2 : set_conn
          ⟨generate_components ⟨fl, N, [], []⟩,
           conns
             ++ [(("cc" ++ natRepr c ++ "_to_valve" ++ natRepr c), ⟨("cc" ++ natRepr c ++ "_to_valve" ++ natRepr c), ⟨ccKey c, .cycleCloser⟩, "out1", ⟨valveKey c, .valve⟩, "in1"⟩)],
           nw
             ++ [⟨("cc" ++ natRepr c ++ "_to_valve" ++ natRepr c), ⟨ccKey c, .cycleCloser⟩, "out1", ⟨valveKey c, .valve⟩, "in1"⟩]⟩
          ("valve" ++ natRepr c ++ "_to_heat_ex" ++ natRepr (c - 1) ++ "_" ++ natRepr c) (valveKey c) "out1" (hxKey (c - 1) c) "in2"
          = .ok ⟨generate_components ⟨fl, N, [], []⟩,
           conns
             ++ [(("cc" ++ natRepr c ++ "_to_valve" ++ natRepr c), ⟨("cc" ++ natRepr c ++ "_to_valve" ++ natRepr c), ⟨ccKey c, .cycleCloser⟩, "out1", ⟨valveKey c, .valve⟩, "in1"⟩)]
             ++ [(("valve" ++ natRepr c ++ "_to_heat_ex" ++ natRepr (c - 1) ++ "_" ++ natRepr c), ⟨("valve" ++ natRepr c ++ "_to_heat_ex" ++ natRepr (c - 1) ++ "_" ++ natRepr c), ⟨valveKey c, .valve⟩, "out1", ⟨hxKey (c - 1) c, .heatExchanger⟩, "in2"⟩)],
           nw
             ++ [⟨("cc" ++ natRepr c ++ "_to_valve" ++ natRepr c), ⟨ccKey c, .cycleCloser⟩, "out1", ⟨valveKey c, .valve⟩, "in1"⟩]
             ++ [⟨("valve" ++ natRepr c ++ "_to_heat_ex" ++ natRepr (c - 1) ++ "_" ++ natRepr c), ⟨valveKey c, .valve⟩, "out1", ⟨hxKey (c - 1) c, .heatExchanger⟩, "in2"⟩]⟩ :=
        set_conn_ok_append hgValve hgHxIn
        (by
          intro hm
          simp only [List.map_append, List.mem_append, List.map_cons,
            List.map_nil, List.mem_cons, List.not_mem_nil, or_false] at hm
          rcases hm with (hm | g1)
          · exact hfresh _ (mem_plainCycleConnLabels.mpr (Or.inr (Or.inl ⟨h1, rfl⟩))) hm
          · exact ne_pair_ccValve_valveHx _ _ g1.symm
        )
      have e3 : set_conn
          ⟨generate_components ⟨fl, N, [], []⟩,
           conns
             ++ [(("cc" ++ natRepr c ++ "_to_valve" ++ natRepr c), ⟨("cc" ++ natRepr c ++ "_to_valve" ++ natRepr c), ⟨ccKey c, .cycleCloser⟩, "out1", ⟨valveKey c, .valve⟩, "in1"⟩)]
             ++ [(("valve" ++ natRepr c ++ "_to_heat_ex" ++ natRepr (c - 1) ++ "_" ++ natRepr c), ⟨("valve" ++ natRepr c ++ "_to_heat_ex" ++ natRepr (c - 1) ++ "_" ++ natRepr c), ⟨valveKey c, .valve⟩, "out1", ⟨hxKey (c - 1) c, .heatExchanger⟩, "in2"⟩)],
           nw
             ++ [⟨("cc" ++ natRepr c ++ "_to_valve" ++ natRepr c), ⟨ccKey c, .cycleCloser⟩, "out1", ⟨valveKey c, .valve⟩, "in1"⟩]
             ++ [⟨("valve" ++ natRepr c ++ "_to_heat_ex" ++ natRepr (c - 1) ++ "_" ++ natRepr c), ⟨valveKey c, .valve⟩, "out1", ⟨hxKey (c - 1) c, .heatExchanger⟩, "in2"⟩]⟩
          ("heatex" ++ natRepr (c - 1) ++ "_" ++ natRepr c ++ "_to_comp" ++ natRepr c) (hxKey (c - 1) c) "out2" (compKey c) "in1"
          = .ok ⟨generate_components ⟨fl, N, [], []⟩,
           conns
             ++ [(("cc" ++ natRepr c ++ "_to_valve" ++ natRepr c), ⟨("cc" ++ natRepr c ++ "_to_valve" ++ natRepr c), ⟨ccKey c, .cycleCloser⟩, "out1", ⟨valveKey c, .valve⟩, "in1"⟩)]
             ++ [(("valve" ++ natRepr c ++ "_to_heat_ex" ++ natRepr (c - 1) ++ "_" ++ natRepr c), ⟨("valve" ++ natRepr c ++ "_to_heat_ex" ++ natRepr (c - 1) ++ "_" ++ natRepr c), ⟨valveKey c, .valve⟩, "out1", ⟨hxKey (c - 1) c, .heatExchanger⟩, "in2"⟩)]
             ++ [(("heatex" ++ natRepr (c - 1) ++ "_" ++ natRepr c ++ "_to_comp" ++ natRepr c), ⟨("heatex" ++ natRepr (c - 1) ++ "_" ++ natRepr c ++ "_to_comp" ++ natRepr c), ⟨hxKey (c - 1) c, .heatExchanger⟩, "out2", ⟨compKey c, .compressor⟩, "in1"⟩)],
           nw
             ++ [⟨("cc" ++ natRepr c ++ "_to_valve" ++ natRepr c), ⟨ccKey c, .cycleCloser⟩, "out1", ⟨valveKey c, .valve⟩, "in1"⟩]
             ++ [⟨("valve" ++ natRepr c ++ "_to_heat_ex" ++ natRepr (c - 1) ++ "_" ++ natRepr c), ⟨valveKey c, .valve⟩, "out1", ⟨hxKey (c - 1) c, .heatExchanger⟩, "in2"⟩]
             ++ [⟨("heatex" ++ natRepr (c - 1) ++ "_" ++ natRepr c ++ "_to_comp" ++ natRepr c), ⟨hxKey (c - 1) c, .heatExchanger⟩, "out2", ⟨compKey c, .compressor⟩, "in1"⟩]⟩ :=
        set_conn_ok_append hgHxIn hgComp
        (by
          intro hm
          simp only [List.map_append, List.mem_append, List.map_cons,
            List.map_nil, List.mem_cons, List.not_mem_nil, or_false] at hm
          rcases hm with ((hm | g1) | g2)
          · exact hfresh _ (mem_plainCycleConnLabels.mpr (Or.inr (Or.inr (Or.inr (Or.inl ⟨h1, rfl⟩))))) hm
          · exact ne_pair_ccValve_hxComp _ _ g1.symm
          · exact ne_pair_valveHx_hxComp _ _ g2.symm
        )
      have e4 : set_conn
          ⟨generate_components ⟨fl, N, [], []⟩,
           conns
             ++ [(("cc" ++ natRepr c ++ "_to_valve" ++ natRepr c), ⟨("cc" ++ natRepr c ++ "_to_valve" ++ natRepr c), ⟨ccKey c, .cycleCloser⟩, "out1", ⟨valveKey c, .valve⟩, "in1"⟩)]
             ++ [(("valve" ++ natRepr c ++ "_to_heat_ex" ++ natRepr (c - 1) ++ "_" ++ natRepr c), ⟨("valve" ++ natRepr c ++ "_to_heat_ex" ++ natRepr (c - 1) ++ "_" ++ natRepr c), ⟨valveKey c, .valve⟩, "out1", ⟨hxKey (c - 1) c, .heatExchanger⟩, "in2"⟩)]
             ++ [(("heatex" ++ natRepr (c - 1) ++ "_" ++ natRepr c ++ "_to_comp" ++ natRepr c), ⟨("heatex" ++ natRepr (c - 1) ++ "_" ++ natRepr c ++ "_to_comp" ++ natRepr c), ⟨hxKey (c - 1) c, .heatExchanger⟩, "out2", ⟨compKey c, .compressor⟩, "in1"⟩)],
           nw
             ++ [⟨("cc" ++ natRepr c ++ "_to_valve" ++ natRepr c), ⟨ccKey c, .cycleCloser⟩, "out1", ⟨valveKey c, .valve⟩, "in1"⟩]
             ++ [⟨("valve" ++ natRepr c ++ "_to_heat_ex" ++ natRepr (c - 1) ++ "_" ++ natRepr c), ⟨valveKey c, .valve⟩, "out1", ⟨hxKey (c - 1) c, .heatExchanger⟩, "in2"⟩]
             ++ [⟨("heatex" ++ natRepr (c - 1) ++ "_" ++ natRepr c ++ "_to_comp" ++ natRepr c), ⟨hxKey (c - 1) c, .heatExchanger⟩, "out2", ⟨compKey c, .compressor⟩, "in1"⟩]⟩
          ("comp" ++ natRepr c ++ "_to_cond" ++ natRepr c) (compKey c) "out1" (condKey c) "in1"
          = .ok ⟨generate_components ⟨fl, N, [], []⟩,
           conns
             ++ [(("cc" ++ natRepr c ++ "_to_valve" ++ natRepr c), ⟨("cc" ++ natRepr c ++ "_to_valve" ++ natRepr c), ⟨ccKey c, .cycleCloser⟩, "out1", ⟨valveKey c, .valve⟩, "in1"⟩)]
             ++ [(("valve" ++ natRepr c ++ "_to_heat_ex" ++ natRepr (c - 1) ++ "_" ++ natRepr c), ⟨("valve" ++ natRepr c ++ "_to_heat_ex" ++ natRepr (c - 1) ++ "_" ++ natRepr c), ⟨valveKey c, .valve⟩, "out1", ⟨hxKey (c - 1) c, .heatExchanger⟩, "in2"⟩)]
             ++ [(("heatex" ++ natRepr (c - 1) ++ "_" ++ natRepr c ++ "_to_comp" ++ natRepr c), ⟨("heatex" ++ natRepr (c - 1) ++ "_" ++ natRepr c ++ "_to_comp" ++ natRepr c), ⟨hxKey (c - 1) c, .heatExchanger⟩, "out2", ⟨compKey c, .compressor⟩, "in1"⟩)]
             ++ [(("comp" ++ natRepr c ++ "_to_cond" ++ natRepr c), ⟨("comp" ++ natRepr c ++ "_to_cond" ++ natRepr c), ⟨compKey c, .compressor⟩, "out1", ⟨condKey c, .condenser⟩, "in1"⟩)],
           nw
             ++ [⟨("cc" ++ natRepr c ++ "_to_valve" ++ natRepr c), ⟨ccKey c, .cycleCloser⟩, "out1", ⟨valveKey c, .valve⟩, "in1"⟩]
             ++ [⟨("valve" ++ natRepr c ++ "_to_heat_ex" ++ natRepr (c - 1) ++ "_" ++ natRepr c), ⟨valveKey c, .valve⟩, "out1", ⟨hxKey (c - 1) c, .heatExchanger⟩, "in2"⟩]
             ++ [⟨("heatex" ++ natRepr (c - 1) ++ "_" ++ natRepr c ++ "_to_comp" ++ natRepr c), ⟨hxKey (c - 1) c, .heatExchanger⟩, "out2", ⟨compKey c, .compressor⟩, "in1"⟩]
             ++ [⟨("comp" ++ natRepr c ++ "_to_cond" ++ natRepr c), ⟨compKey c, .compressor⟩, "out1", ⟨condKey c, .condenser⟩, "in1"⟩]⟩ :=
        set_conn_ok_append hgComp hgCond
        (by
          intro hm
          simp only [List.map_append, List.mem_append, List.map_cons,
            List.map_nil, List.mem_cons, List.not_mem_nil, or_false] at hm
          rcases hm with (((hm | g1) | g2) | g3)
          · exact hfresh _ (mem_plainCycleConnLabels.mpr (Or.inr (Or.inr (Or.inr (Or.inr (Or.inl ⟨h2, rfl⟩)))))) hm
          · exact ne_pair_ccValve_compCond _ _ g1.symm
          · exact ne_pair_valveHx_compCond _ _ g2.symm
          · exact ne_pair_hxComp_compCond _ _ g3.symm
        )
      have e5 : set_conn
          ⟨generate_components ⟨fl, N, [], []⟩,
           conns
             ++ [(("cc" ++ natRepr c ++ "_to_valve" ++ natRepr c), ⟨("cc" ++ natRepr c ++ "_to_valve" ++ natRepr c), ⟨ccKey c, .cycleCloser⟩, "out1", ⟨valveKey c, .valve⟩, "in1"⟩)]
             ++ [(("valve" ++ natRepr c ++ "_to_heat_ex" ++ natRepr (c - 1) ++ "_" ++ natRepr c), ⟨("valve" ++ natRepr c ++ "_to_heat_ex" ++ natRepr (c - 1) ++ "_" ++ natRepr c), ⟨valveKey c, .valve⟩, "out1", ⟨hxKey (c - 1) c, .heatExchanger⟩, "in2"⟩)]
             ++ [(("heatex" ++ natRepr (c - 1) ++ "_" ++ natRepr c ++ "_to_comp" ++ natRepr c), ⟨("heatex" ++ natRepr (c - 1) ++ "_" ++ natRepr c ++ "_to_comp" ++ natRepr c), ⟨hxKey (c - 1) c, .heatExchanger⟩, "out2", ⟨compKey c, .compressor⟩, "in1"⟩)]
             ++ [(("comp" ++ natRepr c ++ "_to_cond" ++ natRepr c), ⟨("comp" ++ natRepr c ++ "_to_cond" ++ natRepr c), ⟨compKey c, .compressor⟩, "out1", ⟨condKey c, .condenser⟩, "in1"⟩)],
           nw
             ++ [⟨("cc" ++ natRepr c ++ "_to_valve" ++ natRepr c), ⟨ccKey c, .cycleCloser⟩, "out1", ⟨valveKey c, .valve⟩, "in1"⟩]
             ++ [⟨("valve" ++ natRepr c ++ "_to_heat_ex" ++ natRepr (c - 1) ++ "_" ++ natRepr c), ⟨valveKey c, .valve⟩, "out1", ⟨hxKey (c - 1) c, .heatExchanger⟩, "in2"⟩]
             ++ [⟨("heatex" ++ natRepr (c - 1) ++ "_" ++ natRepr c ++ "_to_comp" ++ natRepr c), ⟨hxKey (c - 1) c, .heatExchanger⟩, "out2", ⟨compKey c, .compressor⟩, "in1"⟩]
             ++ [⟨("comp" ++ natRepr c ++ "_to_cond" ++ natRepr c), ⟨compKey c, .compressor⟩, "out1", ⟨condKey c, .condenser⟩, "in1"⟩]⟩
          ("cond" ++ natRepr c ++ "_to_cc" ++ natRepr c) (condKey c) "out1" (ccKey c) "in1"
          = .ok ⟨generate_components ⟨fl, N, [], []⟩,
           conns
             ++ [(("cc" ++ natRepr c ++ "_to_valve" ++ natRepr c), ⟨("cc" ++ natRepr c ++ "_to_valve" ++ natRepr c), ⟨ccKey c, .cycleCloser⟩, "out1", ⟨valveKey c, .valve⟩, "in1"⟩)]
             ++ [(("valve" ++ natRepr c ++ "_to_heat_ex" ++ natRepr (c - 1) ++ "_" ++ natRepr c), ⟨("valve" ++ natRepr c ++ "_to_heat_ex" ++ natRepr (c - 1) ++ "_" ++ natRepr c), ⟨valveKey c, .valve⟩, "out1", ⟨hxKey (c - 1) c, .heatExchanger⟩, "in2"⟩)]
             ++ [(("heatex" ++ natRepr (c - 1) ++ "_" ++ natRepr c ++ "_to_comp" ++ natRepr c), ⟨("heatex" ++ natRepr (c - 1) ++ "_" ++ natRepr c ++ "_to_comp" ++ natRepr c), ⟨hxKey (c - 1) c, .heatExchanger⟩, "out2", ⟨compKey c, .compressor⟩, "in1"⟩)]
             ++ [(("comp" ++ natRepr c ++ "_to_cond" ++ natRepr c), ⟨("comp" ++ natRepr c ++ "_to_cond" ++ natRepr c), ⟨compKey c, .compressor⟩, "out1", ⟨condKey c, .condenser⟩, "in1"⟩)]
             ++ [(("cond" ++ natRepr c ++ "_to_cc" ++ natRepr c), ⟨("cond" ++ natRepr c ++ "_to_cc" ++ natRepr c), ⟨condKey c, .condenser⟩, "out1", ⟨ccKey c, .cycleCloser⟩, "in1"⟩)],
           nw
             ++ [⟨("cc" ++ natRepr c ++ "_to_valve" ++ natRepr c), ⟨ccKey c, .cycleCloser⟩, "out1", ⟨valveKey c, .valve⟩, "in1"⟩]
             ++ [⟨("valve" ++ natRepr c ++ "_to_heat_ex" ++ natRepr (c - 1) ++ "_" ++ natRepr c), ⟨valveKey c, .valve⟩, "out1", ⟨hxKey (c - 1) c, .heatExchanger⟩, "in2"⟩]
             ++ [⟨("heatex" ++ natRepr (c - 1) ++ "_" ++ natRepr c ++ "_to_comp" ++ natRepr c), ⟨hxKey (c - 1) c, .heatExchanger⟩, "out2", ⟨compKey c, .compressor⟩, "in1"⟩]
             ++ [⟨("comp" ++ natRepr c ++ "_to_cond" ++ natRepr c), ⟨compKey c, .compressor⟩, "out1", ⟨condKey c, .condenser⟩, "in1"⟩]
             ++ [⟨("cond" ++ natRepr c ++ "_to_cc" ++ natRepr c), ⟨condKey c, .condenser⟩, "out1", ⟨ccKey c, .cycleCloser⟩, "in1"⟩]⟩ :=
        set_conn_ok_append hgCond hgCc
        (by
          intro hm
          simp only [List.map_append, List.mem_append, List.map_cons,
            List.map_nil, List.mem_cons, List.not_mem_nil, or_false] at hm
          rcases hm with ((((hm | g1) | g2) | g3) | g4)
          · exact hfresh _ (mem_plainCycleConnLabels.mpr (Or.inr (Or.inr (Or.inr (Or.inr (Or.inr (Or.inr (Or.inl ⟨h2, rfl⟩)))))))) hm
          · exact ne_pair_ccValve_condCc _ _ g1.symm
          · exact ne_pair_valveHx_condCc _ _ g2.symm
          · exact ne_pair_hxComp_condCc _ _ g3.symm
          · exact ne_pair_compCond_condCc _ _ g4.symm
        )
      refine ⟨[(("cc" ++ natRepr c ++ "_to_valve" ++ natRepr c), ⟨("cc" ++ natRepr c ++ "_to_valve" ++ natRepr c), ⟨ccKey c, .cycleCloser⟩, "out1", ⟨valveKey c, .valve⟩, "in1"⟩), (("valve" ++ natRepr c ++ "_to_heat_ex" ++ natRepr (c - 1) ++ "_" ++ natRepr c), ⟨("valve" ++ natRepr c ++ "_to_heat_ex" ++ natRepr (c - 1) ++ "_" ++ natRepr c), ⟨valveKey c, .valve⟩, "out1", ⟨hxKey (c - 1) c, .heatExchanger⟩, "in2"⟩), (("heatex" ++ natRepr (c - 1) ++ "_" ++ natRepr c ++ "_to_comp" ++ natRepr c), ⟨("heatex" ++ natRepr (c - 1) ++ "_" ++ natRepr c ++ "_to_comp" ++ natRepr c), ⟨hxKey (c - 1) c, .heatExchanger⟩, "out2", ⟨compKey c, .compressor⟩, "in1"⟩), (("comp" ++ natRepr c ++ "_to_cond" ++ natRepr c), ⟨("comp" ++ natRepr c ++ "_to_cond" ++ natRepr c), ⟨compKey c, .compressor⟩, "out1", ⟨condKey c, .condenser⟩, "in1"⟩), (("cond" ++ natRepr c ++ "_to_cc" ++ natRepr c), ⟨("cond" ++ natRepr c ++ "_to_cc" ++ natRepr c), ⟨condKey c, .condenser⟩, "out1", ⟨ccKey c, .cycleCloser⟩, "in1"⟩)], ?_, ?_⟩
      · simp only [plainCycleConnLabels, if_pos h1, if_neg h1, if_pos h2,
          List.map_cons, List.map_nil, List.cons_append, List.nil_append]
        rfl
      · simp only [wireCycle, cycle_int_heatex_plain, int_heatexs_of_plain,
          alGet_nil, foldlM_nil_ex, e1, e2, e3, e4, e5, ok_bind, pure_ok,
          if_pos h1, if_neg h1, if_pos h2]
        simp only [List.append_assoc, List.cons_append, List.nil_append,
          List.map_cons, List.map_nil]
    · have hgCc : dget (generate_components ⟨fl, N, [], []⟩) (ccKey c)
          = some ⟨ccKey c, .cycleCloser⟩ :=
        dget_plain_cycle hc (by simp [plainCycleEntries])
      have hgValve : dget (generate_components ⟨fl, N, [], []⟩) (valveKey c)
          = some ⟨valveKey c, .valve⟩ :=
        dget_plain_cycle hc (by simp [plainCycleEntries])
      have hgComp : dget (generate_components ⟨fl, N, [], []⟩) (compKey c)
          = some ⟨compKey c, .compressor⟩ :=
        dget_plain_cycle hc (by simp [plainCycleEntries])
      have hgHxIn : dget (generate_components ⟨fl, N, [], []⟩) (hxKey (c - 1) c)
          = some ⟨hxKey (c - 1) c, .heatExchanger⟩ :=
        dget_plain_cycle hc (by simp [plainCycleEntries, h1])
      have hc1mem : c + 1 ∈ List.range' 1 N :=
        List.mem_range'.mpr ⟨c, by omega, by omega⟩
      have hgHxOut : dget (generate_components ⟨fl, N, [], []⟩) (hxKey c (c + 1))
          = some ⟨hxKey c (c + 1), .heatExchanger⟩ :=
        dget_plain_cycle hc1mem
          (by simp [plainCycleEntries, Nat.add_sub_cancel,
                show c + 1 ≠ 1 from by omega])
      have e1 : set_conn
          ⟨generate_components ⟨fl, N, [], []⟩,
           conns,
           nw⟩
          ("cc" ++ natRepr c ++ "_to_valve" ++ natRepr c) (ccKey c) "out1" (valveKey c) "in1"
          = .ok ⟨generate_components ⟨fl, N, [], []⟩,
           conns
             ++ [(("cc" ++ natRepr c ++ "_to_valve" ++ natRepr c), ⟨("cc" ++ natRepr c ++ "_to_valve" ++ natRepr c), ⟨ccKey c, .cycleCloser⟩, "out1", ⟨valveKey c, .valve⟩, "in1"⟩)],
           nw
             ++ [⟨("cc" ++ natRepr c ++ "_to_valve" ++ natRepr c), ⟨ccKey c, .cycleCloser⟩, "out1", ⟨valveKey c, .valve⟩, "in1"⟩]⟩ :=
        set_conn_ok_append hgCc hgValve
        (hfresh _ (mem_plainCycleConnLabels.mpr (Or.inl rfl)))
      have e2 : set_conn
          ⟨generate_components ⟨fl, N, [], []⟩,
           conns
             ++ [(("cc" ++ natRepr c ++ "_to_valve" ++ natRepr c), ⟨("cc" ++ natRepr c ++ "_to_valve" ++ natRepr c), ⟨ccKey c, .cycleCloser⟩, "out1", ⟨valveKey c, .valve⟩, "in1"⟩)],
           nw
             ++ [⟨("cc" ++ natRepr c ++ "_to_valve" ++ natRepr c), ⟨ccKey c, .cycleCloser⟩, "out1", ⟨valveKey c, .valve⟩, "in1"⟩]⟩
          ("valve" ++ natRepr c ++ "_to_heat_ex" ++ natRepr (c - 1) ++ "_" ++ natRepr c) (valveKey c) "out1" (hxKey (c - 1) c) "in2"
          = .ok ⟨generate_components ⟨fl, N, [], []⟩,
           conns
             ++ [(("cc" ++ natRepr c ++ "_to_valve" ++ natRepr c), ⟨("cc" ++ natRepr c ++ "_to_valve" ++ natRepr c), ⟨ccKey c, .cycleCloser⟩, "out1", ⟨valveKey c, .valve⟩, "in1"⟩)]
             ++ [(("valve" ++ natRepr c ++ "_to_heat_ex" ++ natRepr (c - 1) ++ "_" ++ natRepr c), ⟨("valve" ++ natRepr c ++ "_to_heat_ex" ++ natRepr (c - 1) ++ "_" ++ natRepr c), ⟨valveKey c, .valve⟩, "out1", ⟨hxKey (c - 1) c, .heatExchanger⟩, "in2"⟩)],
           nw
             ++ [⟨("cc" ++ natRepr c ++ "_to_valve" ++ natRepr c), ⟨ccKey c, .cycleCloser⟩, "out1", ⟨valveKey c, .valve⟩, "in1"⟩]
             ++ [⟨("valve" ++ natRepr c ++ "_to_heat_ex" ++ natRepr (c - 1) ++ "_" ++ natRepr c), ⟨valveKey c, .valve⟩, "out1", ⟨hxKey (c - 1) c, .heatExchanger⟩, "in2"⟩]⟩ :=
        set_conn_ok_append hgValve hgHxIn
        (by
          intro hm
          simp only [List.map_append, List.mem_append, List.map_cons,
            List.map_nil, List.mem_cons, List.not_mem_nil, or_false] at hm
          rcases hm with (hm | g1)
          · exact hfresh _ (mem_plainCycleConnLabels.mpr (Or.inr (Or.inl ⟨h1, rfl⟩))) hm
          · exact ne_pair_ccValve_valveHx _ _ g1.symm
        )
      have e3 : set_conn
          ⟨generate_components ⟨fl, N, [], []⟩,
           conns
             ++ [(("cc" ++ natRepr c ++ "_to_valve" ++ natRepr c), ⟨("cc" ++ natRepr c ++ "_to_valve" ++ natRepr c), ⟨ccKey c, .cycleCloser⟩, "out1", ⟨valveKey c, .valve⟩, "in1"⟩)]
             ++ [(("valve" ++ natRepr c ++ "_to_heat_ex" ++ natRepr (c - 1) ++ "_" ++ natRepr c), ⟨("valve" ++ natRepr c ++ "_to_heat_ex" ++ natRepr (c - 1) ++ "_" ++ natRepr c), ⟨valveKey c, .valve⟩, "out1", ⟨hxKey (c - 1) c, .heatExchanger⟩, "in2"⟩)],
           nw
             ++ [⟨("cc" ++ natRepr c ++ "_to_valve" ++ natRepr c), ⟨ccKey c, .cycleCloser⟩, "out1", ⟨valveKey c, .valve⟩, "in1"⟩]
             ++ [⟨("valve" ++ natRepr c ++ "_to_heat_ex" ++ natRepr (c - 1) ++ "_" ++ natRepr c), ⟨valveKey c, .valve⟩, "out1", ⟨hxKey (c - 1) c, .heatExchanger⟩, "in2"⟩]⟩
          ("heatex" ++ natRepr (c - 1) ++ "_" ++ natRepr c ++ "_to_comp" ++ natRepr c) (hxKey (c - 1) c) "out2" (compKey c) "in1"
          = .ok ⟨generate_components ⟨fl, N, [], []⟩,
           conns
             ++ [(("cc" ++ natRepr c ++ "_to_valve" ++ natRepr c), ⟨("cc" ++ natRepr c ++ "_to_valve" ++ natRepr c), ⟨ccKey c, .cycleCloser⟩, "out1", ⟨valveKey c, .valve⟩, "in1"⟩)]
             ++ [(("valve" ++ natRepr c ++ "_to_heat_ex" ++ natRepr (c - 1) ++ "_" ++ natRepr c), ⟨("valve" ++ natRepr c ++ "_to_heat_ex" ++ natRepr (c - 1) ++ "_" ++ natRepr c), ⟨valveKey c, .valve⟩, "out1", ⟨hxKey (c - 1) c, .heatExchanger⟩, "in2"⟩)]
             ++ [(("heatex" ++ natRepr (c - 1) ++ "_" ++ natRepr c ++ "_to_comp" ++ natRepr c), ⟨("heatex" ++ natRepr (c - 1) ++ "_" ++ natRepr c ++ "_to_comp" ++ natRepr c), ⟨hxKey (c - 1) c, .heatExchanger⟩, "out2", ⟨compKey c, .compressor⟩, "in1"⟩)],
           nw
             ++ [⟨("cc" ++ natRepr c ++ "_to_valve" ++ natRepr c), ⟨ccKey c, .cycleCloser⟩, "out1", ⟨valveKey c, .valve⟩, "in1"⟩]
             ++ [⟨("valve" ++ natRepr c ++ "_to_heat_ex" ++ natRepr (c - 1) ++ "_" ++ natRepr c), ⟨valveKey c, .valve⟩, "out1", ⟨hxKey (c - 1) c, .heatExchanger⟩, "in2"⟩]
             ++ [⟨("heatex" ++ natRepr (c - 1) ++ "_" ++ natRepr c ++ "_to_comp" ++ natRepr c), ⟨hxKey (c - 1) c, .heatExchanger⟩, "out2", ⟨compKey c, .compressor⟩, "in1"⟩]⟩ :=
        set_conn_ok_append hgHxIn hgComp
        (by
          intro hm
          simp only [List.map_append, List.mem_append, List.map_cons,
            List.map_nil, List.mem_cons, List.not_mem_nil, or_false] at hm
          rcases hm with ((hm | g1) | g2)
          · exact hfresh _ (mem_plainCycleConnLabels.mpr (Or.inr (Or.inr (Or.inr (Or.inl ⟨h1, rfl⟩))))) hm
          · exact ne_pair_ccValve_hxComp _ _ g1.symm
          · exact ne_pair_valveHx_hxComp _ _ g2.symm
        )
      have e4 : set_conn
          ⟨generate_components ⟨fl, N, [], []⟩,
           conns
             ++ [(("cc" ++ natRepr c ++ "_to_valve" ++ natRepr c), ⟨("cc" ++ natRepr c ++ "_to_valve" ++ natRepr c), ⟨ccKey c, .cycleCloser⟩, "out1", ⟨valveKey c, .valve⟩, "in1"⟩)]
             ++ [(("valve" ++ natRepr c ++ "_to_heat_ex" ++ natRepr (c - 1) ++ "_" ++ natRepr c), ⟨("valve" ++ natRepr c ++ "_to_heat_ex" ++ natRepr (c - 1) ++ "_" ++ natRepr c), ⟨valveKey c, .valve⟩, "out1", ⟨hxKey (c - 1) c, .heatExchanger⟩, "in2"⟩)]
             ++ [(("heatex" ++ natRepr (c - 1) ++ "_" ++ natRepr c ++ "_to_comp" ++ natRepr c), ⟨("heatex" ++ natRepr (c - 1) ++ "_" ++ natRepr c ++ "_to_comp" ++ natRepr c), ⟨hxKey (c - 1) c, .heatExchanger⟩, "out2", ⟨compKey c, .compressor⟩, "in1"⟩)],
           nw
             ++ [⟨("cc" ++ natRepr c ++ "_to_valve" ++ natRepr c), ⟨ccKey c, .cycleCloser⟩, "out1", ⟨valveKey c, .valve⟩, "in1"⟩]
             ++ [⟨("valve" ++ natRepr c ++ "_to_heat_ex" ++ natRepr (c - 1) ++ "_" ++ natRepr c), ⟨valveKey c, .valve⟩, "out1", ⟨hxKey (c - 1) c, .heatExchanger⟩, "in2"⟩]
             ++ [⟨("heatex" ++ natRepr (c - 1) ++ "_" ++ natRepr c ++ "_to_comp" ++ natRepr c), ⟨hxKey (c - 1) c, .heatExchanger⟩, "out2", ⟨compKey c, .compressor⟩, "in1"⟩]⟩
          ("comp" ++ natRepr c ++ "_to_heatex" ++ natRepr c ++ "_" ++ natRepr (c + 1)) (compKey c) "out1" (hxKey c (c + 1)) "in1"
          = .ok ⟨generate_components ⟨fl, N, [], []⟩,
           conns
             ++ [(("cc" ++ natRepr c ++ "_to_valve" ++ natRepr c), ⟨("cc" ++ natRepr c ++ "_to_valve" ++ natRepr c), ⟨ccKey c, .cycleCloser⟩, "out1", ⟨valveKey c, .valve⟩, "in1"⟩)]
             ++ [(("valve" ++ natRepr c ++ "_to_heat_ex" ++ natRepr (c - 1) ++ "_" ++ natRepr c), ⟨("valve" ++ natRepr c ++ "_to_heat_ex" ++ natRepr (c - 1) ++ "_" ++ natRepr c), ⟨valveKey c, .valve⟩, "out1", ⟨hxKey (c - 1) c, .heatExchanger⟩, "in2"⟩)]
             ++ [(("heatex" ++ natRepr (c - 1) ++ "_" ++ natRepr c ++ "_to_comp" ++ natRepr c), ⟨("heatex" ++ natRepr (c - 1) ++ "_" ++ natRepr c ++ "_to_comp" ++ natRepr c), ⟨hxKey (c - 1) c, .heatExchanger⟩, "out2", ⟨compKey c, .compressor⟩, "in1"⟩)]
             ++ [(("comp" ++ natRepr c ++ "_to_heatex" ++ natRepr c ++ "_" ++ natRepr (c + 1)), ⟨("comp" ++ natRepr c ++ "_to_heatex" ++ natRepr c ++ "_" ++ natRepr (c + 1)), ⟨compKey c, .compressor⟩, "out1", ⟨hxKey c (c + 1), .heatExchanger⟩, "in1"⟩)],
           nw
             ++ [⟨("cc" ++ natRepr c ++ "_to_valve" ++ natRepr c), ⟨ccKey c, .cycleCloser⟩, "out1", ⟨valveKey c, .valve⟩, "in1"⟩]
             ++ [⟨("valve" ++ natRepr c ++ "_to_heat_ex" ++ natRepr (c - 1) ++ "_" ++ natRepr c), ⟨valveKey c, .valve⟩, "out1", ⟨hxKey (c - 1) c, .heatExchanger⟩, "in2"⟩]
             ++ [⟨("heatex" ++ natRepr (c - 1) ++ "_" ++ natRepr c ++ "_to_comp" ++ natRepr c), ⟨hxKey (c - 1) c, .heatExchanger⟩, "out2", ⟨compKey c, .compressor⟩, "in1"⟩]
             ++ [⟨("comp" ++ natRepr c ++ "_to_heatex" ++ natRepr c ++ "_" ++ natRepr (c + 1)), ⟨compKey c, .compressor⟩, "out1", ⟨hxKey c (c + 1), .heatExchanger⟩, "in1"⟩]⟩ :=
        set_conn_ok_append hgComp hgHxOut
        (by
          intro hm
          simp only [List.map_append, List.mem_append, List.map_cons,
            List.map_nil, List.mem_cons, List.not_mem_nil, or_false] at hm
          rcases hm with (((hm | g1) | g2) | g3)
          · exact hfresh _ (mem_plainCycleConnLabels.mpr (Or.inr (Or.inr (Or.inr (Or.inr (Or.inr (Or.inl ⟨h2, rfl⟩))))))) hm
          · exact ne_pair_ccValve_compHx _ _ g1.symm
          · exact ne_pair_valveHx_compHx _ _ g2.symm
          · exact ne_pair_hxComp_compHx _ _ g3.symm
        )
      have e5 : set_conn
          ⟨generate_components ⟨fl, N, [], []⟩,
           conns
             ++ [(("cc" ++ natRepr c ++ "_to_valve" ++ natRepr c), ⟨("cc" ++ natRepr c ++ "_to_valve" ++ natRepr c), ⟨ccKey c, .cycleCloser⟩, "out1", ⟨valveKey c, .valve⟩, "in1"⟩)]
             ++ [(("valve" ++ natRepr c ++ "_to_heat_ex" ++ natRepr (c - 1) ++ "_" ++ natRepr c), ⟨("valve" ++ natRepr c ++ "_to_heat_ex" ++ natRepr (c - 1) ++ "_" ++ natRepr c), ⟨valveKey c, .valve⟩, "out1", ⟨hxKey (c - 1) c, .heatExchanger⟩, "in2"⟩)]
             ++ [(("heatex" ++ natRepr (c - 1) ++ "_" ++ natRepr c ++ "_to_comp" ++ natRepr c), ⟨("heatex" ++ natRepr (c - 1) ++ "_" ++ natRepr c ++ "_to_comp" ++ natRepr c), ⟨hxKey (c - 1) c, .heatExchanger⟩, "out2", ⟨compKey c, .compressor⟩, "in1"⟩)]
             ++ [(("comp" ++ natRepr c ++ "_to_heatex" ++ natRepr c ++ "_" ++ natRepr (c + 1)), ⟨("comp" ++ natRepr c ++ "_to_heatex" ++ natRepr c ++ "_" ++ natRepr (c + 1)), ⟨compKey c, .compressor⟩, "out1", ⟨hxKey c (c + 1), .heatExchanger⟩, "in1"⟩)],
           nw
             ++ [⟨("cc" ++ natRepr c ++ "_to_valve" ++ natRepr c), ⟨ccKey c, .cycleCloser⟩, "out1", ⟨valveKey c, .valve⟩, "in1"⟩]
             ++ [⟨("valve" ++ natRepr c ++ "_to_heat_ex" ++ natRepr (c - 1) ++ "_" ++ natRepr c), ⟨valveKey c, .valve⟩, "out1", ⟨hxKey (c - 1) c, .heatExchanger⟩, "in2"⟩]
             ++ [⟨("heatex" ++ natRepr (c - 1) ++ "_" ++ natRepr c ++ "_to_comp" ++ natRepr c), ⟨hxKey (c - 1) c, .heatExchanger⟩, "out2", ⟨compKey c, .compressor⟩, "in1"⟩]
             ++ [⟨("comp" ++ natRepr c ++ "_to_heatex" ++ natRepr c ++ "_" ++ natRepr (c + 1)), ⟨compKey c, .compressor⟩, "out1", ⟨hxKey c (c + 1), .heatExchanger⟩, "in1"⟩]⟩
          ("heatex" ++ natRepr c ++ "_" ++ natRepr (c + 1) ++ "_to_cc" ++ natRepr c) (hxKey c (c + 1)) "out1" (ccKey c) "in1"
          = .ok ⟨generate_components ⟨fl, N, [], []⟩,
           conns
             ++ [(("cc" ++ natRepr c ++ "_to_valve" ++ natRepr c), ⟨("cc" ++ natRepr c ++ "_to_valve" ++ natRepr c), ⟨ccKey c, .cycleCloser⟩, "out1", ⟨valveKey c, .valve⟩, "in1"⟩)]
             ++ [(("valve" ++ natRepr c ++ "_to_heat_ex" ++ natRepr (c - 1) ++ "_" ++ natRepr c), ⟨("valve" ++ natRepr c ++ "_to_heat_ex" ++ natRepr (c - 1) ++ "_" ++ natRepr c), ⟨valveKey c, .valve⟩, "out1", ⟨hxKey (c - 1) c, .heatExchanger⟩, "in2"⟩)]
             ++ [(("heatex" ++ natRepr (c - 1) ++ "_" ++ natRepr c ++ "_to_comp" ++ natRepr c), ⟨("heatex" ++ natRepr (c - 1) ++ "_" ++ natRepr c ++ "_to_comp" ++ natRepr c), ⟨hxKey (c - 1) c, .heatExchanger⟩, "out2", ⟨compKey c, .compressor⟩, "in1"⟩)]
             ++ [(("comp" ++ natRepr c ++ "_to_heatex" ++ natRepr c ++ "_" ++ natRepr (c + 1)), ⟨("comp" ++ natRepr c ++ "_to_heatex" ++ natRepr c ++ "_" ++ natRepr (c + 1)), ⟨compKey c, .compressor⟩, "out1", ⟨hxKey c (c + 1), .heatExchanger⟩, "in1"⟩)]
             ++ [(("heatex" ++ natRepr c ++ "_" ++ natRepr (c + 1) ++ "_to_cc" ++ natRepr c), ⟨("heatex" ++ natRepr c ++ "_" ++ natRepr (c + 1) ++ "_to_cc" ++ natRepr c), ⟨hxKey c (c + 1), .heatExchanger⟩, "out1", ⟨ccKey c, .cycleCloser⟩, "in1"⟩)],
           nw
             ++ [⟨("cc" ++ natRepr c ++ "_to_valve" ++ natRepr c), ⟨ccKey c, .cycleCloser⟩, "out1", ⟨valveKey c, .valve⟩, "in1"⟩]
             ++ [⟨("valve" ++ natRepr c ++ "_to_heat_ex" ++ natRepr (c - 1) ++ "_" ++ natRepr c), ⟨valveKey c, .valve⟩, "out1", ⟨hxKey (c - 1) c, .heatExchanger⟩, "in2"⟩]
             ++ [⟨("heatex" ++ natRepr (c - 1) ++ "_" ++ natRepr c ++ "_to_comp" ++ natRepr c), ⟨hxKey (c - 1) c, .heatExchanger⟩, "out2", ⟨compKey c, .compressor⟩, "in1"⟩]
             ++ [⟨("comp" ++ natRepr c ++ "_to_heatex" ++ natRepr c ++ "_" ++ natRepr (c + 1)), ⟨compKey c, .compressor⟩, "out1", ⟨hxKey c (c + 1), .heatExchanger⟩, "in1"⟩]
             ++ [⟨("heatex" ++ natRepr c ++ "_" ++ natRepr (c + 1) ++ "_to_cc" ++ natRepr c), ⟨hxKey c (c + 1), .heatExchanger⟩, "out1", ⟨ccKey c, .cycleCloser⟩, "in1"⟩]⟩ :=
        set_conn_ok_append hgHxOut hgCc
        (by
          intro hm
          simp only [List.map_append, List.mem_append, List.map_cons,
            List.map_nil, List.mem_cons, List.not_mem_nil, or_false] at hm
          rcases hm with ((((hm | g1) | g2) | g3) | g4)
          · exact hfresh _ (mem_plainCycleConnLabels.mpr (Or.inr (Or.inr (Or.inr (Or.inr (Or.inr (Or.inr (Or.inr ⟨h2, rfl⟩)))))))) hm
          · exact ne_pair_ccValve_hxCc _ _ g1.symm
          · exact ne_pair_valveHx_hxCc _ _ g2.symm
          · exact ne_hxComp_hxCc _ _ g3.symm
          · exact ne_pair_compHx_hxCc _ _ g4.symm
        )
      refine ⟨[(("cc" ++ natRepr c ++ "_to_valve" ++ natRepr c), ⟨("cc" ++ natRepr c ++ "_to_valve" ++ natRepr c), ⟨ccKey c, .cycleCloser⟩, "out1", ⟨valveKey c, .valve⟩, "in1"⟩), (("valve" ++ natRepr c ++ "_to_heat_ex" ++ natRepr (c - 1) ++ "_" ++ natRepr c), ⟨("valve" ++ natRepr c ++ "_to_heat_ex" ++ natRepr (c - 1) ++ "_" ++ natRepr c), ⟨valveKey c, .valve⟩, "out1", ⟨hxKey (c - 1) c, .heatExchanger⟩, "in2"⟩), (("heatex" ++ natRepr (c - 1) ++ "_" ++ natRepr c ++ "_to_comp" ++ natRepr c), ⟨("heatex" ++ natRepr (c - 1) ++ "_" ++ natRepr c ++ "_to_comp" ++ natRepr c), ⟨hxKey (c - 1) c, .heatExchanger⟩, "out2", ⟨compKey c, .compressor⟩, "in1"⟩), (("comp" ++ natRepr c ++ "_to_heatex" ++ natRepr c ++ "_" ++ natRepr (c + 1)), ⟨("comp" ++ natRepr c ++ "_to_heatex" ++ natRepr c ++ "_" ++ natRepr (c + 1)), ⟨compKey c, .compressor⟩, "out1", ⟨hxKey c (c + 1), .heatExchanger⟩, "in1"⟩), (("heatex" ++ natRepr c ++ "_" ++ natRepr (c + 1) ++ "_to_cc" ++ natRepr c), ⟨("heatex" ++ natRepr c ++ "_" ++ natRepr (c + 1) ++ "_to_cc" ++ natRepr c), ⟨hxKey c (c + 1), .heatExchanger⟩, "out1", ⟨ccKey c, .cycleCloser⟩, "in1"⟩)], ?_, ?_⟩
      · simp only [plainCycleConnLabels, if_pos h1, if_neg h1, if_neg h2,
          List.map_cons, List.map_nil, List.cons_append, List.nil_append]
        rfl
      · simp only [wireCycle, cycle_int_heatex_plain, int_heatexs_of_plain,
          alGet_nil, foldlM_nil_ex, e1, e2, e3, e4, e5, ok_bind, pure_ok,
          if_pos h1, if_neg h1, if_neg h2]
        simp only [List.append_assoc, List.cons_append, List.nil_append,
          List.map_cons, List.map_nil]

/-! Assembling the full plain build. -/

theorem foldlM_cons_ex {e s a : Type} (f : s → a → Except e s) (i : s)
    (x : a) (t : List a) :
    List.foldlM f i (x :: t) = f i x >>= fun s => List.foldlM f s t := rfl

/-- All per-cycle connection labels of the plain plant are distinct. -/
theorem nodup_flat_cycle_labels (N : Nat) :
    ((List.range' 1 N).flatMap (plainCycleConnLabels N)).Nodup := by
  rw [List.nodup_flatMap]
  refine ⟨fun c _ => nodup_plainCycleConnLabels N c, ?_⟩
  exact (List.pairwise_lt_range' 1 N).imp
    (fun hab => disjoint_plainCycleConnLabels (Nat.ne_of_lt hab))

/-- Folding the plain per-cycle wiring appends each cycle's connections. -/
theorem wire_cycles_plain (fl : List String) (N : Nat) :
    ∀ (l : List Nat) (conns : List (String × Conn)) (nw : List Conn),
      (∀ c ∈ l, c ∈ List.range' 1 N) →
      (l.flatMap (plainCycleConnLabels N)).Nodup →
      (∀ lab ∈ l.flatMap (plainCycleConnLabels N), lab ∉ conns.map Prod.fst) →
      ∃ added : List (String × Conn),
        added.map Prod.fst = l.flatMap (plainCycleConnLabels N) ∧
        List.foldlM (wireCycle ⟨fl, N, [], []⟩)
            (⟨generate_components ⟨fl, N, [], []⟩, conns, nw⟩ : St) l
          = .ok ⟨generate_components ⟨fl, N, [], []⟩, conns ++ added,
                 nw ++ added.map Prod.snd⟩ := by
  intro l
  induction l with
  | nil =>
    intro conns nw _ _ _
    refine ⟨[], rfl, ?_⟩
    simp only [foldlM_nil_ex, pure_ok, List.map_nil, List.append_nil]
  | cons a t ih =>
    intro conns nw hin hnd hfresh
    rw [List.flatMap_cons, List.nodup_append] at hnd
    obtain ⟨hnd1, hnd2, hdisj⟩ := hnd
    obtain ⟨added1, hmap1, heval1⟩ :=
      wireCycle_plain fl N a (hin a (List.mem_cons_self a t)) conns nw
        (fun lab hl =>
          hfresh lab (by rw [List.flatMap_cons]; exact List.mem_append_left _ hl))
    obtain ⟨added2, hmap2, heval2⟩ :=
      ih (conns ++ added1) (nw ++ added1.map Prod.snd)
        (fun c hc => hin c (List.mem_cons_of_mem a hc))
        hnd2
        (by
          intro lab hl hmem
          rcases List.mem_append.mp (by
            rw [List.map_append] at hmem; exact hmem) with hm | hm
          · exact hfresh lab
              (by rw [List.flatMap_cons]; exact List.mem_append_right _ hl) hm
          · rw [hmap1] at hm
            exact hdisj hm hl)
    refine ⟨added1 ++ added2, ?_, ?_⟩
    · rw [List.map_append, hmap1, hmap2, List.flatMap_cons]
    · rw [foldlM_cons_ex, heval1]
      simp only [ok_bind]
      rw [heval2]
      simp only [List.append_assoc, List.map_append]

/-- The full plain build succeeds, with the fixed connections followed by
the per-cycle connections. -/
theorem generate_topology_plain (fl : List String) (N : Nat) (hN : 1 ≤ N) :
    ∃ added : List (String × Conn),
      added.map Prod.fst = (List.range' 1 N).flatMap (plainCycleConnLabels N) ∧
      buildAll ⟨fl, N, [], []⟩
        = .ok ⟨generate_components ⟨fl, N, [], []⟩,
               fixedConnEntries N ++ added,
               (fixedConnEntries N).map Prod.snd ++ added.map Prod.snd⟩ := by
  obtain ⟨added, hmap, heval⟩ :=
    wire_cycles_plain fl N (List.range' 1 N)
      (fixedConnEntries N) ((fixedConnEntries N).map Prod.snd)
      (fun c hc => hc)
      (nodup_flat_cycle_labels N)
      (by
        intro lab hl hmem
        rw [List.mem_flatMap] at hl
        obtain ⟨c, -, hlc⟩ := hl
        rw [show (fixedConnEntries N).map Prod.fst = fixedConnLabels N
          from rfl] at hmem
        exact disjoint_fixed_cycleConn N c hmem hlc)
  refine ⟨added, hmap, ?_⟩
  unfold buildAll generate_topology
  rw [wireFixed_plain fl N hN]
  simp only [ok_bind]
  exact heval

/-! Counting for claim C4. -/

theorem map_congr_on {a b : Type} :
    ∀ (l : List a) (f g : a → b), (∀ x ∈ l, f x = g x) → l.map f = l.map g := by
  intro l
  induction l with
  | nil => intro f g _; rfl
  | cons x t ih =>
    intro f g h
    rw [List.map_cons, List.map_cons, h x (List.mem_cons_self x t),
      ih f g (fun y hy => h y (List.mem_cons_of_mem x hy))]

theorem countP_all_true {a : Type} (p : a → Bool) :
    ∀ l : List a, (∀ x ∈ l, p x = true) → List.countP p l = l.length := by
  intro l
  induction l with
  | nil => intro; rfl
  | cons x t ih =>
    intro h
    rw [List.countP_cons, if_pos (h x (List.mem_cons_self x t)),
      ih (fun y hy => h y (List.mem_cons_of_mem x hy)), List.length_cons]

theorem countP_decide_ne_of_nodup {a : Nat} {l : List Nat} (hn : l.Nodup)
    (hm : a ∈ l) :
    List.countP (fun c => decide (c ≠ a)) l = l.length - 1 := by
  induction l with
  | nil => cases hm
  | cons b t ih =>
    rw [List.nodup_cons] at hn
    by_cases hab : b = a
    · subst hab
      rw [List.countP_cons, if_neg (by simp), Nat.add_zero,
        countP_all_true _ t (by
          intro x hx
          simp only [ne_eq, decide_eq_true_eq]
          intro he
          exact hn.1 (he ▸ hx)),
        List.length_cons, Nat.succ_sub_one]
    · have h : a ∈ t := by
        rcases List.mem_cons.mp hm with h | h
        · exact absurd h.symm hab
        · exact h
      rw [List.countP_cons, if_pos (by simpa using hab), ih hn.2 h,
        List.length_cons]
      have := List.length_pos_of_mem h
      omega

theorem length_plainCycleConnLabels (N c : Nat) :
    (plainCycleConnLabels N c).length = if c = 1 then 4 else 5 := by
  by_cases h1 : c = 1
  · simp [plainCycleConnLabels, h1]
  · simp [plainCycleConnLabels, h1]

theorem length_flat_cycles (N : Nat) : ∀ (n s : Nat), 2 ≤ s →
    ((List.range' s n).flatMap (plainCycleConnLabels N)).length = 5 * n := by
  intro n
  induction n with
  | zero => intro s _; rfl
  | succ n ih =>
    intro s hs
    rw [List.range'_succ, List.flatMap_cons, List.length_append,
      ih (s + 1) (by omega), length_plainCycleConnLabels, if_neg (by omega)]
    omega

theorem length_flat_all (N : Nat) (hN : 1 ≤ N) :
    ((List.range' 1 N).flatMap (plainCycleConnLabels N)).length = 5 * N - 1 := by
  obtain ⟨m, rfl⟩ : ∃ m, N = m + 1 := ⟨N - 1, by omega⟩
  rw [List.range'_succ, List.flatMap_cons, List.length_append,
    length_plainCycleConnLabels, if_pos rfl, length_flat_cycles (m + 1) m 2 (by omega)]
  omega

/-- Claim C4: for every positive `N`, constructing the plant with
`nr_cycles = N`, empty `intercooler` map and empty `int_heatex` map
succeeds and yields exactly `N` cycle closers, `N` valves, `N`
compressors, `N - 1` inter-cycle heat exchangers and exactly one
condenser, and the number of connections equals `5 * N + 7` (eight
fixed-loop connections plus the per-cycle segments). -/
theorem claim_C4_plain_counts (fl : List String) (N : Nat) (hN : 1 ≤ N) :
    resultOk (buildAll ⟨fl, N, [], []⟩) = true ∧
    List.countP isCycleCloserEntry
      (resultState (buildAll ⟨fl, N, [], []⟩)).components = N ∧
    List.countP isValveEntry
      (resultState (buildAll ⟨fl, N, [], []⟩)).components = N ∧
    List.countP isCompressorEntry
      (resultState (buildAll ⟨fl, N, [], []⟩)).components = N ∧
    List.countP isInterCycleHxEntry
      (resultState (buildAll ⟨fl, N, [], []⟩)).components = N - 1 ∧
    List.countP isCondenserEntry
      (resultState (buildAll ⟨fl, N, [], []⟩)).components = 1 ∧
    (resultState (buildAll ⟨fl, N, [], []⟩)).connections.length = 5 * N + 7 := by
  obtain ⟨added, hmap, heval⟩ := generate_topology_plain fl N hN
  have hlen : added.length = 5 * N - 1 := by
    have h := congrArg List.length hmap
    rw [List.length_map, length_flat_all N hN] at h
    exact h
  have h1mem : (1 : Nat) ∈ List.range' 1 N :=
    List.mem_range'.mpr ⟨0, by omega, by omega⟩
  have hNmem : N ∈ List.range' 1 N :=
    List.mem_range'.mpr ⟨N - 1, by omega, by omega⟩
  have hnodup : (List.range' 1 N).Nodup := List.nodup_range' 1 N 1 (by omega)
  rw [heval]
  refine ⟨rfl, ?_, ?_, ?_, ?_, ?_, ?_⟩
  · show List.countP isCycleCloserEntry
      (generate_components ⟨fl, N, [], []⟩) = N
    rw [generate_components_plain, List.countP_append, countP_flatMap,
      map_congr_on _ _ _ (fun c _ => count_cc_plainCycleEntries N c),
      sum_map_const_one, List.length_range',
      show List.countP isCycleCloserEntry fixedComponents = 0 from rfl]
    omega
  · show List.countP isValveEntry
      (generate_components ⟨fl, N, [], []⟩) = N
    rw [generate_components_plain, List.countP_append, countP_flatMap,
      map_congr_on _ _ _ (fun c _ => count_valve_plainCycleEntries N c),
      sum_map_const_one, List.length_range',
      show List.countP isValveEntry fixedComponents = 0 from rfl]
    omega
  · show List.countP isCompressorEntry
      (generate_components ⟨fl, N, [], []⟩) = N
    rw [generate_components_plain, List.countP_append, countP_flatMap,
      map_congr_on _ _ _ (fun c _ => count_comp_plainCycleEntries N c),
      sum_map_const_one, List.length_range',
      show List.countP isCompressorEntry fixedComponents = 0 from rfl]
    omega
  · show List.countP isInterCycleHxEntry
      (generate_components ⟨fl, N, [], []⟩) = N - 1
    rw [generate_components_plain, List.countP_append, countP_flatMap,
      map_congr_on _ _ _ (fun c _ => count_hx_plainCycleEntries N c),
      sum_map_ite_prop, countP_decide_ne_of_nodup hnodup h1mem,
      List.length_range',
      show List.countP isInterCycleHxEntry fixedComponents = 0 from rfl]
    omega
  · show List.countP isCondenserEntry
      (generate_components ⟨fl, N, [], []⟩) = 1
    rw [generate_components_plain, List.countP_append, countP_flatMap,
      map_congr_on _ _ _ (fun c _ => count_cond_plainCycleEntries N c),
      sum_map_ite_prop, countP_decide_eq_of_nodup hnodup hNmem,
      show List.countP isCondenserEntry fixedComponents = 0 from rfl]
  · show (fixedConnEntries N ++ added).length = 5 * N + 7
    rw [List.length_append,
      show (fixedConnEntries N).length = 8 from rfl]
    omega

/-- Witness for claim C4 at the concrete positive size `N = 3`. -/
theorem claim_C4_witness :
    1 ≤ 3 ∧
    (resultOk (buildAll ⟨["water"], 3, [], []⟩) = true ∧
     List.countP isCycleCloserEntry
       (resultState (buildAll ⟨["water"], 3, [], []⟩)).components = 3 ∧
     List.countP isValveEntry
       (resultState (buildAll ⟨["water"], 3, [], []⟩)).components = 3 ∧
     List.countP isCompressorEntry
       (resultState (buildAll ⟨["water"], 3, [], []⟩)).components = 3 ∧
     List.countP isInterCycleHxEntry
       (resultState (buildAll ⟨["water"], 3, [], []⟩)).components = 3 - 1 ∧
     List.countP isCondenserEntry
       (resultState (buildAll ⟨["water"], 3, [], []⟩)).components = 1 ∧
     (resultState (buildAll ⟨["water"], 3, [], []⟩)).connections.length
       = 5 * 3 + 7) :=
  ⟨by decide, claim_C4_plain_counts ["water"] 3 (by decide)⟩

/-! Cold-side chain characterization (claim C1). -/

/-- Does hot cycle `i` point at cold cycle `t` in the `int_heatex` map?
(The membership test of the collection loop at lines 249-257.) -/
def coldMatchB (cfg : Config) (i t : Nat) : Bool :=
  match alGet cfg.int_heatex i with
  | some (.single x) => decide (x = t)
  | some (.list ts) => decide (t ∈ ts)
  | none => false

/-- The cold-side collection is the ascending filter of the cycle range. -/
theorem cycle_int_heatex_eq_filter (cfg : Config) (t : Nat) :
    cycle_int_heatex cfg t
      = (List.range' 1 cfg.nr_cycles).filter (fun i => coldMatchB cfg i t) := by
  unfold cycle_int_heatex
  have h : ∀ (l : List Nat) (acc : List Nat),
      List.foldl
        (fun acc i =>
          match alGet cfg.int_heatex i with
          | some (.single x) => if x = t then acc ++ [i] else acc
          | some (.list ts) => if t ∈ ts then acc ++ [i] else acc
          | none => acc)
        acc l
        = acc ++ l.filter (fun i => coldMatchB cfg i t) := by
    intro l
    induction l with
    | nil => intro acc; simp
    | cons a tl ih =>
      intro acc
      rw [List.foldl_cons, List.filter_cons]
      cases halget : alGet cfg.int_heatex a with
      | none =>
        simp only [halget, if_neg (by simp [coldMatchB, halget] :
          ¬ coldMatchB cfg a t = true)]
        exact ih acc
      | some v =>
        cases v with
        | single x =>
          by_cases hx : x = t
          · simp only [halget, if_pos hx,
              if_pos (by simp [coldMatchB, halget, hx] :
                coldMatchB cfg a t = true)]
            rw [ih]
            simp
          · simp only [halget, if_neg hx,
              if_neg (by simp [coldMatchB, halget, hx] :
                ¬ coldMatchB cfg a t = true)]
            exact ih acc
        | list ts =>
          by_cases hx : t ∈ ts
          · simp only [halget, if_pos hx,
              if_pos (by simp [coldMatchB, halget, hx] :
                coldMatchB cfg a t = true)]
            rw [ih]
            simp
          · simp only [halget, if_neg hx,
              if_neg (by simp [coldMatchB, halget, hx] :
                ¬ coldMatchB cfg a t = true)]
            exact ih acc
  rw [h]
  simp

/-- The cold-side chain is strictly ascending in the hot-cycle index. -/
theorem cycle_int_heatex_sorted (cfg : Config) (t : Nat) :
    List.Sorted (fun a b => a < b) (cycle_int_heatex cfg t) := by
  rw [cycle_int_heatex_eq_filter]
  exact (List.pairwise_lt_range' 1 cfg.nr_cycles).filter _

/-- The cold-side chain holds exactly the in-range hot cycles whose
`int_heatex` entry points at `t`. -/
theorem mem_cycle_int_heatex {cfg : Config} {t h : Nat} :
    h ∈ cycle_int_heatex cfg t ↔
      h ∈ List.range' 1 cfg.nr_cycles ∧ t ∈ intHeatexTargets cfg h := by
  rw [cycle_int_heatex_eq_filter, List.mem_filter]
  refine and_congr Iff.rfl ?_
  unfold coldMatchB intHeatexTargets
  cases alGet cfg.int_heatex h with
  | none => simp
  | some v =>
    cases v with
    | single x => simp [eq_comm]
    | list ts => simp

/-! Store keys of a configuration with internal heat exchangers only. -/

/-- The cold-cycle targets hot cycle `c` carries in the raw map. -/
def ihTargets (IH : List (Nat × IHVal)) (c : Nat) : List Nat :=
  match alGet IH c with
  | some (.single t) => [t]
  | some (.list ts) => ts
  | none => []

theorem intHeatexTargets_eq_ihTargets (fl : List String) (N : Nat)
    (IH : List (Nat × IHVal)) (ic : List (Nat × ICSpec)) (c : Nat) :
    intHeatexTargets ⟨fl, N, IH, ic⟩ c = ihTargets IH c := rfl

theorem mem_dkeys_dinsert {a : Type} {m : List (String × a)} {key k : String}
    {v : a} :
    k ∈ dkeys (dinsert m key v) ↔ k = key ∨ k ∈ dkeys m := by
  induction m with
  | nil => simp [dinsert, dkeys]
  | cons p t ih =>
    obtain ⟨a', b'⟩ := p
    show k ∈ dkeys (if a' = key then (a', v) :: t
        else (a', b') :: dinsert t key v) ↔ _
    by_cases hp : a' = key
    · rw [if_pos hp]
      subst hp
      simp only [dkeys, List.map_cons, List.mem_cons]
      tauto
    · rw [if_neg hp]
      simp only [dkeys, List.map_cons, List.mem_cons]
      rw [show List.map Prod.fst (dinsert t key v)
        = dkeys (dinsert t key v) from rfl, ih]
      tauto

theorem nodup_dkeys_dinsert {a : Type} {m : List (String × a)} {key : String}
    {v : a} (h : (dkeys m).Nodup) : (dkeys (dinsert m key v)).Nodup := by
  induction m with
  | nil => simp [dinsert, dkeys]
  | cons p t ih =>
    obtain ⟨a', b'⟩ := p
    simp only [dkeys, List.map_cons, List.nodup_cons] at h
    show (dkeys (if a' = key then (a', v) :: t
        else (a', b') :: dinsert t key v)).Nodup
    by_cases hp : a' = key
    · rw [if_pos hp]
      simp only [dkeys, List.map_cons, List.nodup_cons]
      exact h
    · rw [if_neg hp]
      simp only [dkeys, List.map_cons, List.nodup_cons]
      refine ⟨?_, ih h.2⟩
      rw [show List.map Prod.fst (dinsert t key v)
        = dkeys (dinsert t key v) from rfl, mem_dkeys_dinsert]
      rintro (he | he)
      · exact hp he
      · exact h.1 he

/-- The store keys contributed by cycle `c` when only internal heat
exchangers are configured. -/
def cycleKeysIH (N : Nat) (IH : List (Nat × IHVal)) (c : Nat) : List String :=
  [ccKey c, valveKey c]
    ++ (if c ≠ 1 then [hxKey (c - 1) c] else [])
    ++ (if c = N then [condKey c] else [])
    ++ [compKey c]
    ++ (ihTargets IH c).map (fun t => ihxName c t)

theorem mem_dkeys_foldl_ihx (c : Nat) :
    ∀ (ts : List Nat) (m : List (String × Component)) (k : String),
      k ∈ dkeys (ts.foldl
          (fun m t => dinsert m (ihxName c t) ⟨ihxName c t, .heatExchanger⟩) m)
        ↔ k ∈ dkeys m ∨ ∃ t ∈ ts, k = ihxName c t := by
  intro ts
  induction ts with
  | nil => intro m k; simp
  | cons a tl ih =>
    intro m k
    rw [List.foldl_cons, ih, mem_dkeys_dinsert]
    simp only [List.mem_cons]
    constructor
    · rintro (⟨he | hm⟩ | ⟨t, ht, he⟩)
      · exact Or.inr ⟨a, Or.inl rfl, he⟩
      · exact Or.inl hm
      · exact Or.inr ⟨t, Or.inr ht, he⟩
    · rintro (hm | ⟨t, ht | ht, he⟩)
      · exact Or.inl (Or.inr hm)
      · exact Or.inl (Or.inl (ht ▸ he))
      · exact Or.inr ⟨t, ht, he⟩

theorem nodup_dkeys_foldl_ihx (c : Nat) :
    ∀ (ts : List Nat) (m : List (String × Component)),
      (dkeys m).Nodup →
      (dkeys (ts.foldl
          (fun m t => dinsert m (ihxName c t) ⟨ihxName c t, .heatExchanger⟩)
          m)).Nodup := by
  intro ts
  induction ts with
  | nil => intro m h; exact h
  | cons a tl ih =>
    intro m h
    rw [List.foldl_cons]
    exact ih _ (nodup_dkeys_dinsert h)

theorem mem_dkeys_genCycle_IH (fl : List String) (N : Nat)
    (IH : List (Nat × IHVal)) (c : Nat) (m : List (String × Component))
    (k : String) :
    k ∈ dkeys (genCycleComponents ⟨fl, N, IH, []⟩ m c) ↔
      k ∈ dkeys m ∨ k ∈ cycleKeysIH N IH c := by
  have hmem : k ∈ cycleKeysIH N IH c ↔
      (k = ccKey c ∨ k = valveKey c) ∨ (c ≠ 1 ∧ k = hxKey (c - 1) c) ∨
        (c = N ∧ k = condKey c) ∨ k = compKey c ∨
        ∃ t ∈ ihTargets IH c, k = ihxName c t := by
    simp only [cycleKeysIH, List.mem_append, List.mem_cons, List.mem_singleton,
      List.not_mem_nil, or_false, mem_ite_singleton, List.mem_map]
    aesop
  rw [hmem]
  unfold genCycleComponents genCycleIhx genCycleCompression genCycleCond
    genCycleHx genCycleBase ihTargets
  cases halget : alGet IH c with
  | none =>
    simp only [halget, alGet_nil]
    split_ifs <;>
      simp only [mem_dkeys_dinsert, List.mem_singleton, List.not_mem_nil,
        false_and, exists_false, or_false] <;>
      itauto
  | some v =>
    cases v with
    | single x =>
      simp only [halget, alGet_nil]
      split_ifs <;>
        simp only [mem_dkeys_dinsert, List.mem_singleton, exists_eq_left] <;>
        itauto
    | list ts =>
      simp only [halget, alGet_nil]
      split_ifs <;>
        simp only [mem_dkeys_foldl_ihx, mem_dkeys_dinsert] <;>
        itauto

theorem nodup_dkeys_genCycle_IH (fl : List String) (N : Nat)
    (IH : List (Nat × IHVal)) (c : Nat) (m : List (String × Component))
    (h : (dkeys m).Nodup) :
    (dkeys (genCycleComponents ⟨fl, N, IH, []⟩ m c)).Nodup := by
  unfold genCycleComponents genCycleIhx genCycleCompression genCycleCond
    genCycleHx genCycleBase
  cases halget : alGet IH c with
  | none =>
    simp only [halget, alGet_nil]
    split_ifs <;>
    · repeat
        first
          | exact h
          | exact nodup_dkeys_dinsert h
          | apply nodup_dkeys_dinsert
          | apply nodup_dkeys_foldl_ihx
  | some v =>
    cases v with
    | single x =>
      simp only [halget, alGet_nil]
      split_ifs <;>
      · repeat
          first
            | exact h
            | exact nodup_dkeys_dinsert h
            | apply nodup_dkeys_dinsert
            | apply nodup_dkeys_foldl_ihx
    | list ts =>
      simp only [halget, alGet_nil]
      split_ifs <;>
      · repeat
          first
            | exact h
            | exact nodup_dkeys_dinsert h
            | apply nodup_dkeys_dinsert
            | apply nodup_dkeys_foldl_ihx

/-- Key membership in the full store of an internal-heat-exchanger-only
configuration. -/
theorem mem_dkeys_generate_IH (fl : List String) (N : Nat)
    (IH : List (Nat × IHVal)) (k : String) :
    k ∈ dkeys (generate_components ⟨fl, N, IH, []⟩) ↔
      k ∈ dkeys fixedComponents ∨
        ∃ c ∈ List.range' 1 N, k ∈ cycleKeysIH N IH c := by
  have h : ∀ (l : List Nat) (m : List (String × Component)),
      k ∈ dkeys (l.foldl (genCycleComponents ⟨fl, N, IH, []⟩) m) ↔
        k ∈ dkeys m ∨ ∃ c ∈ l, k ∈ cycleKeysIH N IH c := by
    intro l
    induction l with
    | nil => intro m; simp
    | cons a tl ih =>
      intro m
      rw [List.foldl_cons, ih, mem_dkeys_genCycle_IH]
      simp only [List.mem_cons]
      constructor
      · rintro (⟨hm | hk⟩ | ⟨c, hc, hk⟩)
        · exact Or.inl hm
        · exact Or.inr ⟨a, Or.inl rfl, hk⟩
        · exact Or.inr ⟨c, Or.inr hc, hk⟩
      · rintro (hm | ⟨c, hc | hc, hk⟩)
        · exact Or.inl (Or.inl hm)
        · exact Or.inl (Or.inr (hc ▸ hk))
        · exact Or.inr ⟨c, hc, hk⟩
  exact h _ _

/-- The full store of an internal-heat-exchanger-only configuration has
distinct keys. -/
theorem nodup_dkeys_generate_IH (fl : List String) (N : Nat)
    (IH : List (Nat × IHVal)) :
    (dkeys (generate_components ⟨fl, N, IH, []⟩)).Nodup := by
  have h : ∀ (l : List Nat) (m : List (String × Component)),
      (dkeys m).Nodup →
      (dkeys (l.foldl (genCycleComponents ⟨fl, N, IH, []⟩) m)).Nodup := by
    intro l
    induction l with
    | nil => intro m hm; exact hm
    | cons a tl ih =>
      intro m hm
      rw [List.foldl_cons]
      exact ih _ (nodup_dkeys_genCycle_IH fl N IH a m hm)
  exact h _ _ (by decide)

theorem noI_ccKey (c : Nat) : 'I' ∉ (ccKey c).data := by
  rw [ccKey_data]
  simp only [List.mem_append]
  rintro (h | h)
  · exact absurd h (by decide)
  · exact noI_natDigits c h

theorem noI_valveKey (c : Nat) : 'I' ∉ (valveKey c).data := by
  rw [valveKey_data]
  simp only [List.mem_append]
  rintro (h | h)
  · exact absurd h (by decide)
  · exact noI_natDigits c h

theorem noI_condKey (c : Nat) : 'I' ∉ (condKey c).data := by
  rw [condKey_data]
  simp only [List.mem_append]
  rintro (h | h)
  · exact absurd h (by decide)
  · exact noI_natDigits c h

theorem noI_compKey (c : Nat) : 'I' ∉ (compKey c).data := by
  rw [compKey_data]
  simp only [List.mem_append]
  rintro (h | h)
  · exact absurd h (by decide)
  · exact noI_natDigits c h

theorem noI_hxKey (a b : Nat) : 'I' ∉ (hxKey a b).data := by
  rw [hxKey_data]
  simp only [List.mem_append, List.mem_cons]
  rintro (h | h | h | h)
  · exact absurd h (by decide)
  · exact noI_natDigits a h
  · exact absurd h (by decide)
  · exact noI_natDigits b h

theorem pat_head (c : Nat) :
    (("Internal Heat Exchanger " ++ natRepr c) : String).data.head? = some 'I' := by
  rw [String.data_append]
  rfl

/-- A key without a capital `I` cannot contain the hot-side filter pattern. -/
theorem strContains_false_of_noI {k : String} (c : Nat) (h : 'I' ∉ k.data) :
    strContains k ("Internal Heat Exchanger " ++ natRepr c) = false :=
  containsB_eq_false_of_head_not_mem (pat_head c) h

theorem isPrefixB_append_cancel (p : List Char) :
    ∀ a b, isPrefixB (p ++ a) (p ++ b) = isPrefixB a b := by
  induction p with
  | nil => intro a b; rfl
  | cons x xs ih =>
    intro a b
    simp only [List.cons_append, isPrefixB, List.append_eq]
    rw [ih a b]
    simp

theorem natDigits_lt10 {n : Nat} (h : n < 10) : natDigits n = [digitChar n] := by
  rw [natDigits_eq, if_pos h]

/-- For single-digit hot indices, an internal heat exchanger name contains
the filter pattern of cycle `c` exactly when its hot index is `c`. -/
theorem strContains_ihx_iff {h t c : Nat} (hh : h < 10) (hc : c < 10) :
    strContains (ihxName h t) ("Internal Heat Exchanger " ++ natRepr c) = true
      ↔ h = c := by
  unfold strContains
  rw [show (ihxName h t).data
      = 'I' :: ("nternal Heat Exchanger ".data
          ++ (natDigits h ++ '_' :: natDigits t)) from by
    rw [ihxName_data]; rfl]
  rw [show (("Internal Heat Exchanger " ++ natRepr c) : String).data
      = 'I' :: ("nternal Heat Exchanger ".data ++ natDigits c) from by
    rw [String.data_append]; rfl]
  rw [containsB_cons_eq_isPrefixB
    (show ('I' :: ("nternal Heat Exchanger ".data ++ natDigits c)).head?
      = some 'I' from rfl) (by
    intro hmem
    simp only [List.mem_append, List.mem_cons] at hmem
    rcases hmem with hm | hm | hm | hm
    · exact absurd hm (by decide)
    · exact noI_natDigits h hm
    · exact absurd hm (by decide)
    · exact noI_natDigits t hm)]
  rw [show isPrefixB
        ('I' :: ("nternal Heat Exchanger ".data ++ natDigits c))
        ('I' :: ("nternal Heat Exchanger ".data
          ++ (natDigits h ++ '_' :: natDigits t)))
      = isPrefixB (natDigits c) (natDigits h ++ '_' :: natDigits t) from by
    simp only [isPrefixB, isPrefixB_append_cancel]
    simp]
  rw [natDigits_lt10 hc, natDigits_lt10 hh]
  simp only [List.cons_append, List.nil_append, isPrefixB, Bool.and_eq_true,
    decide_eq_true_eq]
  constructor
  · rintro ⟨he, -⟩
    exact (digitChar_inj hc hh he).symm
  · rintro rfl
    exact ⟨rfl, trivial⟩



theorem mem_cycleKeysIH {N : Nat} {IH : List (Nat × IHVal)} {c : Nat}
    {k : String} :
    k ∈ cycleKeysIH N IH c ↔
      (k = ccKey c ∨ k = valveKey c) ∨ (c ≠ 1 ∧ k = hxKey (c - 1) c) ∨
        (c = N ∧ k = condKey c) ∨ k = compKey c ∨
        ∃ t ∈ ihTargets IH c, k = ihxName c t := by
  simp only [cycleKeysIH, List.mem_append, List.mem_cons, List.mem_singleton,
    List.not_mem_nil, or_false, mem_ite_singleton, List.mem_map]
  aesop

/-- The hot-side filter keeps exactly the internal heat exchangers whose
hot index is `c` (single-digit regime). -/
theorem mem_hot_filter_iff (fl : List String) (N : Nat)
    (IH : List (Nat × IHVal)) (hN : N ≤ 9) {c : Nat}
    (hc : c ∈ List.range' 1 N) (k : String) :
    k ∈ (dkeys (generate_components ⟨fl, N, IH, []⟩)).filter
        (fun k => strContains k ("Internal Heat Exchanger " ++ natRepr c))
      ↔ ∃ t ∈ ihTargets IH c, k = ihxName c t := by
  have hc10 : c < 10 := by
    obtain ⟨i, hi, hci⟩ := List.mem_range'.mp hc
    omega
  rw [List.mem_filter, mem_dkeys_generate_IH]
  constructor
  · rintro ⟨hfix | ⟨c', hc', hkc⟩, hcont⟩
    · exfalso
      simp only [fixedComponents, dkeys, List.map_cons, List.map_nil] at hfix
      fin_cases hfix <;>
        (rw [strContains_false_of_noI c (by decide)] at hcont
         exact Bool.noConfusion hcont)
    · have hc'10 : c' < 10 := by
        obtain ⟨i, hi, hci⟩ := List.mem_range'.mp hc'
        omega
      rw [mem_cycleKeysIH] at hkc
      rcases hkc with (h | h) | ⟨-, h⟩ | ⟨-, h⟩ | h | ⟨t, ht, h⟩ <;> subst h
      · rw [strContains_false_of_noI c (noI_ccKey c')] at hcont
        exact Bool.noConfusion hcont
      · rw [strContains_false_of_noI c (noI_valveKey c')] at hcont
        exact Bool.noConfusion hcont
      · rw [strContains_false_of_noI c (noI_hxKey (c' - 1) c')] at hcont
        exact Bool.noConfusion hcont
      · rw [strContains_false_of_noI c (noI_condKey c')] at hcont
        exact Bool.noConfusion hcont
      · rw [strContains_false_of_noI c (noI_compKey c')] at hcont
        exact Bool.noConfusion hcont
      · rw [strContains_ihx_iff hc'10 hc10] at hcont
        subst hcont
        exact ⟨t, ht, rfl⟩
  · rintro ⟨t, ht, rfl⟩
    refine ⟨Or.inr ⟨c, hc, ?_⟩, (strContains_ihx_iff hc10 hc10).mpr rfl⟩
    rw [mem_cycleKeysIH]
    exact Or.inr (Or.inr (Or.inr (Or.inr ⟨t, ht, rfl⟩)))



instance : IsTotal String (fun a b => strGeB a b = true) :=
  ⟨fun a b => by
    have h := strGeB_total a b
    rw [Bool.or_eq_true] at h
    simpa using h⟩

instance : IsTrans String (fun a b => strGeB a b = true) :=
  ⟨fun a b c => strGeB_trans a b c⟩

instance : IsAntisymm String (fun a b => strGeB a b = true) :=
  ⟨fun a b => strGeB_antisymm a b⟩

instance : IsTotal Nat (fun a b => b ≤ a) :=
  ⟨fun a b => le_total b a⟩

instance : IsTrans Nat (fun a b => b ≤ a) :=
  ⟨fun a b c h1 h2 => le_trans h2 h1⟩

instance : IsAntisymm Nat (fun a b => b ≤ a) :=
  ⟨fun a b h1 h2 => le_antisymm h2 h1⟩

theorem charsLe_natDigits_le : ∀ a, a < 10 → ∀ b, b < 10 →
    (charsLe (natDigits a) (natDigits b) = true ↔ a ≤ b) := by decide

/-- Lexicographic order on same-hot-cycle internal-heat-exchanger names is
the reverse numeric order of the cold index (single-digit regime). -/
theorem strGeB_ihxName_iff {c a b : Nat} (ha : a < 10) (hb : b < 10) :
    strGeB (ihxName c a) (ihxName c b) = true ↔ b ≤ a := by
  unfold strGeB
  rw [ihxName_data, ihxName_data, charsLe_append_common,
    charsLe_append_common]
  rw [show charsLe ('_' :: natDigits b) ('_' :: natDigits a)
      = charsLe (natDigits b) (natDigits a) from by simp [charsLe]]
  exact charsLe_natDigits_le b hb a ha

/-- The hot-side chain of the generator equals the numerically descending
spec chain in the single-digit regime. -/
theorem hot_chain_eq_spec (fl : List String) (N : Nat)
    (IH : List (Nat × IHVal)) (hN : N ≤ 9)
    (ht9 : ∀ h ∈ List.range' 1 N, ∀ t ∈ ihTargets IH h, t < 10)
    {c : Nat} (hc : c ∈ List.range' 1 N) :
    int_heatexs_of (generate_components ⟨fl, N, IH, []⟩) c
      = specHotChain ⟨fl, N, IH, []⟩ c := by
  have ht : ∀ t ∈ ihTargets IH c, t < 10 := ht9 c hc
  have hnd1 : ((dkeys (generate_components ⟨fl, N, IH, []⟩)).filter
      (fun k => strContains k ("Internal Heat Exchanger " ++ natRepr c))).Nodup :=
    (nodup_dkeys_generate_IH fl N IH).filter _
  have hnd2 : (((ihTargets IH c).dedup).map (fun t => ihxName c t)).Nodup :=
    (List.nodup_dedup _).map_on
      (fun x _ y _ he => ((ihxName_inj he).2 : x = y))
  have hperm : List.Perm
      ((dkeys (generate_components ⟨fl, N, IH, []⟩)).filter
        (fun k => strContains k ("Internal Heat Exchanger " ++ natRepr c)))
      (((ihTargets IH c).dedup).map (fun t => ihxName c t)) := by
    rw [List.perm_ext_iff_of_nodup hnd1 hnd2]
    intro k
    rw [mem_hot_filter_iff fl N IH hN hc k, List.mem_map]
    constructor
    · rintro ⟨t, htm, rfl⟩
      exact ⟨t, List.mem_dedup.mpr htm, rfl⟩
    · rintro ⟨t, htm, rfl⟩
      exact ⟨t, List.mem_dedup.mp htm, rfl⟩
  have hs1 : List.Sorted (fun a b : String => strGeB a b = true)
      (List.insertionSort (fun a b => strGeB a b = true)
        ((dkeys (generate_components ⟨fl, N, IH, []⟩)).filter
          (fun k => strContains k ("Internal Heat Exchanger " ++ natRepr c)))) :=
    List.sorted_insertionSort _ _
  have hs : List.Sorted (fun a b : Nat => b ≤ a)
      (List.insertionSort (fun a b : Nat => b ≤ a) ((ihTargets IH c).dedup)) :=
    List.sorted_insertionSort _ _
  have hs2 : List.Sorted (fun a b : String => strGeB a b = true)
      ((List.insertionSort (fun a b : Nat => b ≤ a)
        ((ihTargets IH c).dedup)).map (fun t => ihxName c t)) := by
    have hs2' : List.Pairwise
        (fun a b : Nat => strGeB (ihxName c a) (ihxName c b) = true)
        (List.insertionSort (fun a b : Nat => b ≤ a)
          ((ihTargets IH c).dedup)) := by
      refine List.Pairwise.imp_of_mem ?_ hs
      intro a b hma hmb hr
      have ha : a < 10 :=
        ht a (List.mem_dedup.mp ((List.mem_insertionSort _).mp hma))
      have hb : b < 10 :=
        ht b (List.mem_dedup.mp ((List.mem_insertionSort _).mp hmb))
      exact (strGeB_ihxName_iff ha hb).mpr hr
    exact List.pairwise_map.mpr hs2'
  have hp : List.Perm
      (List.insertionSort (fun a b => strGeB a b = true)
        ((dkeys (generate_components ⟨fl, N, IH, []⟩)).filter
          (fun k => strContains k ("Internal Heat Exchanger " ++ natRepr c))))
      ((List.insertionSort (fun a b : Nat => b ≤ a)
        ((ihTargets IH c).dedup)).map (fun t => ihxName c t)) := by
    refine ((List.perm_insertionSort _ _).trans hperm).trans ?_
    exact ((List.perm_insertionSort _ _).map _).symm
  unfold int_heatexs_of specHotChain
  rw [intHeatexTargets_eq_ihTargets]
  exact List.eq_of_perm_of_sorted hp hs1 hs2

/-- Claim C1 (amended): for a configuration with `nr_cycles = N` and an
`int_heatex` map (no intercoolers), the cold-side chain at cycle `c`
contains exactly the in-range hot cycles whose `int_heatex` entry points
at `c`, in strictly ascending numeric order — and, when every index is a
single decimal digit (`N ≤ 9` and all cold targets `< 10`), the hot-side
chain at cycle `c` contains exactly the internal heat exchangers whose
hot index is `c`, in descending numeric order of the cold index
(`specHotChain`).  For multi-digit indices the hot side instead follows
the lexicographic string order (see the counterexample). -/
theorem claim_C1_amended_chain_order (fl : List String) (N : Nat)
    (IH : List (Nat × IHVal)) (hN : N ≤ 9)
    (ht9 : ∀ h ∈ List.range' 1 N, ∀ t ∈ ihTargets IH h, t < 10)
    (c : Nat) (hc : c ∈ List.range' 1 N) :
    List.Sorted (fun a b => a < b) (cycle_int_heatex ⟨fl, N, IH, []⟩ c) ∧
    (∀ h : Nat, h ∈ cycle_int_heatex ⟨fl, N, IH, []⟩ c ↔
        h ∈ List.range' 1 N ∧ c ∈ intHeatexTargets ⟨fl, N, IH, []⟩ h) ∧
    int_heatexs_of (generate_components ⟨fl, N, IH, []⟩) c
      = specHotChain ⟨fl, N, IH, []⟩ c :=
  ⟨cycle_int_heatex_sorted _ _,
   fun _ => mem_cycle_int_heatex,
   hot_chain_eq_spec fl N IH hN ht9 hc⟩

/-- Witness for the amended C1 theorem at the configuration
`nr_cycles = 2`, `int_heatex = {2: [1]}`, cycle 2. -/
theorem claim_C1_amended_witness :
    ((2 : Nat) ≤ 9 ∧
     (∀ h ∈ List.range' 1 2, ∀ t ∈ ihTargets [(2, IHVal.list [1])] h,
        t < 10) ∧
     (2 : Nat) ∈ List.range' 1 2) ∧
    (List.Sorted (fun a b => a < b)
        (cycle_int_heatex ⟨["water"], 2, [(2, IHVal.list [1])], []⟩ 2) ∧
     (∀ h : Nat,
        h ∈ cycle_int_heatex ⟨["water"], 2, [(2, IHVal.list [1])], []⟩ 2 ↔
          h ∈ List.range' 1 2 ∧
            2 ∈ intHeatexTargets ⟨["water"], 2, [(2, IHVal.list [1])], []⟩ h) ∧
     int_heatexs_of
        (generate_components ⟨["water"], 2, [(2, IHVal.list [1])], []⟩) 2
       = specHotChain ⟨["water"], 2, [(2, IHVal.list [1])], []⟩ 2) :=
  ⟨⟨by decide, by decide, by decide⟩,
   claim_C1_amended_chain_order ["water"] 2 [(2, .list [1])] (by decide)
     (by decide) 2 (by decide)⟩

/-- Witness for C10's universal parts at concrete inputs. -/
theorem claim_C10_witness :
    (("Consumer", (⟨"Consumer", .heatExchangerSimple⟩ : Component)).1
        = (⟨"Consumer", Kind.heatExchangerSimple⟩ : Component).label ∨
      ∃ c i, (alGet cfg_twoCycleIHX.intercooler c).isSome = true ∧
        "Consumer" = icCompKey c i ∧
        (⟨"Consumer", Kind.heatExchangerSimple⟩ : Component).label
          = icCompLabel c i ∧
        (⟨"Consumer", Kind.heatExchangerSimple⟩ : Component).kind
          = .compressor) ∧
    icCompKey 2 1 ≠ icCompLabel 2 1 ∧
    (delete_component stDup "A").st.connections
      = stDup.connections.filter
          (fun kv => !("A" = kv.2.source.label || "A" = kv.2.target.label)) :=
  ⟨claim_C10_key_label_mismatch.1 cfg_twoCycleIHX
      ("Consumer", ⟨"Consumer", .heatExchangerSimple⟩) (by decide),
   claim_C10_key_label_mismatch.2.1 2 1,
   (claim_C10_key_label_mismatch.2.2.2 stDup "A" compA (by decide)).1⟩

end HTWP

